import Mathlib

/-!
# Charvak physics engine: a shallow embedding and its verified properties

The C sources under `physics_engine_c/src` are embedded as pure Lean functions.

Modelling conventions.

* `float` is an arbitrary linearly ordered field `R` (exact arithmetic: no
  rounding, no NaN, no signed zero).  Every definition is generic in `R`, so it
  evaluates on `ℚ` and specialises to `ℝ`.
* `sqrtf` comes from libm, not from the repository: every function that calls
  it takes it as the parameter `sqrtf : R → R`.  Theorems that need it to be a
  true square root say so by an explicit hypothesis (`IsSqrt`).
* `fabsf`, `fminf`, `fmaxf` are `|·|`, `min`, `max`.
* `INFINITY` only ever lands in the `mass` field, which is the type `Mass R`.
  The two products with an infinite mass have no value in exact arithmetic:
  gravity on a non-static body of infinite mass is the parameter `scale_inf`,
  the kinetic energy of a body of infinite mass is the parameter `inf_times`.
* A `RigidBody*` held by a world is an index into the world's body list, a call
  by pointer that mutates a body returns the new body.  The tag `shape_type`
  and the union `shape` are one inductive type.
-/

namespace Charvak

/-! ## vector_math.h / vector_math.c -/

/-- The struct `Vector3`. -/
structure Vector3 (R : Type) where
  x : R
  y : R
  z : R
deriving DecidableEq

section Definitions

variable {R : Type} [LinearOrderedField R]

/-- The constant `VECTOR_EPSILON` (`1e-6f`). -/
def VECTOR_EPSILON : R := 1 / 1000000

/-- The constant `FLT_MAX` of `<float.h>`: `(2 - 2^-23) * 2^127`. -/
def FLT_MAX : R := 340282346638528859811704183484516925440

def vector3_create (x y z : R) : Vector3 R := ⟨x, y, z⟩

def vector3_zero : Vector3 R := ⟨0, 0, 0⟩

def vector3_add (a b : Vector3 R) : Vector3 R := ⟨a.x + b.x, a.y + b.y, a.z + b.z⟩

def vector3_subtract (a b : Vector3 R) : Vector3 R := ⟨a.x - b.x, a.y - b.y, a.z - b.z⟩

def vector3_scale (v : Vector3 R) (scalar : R) : Vector3 R :=
  ⟨v.x * scalar, v.y * scalar, v.z * scalar⟩

def vector3_negate (v : Vector3 R) : Vector3 R := ⟨-v.x, -v.y, -v.z⟩

def vector3_dot (a b : Vector3 R) : R := a.x * b.x + a.y * b.y + a.z * b.z

def vector3_cross (a b : Vector3 R) : Vector3 R :=
  ⟨a.y * b.z - a.z * b.y, a.z * b.x - a.x * b.z, a.x * b.y - a.y * b.x⟩

def vector3_length_squared (v : Vector3 R) : R := v.x * v.x + v.y * v.y + v.z * v.z

def vector3_length (sqrtf : R → R) (v : Vector3 R) : R := sqrtf (vector3_length_squared v)

def vector3_normalize (sqrtf : R → R) (v : Vector3 R) : Vector3 R :=
  let len := vector3_length sqrtf v
  if len < VECTOR_EPSILON then vector3_zero else vector3_scale v (1 / len)

def vector3_distance (sqrtf : R → R) (a b : Vector3 R) : R :=
  vector3_length sqrtf (vector3_subtract b a)

def vector3_equals (a b : Vector3 R) (epsilon : R) : Bool :=
  decide (|a.x - b.x| < epsilon) && decide (|a.y - b.y| < epsilon) &&
    decide (|a.z - b.z| < epsilon)

/-- The libm function `copysignf`: the magnitude of `x` with the sign of `y`. -/
def copysignf (x y : R) : R := if 0 ≤ y then |x| else -|x|

end Definitions

/-! ## rigid_body.h / rigid_body.c -/

/-- The union `CollisionShape` together with its tag `ShapeType`. -/
inductive CollisionShape (R : Type) where
  | sphere (radius : R)
  | aabb (half_extents : Vector3 R)
  | plane (normal : Vector3 R) (distance : R)
deriving DecidableEq

/-- The values of the `mass` field: a `float` or `INFINITY`. -/
inductive Mass (R : Type) where
  | finite (value : R)
  | infinity
deriving DecidableEq

/-- The struct `RigidBody`. -/
structure RigidBody (R : Type) where
  position : Vector3 R
  velocity : Vector3 R
  acceleration : Vector3 R
  rotation : Vector3 R
  angular_velocity : Vector3 R
  angular_acceleration : Vector3 R
  mass : Mass R
  inverse_mass : R
  restitution : R
  friction : R
  force_accumulator : Vector3 R
  torque_accumulator : Vector3 R
  shape : CollisionShape R
  is_static : Bool
  is_sleeping : Bool
  id : Int
deriving DecidableEq

section Definitions

variable {R : Type} [LinearOrderedField R]

/-- The body `rigid_body_create` returns, `next_id` being the value of the
counter `next_body_id` (the zeroed union with tag 0 is a sphere of radius 0). -/
def rigid_body_create (next_id : Int) : RigidBody R :=
  { position := vector3_zero, velocity := vector3_zero, acceleration := vector3_zero,
    rotation := vector3_zero, angular_velocity := vector3_zero,
    angular_acceleration := vector3_zero,
    mass := Mass.finite 1, inverse_mass := 1, restitution := 1 / 2, friction := 3 / 10,
    force_accumulator := vector3_zero, torque_accumulator := vector3_zero,
    shape := CollisionShape.sphere 0, is_static := false, is_sleeping := false,
    id := next_id }

def rigid_body_set_mass (body : RigidBody R) (mass : Mass R) : RigidBody R :=
  match mass with
  | Mass.finite m =>
    if m ≤ 0 ∨ body.is_static = true then
      { body with mass := Mass.infinity, inverse_mass := 0 }
    else
      { body with mass := Mass.finite m, inverse_mass := 1 / m }
  | Mass.infinity =>
    -- `INFINITY <= 0.0f` is false, and `1.0f / INFINITY` is 0
    if body.is_static = true then
      { body with mass := Mass.infinity, inverse_mass := 0 }
    else
      { body with mass := Mass.infinity, inverse_mass := 0 }

def rigid_body_init_sphere (body : RigidBody R) (position : Vector3 R) (radius mass : R) :
    RigidBody R :=
  rigid_body_set_mass
    { body with position := position, shape := CollisionShape.sphere radius }
    (Mass.finite mass)

def rigid_body_init_aabb (body : RigidBody R) (position half_extents : Vector3 R) (mass : R) :
    RigidBody R :=
  rigid_body_set_mass
    { body with position := position, shape := CollisionShape.aabb half_extents }
    (Mass.finite mass)

def rigid_body_init_plane (sqrtf : R → R) (body : RigidBody R) (normal : Vector3 R)
    (distance : R) : RigidBody R :=
  { body with
    position := vector3_zero
    shape := CollisionShape.plane (vector3_normalize sqrtf normal) distance
    is_static := true
    mass := Mass.infinity
    inverse_mass := 0 }

def rigid_body_add_force (body : RigidBody R) (force : Vector3 R) : RigidBody R :=
  if body.is_static = false then
    { body with force_accumulator := vector3_add body.force_accumulator force }
  else body

def rigid_body_clear_forces (body : RigidBody R) : RigidBody R :=
  { body with force_accumulator := vector3_zero, torque_accumulator := vector3_zero }

def rigid_body_set_position (body : RigidBody R) (position : Vector3 R) : RigidBody R :=
  if body.is_static = false then { body with position := position } else body

def rigid_body_set_velocity (body : RigidBody R) (velocity : Vector3 R) : RigidBody R :=
  if body.is_static = false then { body with velocity := velocity } else body

def rigid_body_set_restitution (body : RigidBody R) (restitution : R) : RigidBody R :=
  { body with restitution := Max.max 0 (Min.min 1 restitution) }

def rigid_body_set_friction (body : RigidBody R) (friction : R) : RigidBody R :=
  { body with friction := Max.max 0 friction }

def rigid_body_set_static (body : RigidBody R) (is_static : Bool) : RigidBody R :=
  let b1 := { body with is_static := is_static }
  if is_static = true then
    { b1 with
      velocity := vector3_zero
      angular_velocity := vector3_zero
      mass := Mass.infinity
      inverse_mass := 0 }
  else rigid_body_set_mass b1 b1.mass

def rigid_body_add_torque (body : RigidBody R) (torque : Vector3 R) : RigidBody R :=
  if body.is_static = false then
    { body with torque_accumulator := vector3_add body.torque_accumulator torque }
  else body

def rigid_body_add_force_at_point (body : RigidBody R) (force point : Vector3 R) :
    RigidBody R :=
  if body.is_static = true then body
  else
    let b1 := rigid_body_add_force body force
    let offset := vector3_subtract point b1.position
    let torque := vector3_cross offset force
    rigid_body_add_torque b1 torque

def rigid_body_add_impulse (body : RigidBody R) (impulse : Vector3 R) : RigidBody R :=
  if body.is_static = false then
    let velocity_change := vector3_scale impulse body.inverse_mass
    { body with velocity := vector3_add body.velocity velocity_change }
  else body

def rigid_body_get_point_velocity (body : RigidBody R) (point : Vector3 R) : Vector3 R :=
  let offset := vector3_subtract point body.position
  let rotational_velocity := vector3_cross body.angular_velocity offset
  vector3_add body.velocity rotational_velocity

/-- The function `rigid_body_get_kinetic_energy`; `inf_times x` is the product
`0.5f * INFINITY * x`, which has no value in exact arithmetic. -/
def rigid_body_get_kinetic_energy (inf_times : R → R) (body : RigidBody R) : R :=
  match body.mass with
  | Mass.finite m => 1 / 2 * m * vector3_length_squared body.velocity
  | Mass.infinity => inf_times (vector3_length_squared body.velocity)

end Definitions

/-! ## collision_detection.h / collision_detection.c -/

/-- The struct `CollisionInfo` without its two body pointers: the bodies are
passed next to it (or, in a world, named by their indices). -/
structure CollisionInfo (R : Type) where
  has_collision : Bool
  contact_point : Vector3 R
  normal : Vector3 R
  penetration_depth : R
deriving DecidableEq

section Definitions

variable {R : Type} [LinearOrderedField R]

def get_aabb_min (body : RigidBody R) : Vector3 R :=
  match body.shape with
  | CollisionShape.sphere radius =>
    vector3_create (body.position.x - radius) (body.position.y - radius)
      (body.position.z - radius)
  | CollisionShape.aabb half_extents =>
    vector3_create (body.position.x - half_extents.x) (body.position.y - half_extents.y)
      (body.position.z - half_extents.z)
  | CollisionShape.plane _ _ => vector3_create (-FLT_MAX) (-FLT_MAX) (-FLT_MAX)

def get_aabb_max (body : RigidBody R) : Vector3 R :=
  match body.shape with
  | CollisionShape.sphere radius =>
    vector3_create (body.position.x + radius) (body.position.y + radius)
      (body.position.z + radius)
  | CollisionShape.aabb half_extents =>
    vector3_create (body.position.x + half_extents.x) (body.position.y + half_extents.y)
      (body.position.z + half_extents.z)
  | CollisionShape.plane _ _ => vector3_create FLT_MAX FLT_MAX FLT_MAX

def aabb_overlap_test (body_a body_b : RigidBody R) : Bool :=
  let min_a := get_aabb_min body_a
  let max_a := get_aabb_max body_a
  let min_b := get_aabb_min body_b
  let max_b := get_aabb_max body_b
  (decide (min_a.x ≤ max_b.x) && decide (max_a.x ≥ min_b.x)) &&
  (decide (min_a.y ≤ max_b.y) && decide (max_a.y ≥ min_b.y)) &&
  (decide (min_a.z ≤ max_b.z) && decide (max_a.z ≥ min_b.z))

def closest_point_on_aabb (point : Vector3 R) (aabb : RigidBody R) : Vector3 R :=
  let min := get_aabb_min aabb
  let max := get_aabb_max aabb
  { x := Max.max min.x (Min.min point.x max.x)
    y := Max.max min.y (Min.min point.y max.y)
    z := Max.max min.z (Min.min point.z max.z) }

/-- The function `distance_to_plane`; `normal` and `d` are the members
`shape.plane.normal` and `shape.plane.distance` of the plane body. -/
def distance_to_plane (point normal : Vector3 R) (d : R) : R :=
  vector3_dot point normal - d

def point_in_aabb (point : Vector3 R) (aabb : RigidBody R) : Bool :=
  let min := get_aabb_min aabb
  let max := get_aabb_max aabb
  (decide (point.x ≥ min.x) && decide (point.x ≤ max.x)) &&
  (decide (point.y ≥ min.y) && decide (point.y ≤ max.y)) &&
  (decide (point.z ≥ min.z) && decide (point.z ≤ max.z))

/-- The function `sphere_sphere_collision`; `radius_a` and `radius_b` are the
members `shape.sphere.radius` of the two bodies.  The result `none` is the
return value `false`. -/
def sphere_sphere_collision (sqrtf : R → R) (sphere_a : RigidBody R) (radius_a : R)
    (sphere_b : RigidBody R) (radius_b : R) : Option (CollisionInfo R) :=
  let center_to_center := vector3_subtract sphere_b.position sphere_a.position
  let distance := vector3_length sqrtf center_to_center
  let combined_radius := radius_a + radius_b
  if distance < combined_radius then
    let penetration_depth := combined_radius - distance
    let normal :=
      if distance > VECTOR_EPSILON then vector3_normalize sqrtf center_to_center
      else vector3_create 1 0 0
    let contact_offset := vector3_scale normal (radius_a - penetration_depth * (1 / 2))
    some { has_collision := true
           contact_point := vector3_add sphere_a.position contact_offset
           normal := normal
           penetration_depth := penetration_depth }
  else none

/-- The function `sphere_aabb_collision`; `radius` is `sphere->shape.sphere.radius`
and `half_extents` is `aabb->shape.aabb.half_extents`. -/
def sphere_aabb_collision (sqrtf : R → R) (sphere : RigidBody R) (radius : R)
    (aabb : RigidBody R) (half_extents : Vector3 R) : Option (CollisionInfo R) :=
  let closest_point := closest_point_on_aabb sphere.position aabb
  let sphere_to_closest := vector3_subtract closest_point sphere.position
  let distance := vector3_length sqrtf sphere_to_closest
  if distance < radius then
    let normal :=
      if distance > VECTOR_EPSILON then
        vector3_normalize sqrtf (vector3_negate sphere_to_closest)
      else
        let aabb_center := aabb.position
        let to_sphere := vector3_subtract sphere.position aabb_center
        let min_penetration : R := FLT_MAX
        let min_normal : Vector3 R := vector3_create 1 0 0
        let x_penetration := half_extents.x - |to_sphere.x|
        let step_x : R × Vector3 R :=
          if x_penetration < min_penetration then
            (x_penetration, vector3_create (if to_sphere.x > 0 then 1 else -1) 0 0)
          else (min_penetration, min_normal)
        let y_penetration := half_extents.y - |to_sphere.y|
        let step_y : R × Vector3 R :=
          if y_penetration < step_x.1 then
            (y_penetration, vector3_create 0 (if to_sphere.y > 0 then 1 else -1) 0)
          else step_x
        let z_penetration := half_extents.z - |to_sphere.z|
        let step_z : R × Vector3 R :=
          if z_penetration < step_y.1 then
            (z_penetration, vector3_create 0 0 (if to_sphere.z > 0 then 1 else -1))
          else step_y
        step_z.2
    some { has_collision := true
           contact_point := closest_point
           normal := normal
           penetration_depth := radius - distance }
  else none

def aabb_aabb_collision (aabb_a aabb_b : RigidBody R) : Option (CollisionInfo R) :=
  let min_a := get_aabb_min aabb_a
  let max_a := get_aabb_max aabb_a
  let min_b := get_aabb_min aabb_b
  let max_b := get_aabb_max aabb_b
  let overlap_x := decide (min_a.x ≤ max_b.x) && decide (max_a.x ≥ min_b.x)
  let overlap_y := decide (min_a.y ≤ max_b.y) && decide (max_a.y ≥ min_b.y)
  let overlap_z := decide (min_a.z ≤ max_b.z) && decide (max_a.z ≥ min_b.z)
  if (overlap_x && overlap_y && overlap_z) = true then
    let x_penetration := Min.min (max_a.x - min_b.x) (max_b.x - min_a.x)
    let y_penetration := Min.min (max_a.y - min_b.y) (max_b.y - min_a.y)
    let z_penetration := Min.min (max_a.z - min_b.z) (max_b.z - min_a.z)
    let depth_normal : R × Vector3 R :=
      if x_penetration < y_penetration ∧ x_penetration < z_penetration then
        (x_penetration,
          vector3_create (if aabb_a.position.x < aabb_b.position.x then -1 else 1) 0 0)
      else if y_penetration < z_penetration then
        (y_penetration,
          vector3_create 0 (if aabb_a.position.y < aabb_b.position.y then -1 else 1) 0)
      else
        (z_penetration,
          vector3_create 0 0 (if aabb_a.position.z < aabb_b.position.z then -1 else 1))
    let overlap_min :=
      vector3_create (Max.max min_a.x min_b.x) (Max.max min_a.y min_b.y) (Max.max min_a.z min_b.z)
    let overlap_max :=
      vector3_create (Min.min max_a.x max_b.x) (Min.min max_a.y max_b.y) (Min.min max_a.z max_b.z)
    some { has_collision := true
           contact_point := vector3_scale (vector3_add overlap_min overlap_max) (1 / 2)
           normal := depth_normal.2
           penetration_depth := depth_normal.1 }
  else none

/-- The function `sphere_plane_collision`; `radius` is the sphere's radius,
`plane_normal` and `plane_distance` are the members of `plane->shape.plane`. -/
def sphere_plane_collision (sphere : RigidBody R) (radius : R) (plane_normal : Vector3 R)
    (plane_distance : R) : Option (CollisionInfo R) :=
  let distance := distance_to_plane sphere.position plane_normal plane_distance
  if distance < radius then
    let normal := plane_normal
    let contact_offset := vector3_scale normal (-radius)
    some { has_collision := true
           contact_point := vector3_add sphere.position contact_offset
           normal := normal
           penetration_depth := radius - distance }
  else none

/-- The function `aabb_plane_collision`; `half_extents` is the box's member,
`plane_normal` and `plane_distance` are the members of `plane->shape.plane`. -/
def aabb_plane_collision (aabb : RigidBody R) (half_extents plane_normal : Vector3 R)
    (plane_distance : R) : Option (CollisionInfo R) :=
  let extent := |half_extents.x * plane_normal.x| + |half_extents.y * plane_normal.y| +
    |half_extents.z * plane_normal.z|
  let distance := distance_to_plane aabb.position plane_normal plane_distance
  if distance < extent then
    let contact_offset := vector3_scale plane_normal (-distance)
    some { has_collision := true
           contact_point := vector3_add aabb.position contact_offset
           normal := plane_normal
           penetration_depth := extent - distance }
  else none

/-- The function `detect_collision`: the broad-phase gate, then the dispatch on
the two shape tags.  `none` is the return value `false`; in `some info` the
pointers `info->body_a`, `info->body_b` are the arguments in their order. -/
def detect_collision (sqrtf : R → R) (body_a body_b : RigidBody R) :
    Option (CollisionInfo R) :=
  if aabb_overlap_test body_a body_b = false then none
  else
    match body_a.shape, body_b.shape with
    | CollisionShape.sphere ra, CollisionShape.sphere rb =>
      sphere_sphere_collision sqrtf body_a ra body_b rb
    | CollisionShape.sphere ra, CollisionShape.aabb hb =>
      sphere_aabb_collision sqrtf body_a ra body_b hb
    | CollisionShape.aabb ha, CollisionShape.sphere rb =>
      sphere_aabb_collision sqrtf body_b rb body_a ha
    | CollisionShape.aabb _, CollisionShape.aabb _ =>
      aabb_aabb_collision body_a body_b
    | CollisionShape.sphere ra, CollisionShape.plane n d =>
      sphere_plane_collision body_a ra n d
    | CollisionShape.plane n d, CollisionShape.sphere rb =>
      sphere_plane_collision body_b rb n d
    | CollisionShape.aabb ha, CollisionShape.plane n d =>
      aabb_plane_collision body_a ha n d
    | CollisionShape.plane n d, CollisionShape.aabb hb =>
      aabb_plane_collision body_b hb n d
    | CollisionShape.plane _ _, CollisionShape.plane _ _ => none

end Definitions

/-! ## collision_response.h / collision_response.c

Each function takes the contact and the two bodies its pointers name and
returns the two bodies as the call leaves them. -/

section Definitions

variable {R : Type} [LinearOrderedField R]

def separate_bodies (collision : CollisionInfo R) (body_a body_b : RigidBody R) :
    RigidBody R × RigidBody R :=
  let total_inverse_mass := body_a.inverse_mass + body_b.inverse_mass
  if total_inverse_mass ≤ 0 then (body_a, body_b)
  else
    let separation_a := body_a.inverse_mass / total_inverse_mass
    let separation_b := body_b.inverse_mass / total_inverse_mass
    let separation_vector := vector3_scale collision.normal collision.penetration_depth
    let new_a :=
      if body_a.is_static = false then
        { body_a with
          position := vector3_add body_a.position (vector3_scale separation_vector (-separation_a)) }
      else body_a
    let new_b :=
      if body_b.is_static = false then
        { body_b with
          position := vector3_add body_b.position (vector3_scale separation_vector separation_b) }
      else body_b
    (new_a, new_b)

def calculate_relative_velocity (collision : CollisionInfo R) (body_a body_b : RigidBody R) : R :=
  let relative_velocity := vector3_subtract body_b.velocity body_a.velocity
  vector3_dot relative_velocity collision.normal

def calculate_impulse_magnitude (collision : CollisionInfo R) (body_a body_b : RigidBody R)
    (restitution : R) : R :=
  let relative_velocity := calculate_relative_velocity collision body_a body_b
  let total_inverse_mass := body_a.inverse_mass + body_b.inverse_mass
  if total_inverse_mass ≤ 0 then 0
  else -(1 + restitution) * relative_velocity / total_inverse_mass

def apply_impulse_response (collision : CollisionInfo R) (body_a body_b : RigidBody R) :
    RigidBody R × RigidBody R :=
  let relative_velocity := calculate_relative_velocity collision body_a body_b
  if relative_velocity > 0 then (body_a, body_b)
  else
    let restitution := Min.min body_a.restitution body_b.restitution
    let impulse_magnitude := calculate_impulse_magnitude collision body_a body_b restitution
    let impulse := vector3_scale collision.normal impulse_magnitude
    let new_a :=
      if body_a.is_static = false then
        { body_a with
          velocity := vector3_add body_a.velocity (vector3_scale impulse (-body_a.inverse_mass)) }
      else body_a
    let new_b :=
      if body_b.is_static = false then
        { body_b with
          velocity := vector3_add body_b.velocity (vector3_scale impulse body_b.inverse_mass) }
      else body_b
    (new_a, new_b)

def apply_friction (sqrtf : R → R) (collision : CollisionInfo R) (body_a body_b : RigidBody R) :
    RigidBody R × RigidBody R :=
  let relative_velocity_vec := vector3_subtract body_b.velocity body_a.velocity
  let normal := collision.normal
  let relative_velocity_normal := vector3_dot relative_velocity_vec normal
  let tangent0 :=
    vector3_subtract relative_velocity_vec (vector3_scale normal relative_velocity_normal)
  let tangent_length := vector3_length sqrtf tangent0
  if tangent_length < VECTOR_EPSILON then (body_a, body_b)
  else
    let tangent := vector3_normalize sqrtf tangent0
    let friction_coefficient := sqrtf (body_a.friction * body_b.friction)
    let total_inverse_mass := body_a.inverse_mass + body_b.inverse_mass
    if total_inverse_mass ≤ 0 then (body_a, body_b)
    else
      let friction_impulse_magnitude0 :=
        -vector3_dot relative_velocity_vec tangent / total_inverse_mass
      let normal_impulse_magnitude := calculate_impulse_magnitude collision body_a body_b 0
      let max_friction_impulse := friction_coefficient * |normal_impulse_magnitude|
      let friction_impulse_magnitude :=
        if |friction_impulse_magnitude0| > max_friction_impulse then
          copysignf max_friction_impulse friction_impulse_magnitude0
        else friction_impulse_magnitude0
      let friction_impulse := vector3_scale tangent friction_impulse_magnitude
      let new_a :=
        if body_a.is_static = false then
          { body_a with
            velocity :=
              vector3_add body_a.velocity (vector3_scale friction_impulse (-body_a.inverse_mass)) }
        else body_a
      let new_b :=
        if body_b.is_static = false then
          { body_b with
            velocity :=
              vector3_add body_b.velocity (vector3_scale friction_impulse body_b.inverse_mass) }
        else body_b
      (new_a, new_b)

def position_correction (collision : CollisionInfo R) (correction_percentage slop : R)
    (body_a body_b : RigidBody R) : RigidBody R × RigidBody R :=
  let total_inverse_mass := body_a.inverse_mass + body_b.inverse_mass
  if total_inverse_mass ≤ 0 then (body_a, body_b)
  else
    let penetration := collision.penetration_depth - slop
    if penetration ≤ 0 then (body_a, body_b)
    else
      let correction_magnitude := penetration * correction_percentage / total_inverse_mass
      let correction := vector3_scale collision.normal correction_magnitude
      let new_a :=
        if body_a.is_static = false then
          { body_a with
            position := vector3_add body_a.position (vector3_scale correction (-body_a.inverse_mass)) }
        else body_a
      let new_b :=
        if body_b.is_static = false then
          { body_b with
            position := vector3_add body_b.position (vector3_scale correction body_b.inverse_mass) }
        else body_b
      (new_a, new_b)

def resolve_collision (sqrtf : R → R) (collision : CollisionInfo R) (body_a body_b : RigidBody R) :
    RigidBody R × RigidBody R :=
  if collision.has_collision = false then (body_a, body_b)
  else
    let s1 := separate_bodies collision body_a body_b
    let s2 := apply_impulse_response collision s1.1 s1.2
    let s3 := apply_friction sqrtf collision s2.1 s2.2
    position_correction collision (8 / 10) (1 / 100) s3.1 s3.2

end Definitions

/-! ## integration.h / integration.c -/

/-- The enum `IntegrationMethod` as its integer value, so that values outside
the three enumerators exist. -/
abbrev IntegrationMethod := Int

def INTEGRATION_EULER : IntegrationMethod := 0

def INTEGRATION_VERLET : IntegrationMethod := 1

def INTEGRATION_RK4 : IntegrationMethod := 2

section Definitions

variable {R : Type} [LinearOrderedField R]

def update_acceleration (body : RigidBody R) : RigidBody R :=
  if body.is_static = true then body
  else
    { body with
      acceleration := vector3_scale body.force_accumulator body.inverse_mass
      angular_acceleration := vector3_scale body.torque_accumulator body.inverse_mass }

def integrate_euler (body : RigidBody R) (dt : R) : RigidBody R :=
  if body.is_static = true ∨ body.is_sleeping = true then body
  else
    let b1 := update_acceleration body
    let velocity_change := vector3_scale b1.acceleration dt
    let b2 := { b1 with velocity := vector3_add b1.velocity velocity_change }
    let angular_velocity_change := vector3_scale b2.angular_acceleration dt
    let b3 :=
      { b2 with angular_velocity := vector3_add b2.angular_velocity angular_velocity_change }
    let position_change := vector3_scale b3.velocity dt
    let b4 := { b3 with position := vector3_add b3.position position_change }
    let rotation_change := vector3_scale b4.angular_velocity dt
    let b5 := { b4 with rotation := vector3_add b4.rotation rotation_change }
    rigid_body_clear_forces b5

def integrate_verlet (body : RigidBody R) (dt : R) : RigidBody R :=
  if body.is_static = true ∨ body.is_sleeping = true then body
  else
    let prev_acceleration := body.acceleration
    let prev_angular_acceleration := body.angular_acceleration
    let b1 := update_acceleration body
    let velocity_term := vector3_scale b1.velocity dt
    let acceleration_term := vector3_scale b1.acceleration (1 / 2 * dt * dt)
    let b2 :=
      { b1 with position := vector3_add b1.position (vector3_add velocity_term acceleration_term) }
    let angular_velocity_term := vector3_scale b2.angular_velocity dt
    let angular_acceleration_term := vector3_scale b2.angular_acceleration (1 / 2 * dt * dt)
    let b3 :=
      { b2 with
        rotation :=
          vector3_add b2.rotation (vector3_add angular_velocity_term angular_acceleration_term) }
    let avg_acceleration := vector3_scale (vector3_add prev_acceleration b3.acceleration) (1 / 2)
    let velocity_change := vector3_scale avg_acceleration dt
    let b4 := { b3 with velocity := vector3_add b3.velocity velocity_change }
    let avg_angular_acceleration :=
      vector3_scale (vector3_add prev_angular_acceleration b4.angular_acceleration) (1 / 2)
    let angular_velocity_change := vector3_scale avg_angular_acceleration dt
    let b5 :=
      { b4 with angular_velocity := vector3_add b4.angular_velocity angular_velocity_change }
    rigid_body_clear_forces b5

def integrate_rk4 (body : RigidBody R) (dt : R) : RigidBody R :=
  if body.is_static = true ∨ body.is_sleeping = true then body
  else
    let initial_pos := body.position
    let initial_vel := body.velocity
    let initial_rot := body.rotation
    let initial_ang_vel := body.angular_velocity
    -- k1
    let b1 := update_acceleration body
    let k1_vel := b1.acceleration
    let k1_pos := b1.velocity
    let k1_ang_vel := b1.angular_acceleration
    let k1_rot := b1.angular_velocity
    -- k2
    let b2 := update_acceleration
      { b1 with
        position := vector3_add initial_pos (vector3_scale k1_pos (dt * (1 / 2)))
        velocity := vector3_add initial_vel (vector3_scale k1_vel (dt * (1 / 2)))
        rotation := vector3_add initial_rot (vector3_scale k1_rot (dt * (1 / 2)))
        angular_velocity := vector3_add initial_ang_vel (vector3_scale k1_ang_vel (dt * (1 / 2))) }
    let k2_vel := b2.acceleration
    let k2_pos := b2.velocity
    let k2_ang_vel := b2.angular_acceleration
    let k2_rot := b2.angular_velocity
    -- k3
    let b3 := update_acceleration
      { b2 with
        position := vector3_add initial_pos (vector3_scale k2_pos (dt * (1 / 2)))
        velocity := vector3_add initial_vel (vector3_scale k2_vel (dt * (1 / 2)))
        rotation := vector3_add initial_rot (vector3_scale k2_rot (dt * (1 / 2)))
        angular_velocity := vector3_add initial_ang_vel (vector3_scale k2_ang_vel (dt * (1 / 2))) }
    let k3_vel := b3.acceleration
    let k3_pos := b3.velocity
    let k3_ang_vel := b3.angular_acceleration
    let k3_rot := b3.angular_velocity
    -- k4
    let b4 := update_acceleration
      { b3 with
        position := vector3_add initial_pos (vector3_scale k3_pos dt)
        velocity := vector3_add initial_vel (vector3_scale k3_vel dt)
        rotation := vector3_add initial_rot (vector3_scale k3_rot dt)
        angular_velocity := vector3_add initial_ang_vel (vector3_scale k3_ang_vel dt) }
    let k4_vel := b4.acceleration
    let k4_pos := b4.velocity
    let k4_ang_vel := b4.angular_acceleration
    let k4_rot := b4.angular_velocity
    -- final update
    let vel_change := vector3_scale
      (vector3_add (vector3_add k1_vel (vector3_scale k2_vel 2))
        (vector3_add (vector3_scale k3_vel 2) k4_vel)) (dt / 6)
    let pos_change := vector3_scale
      (vector3_add (vector3_add k1_pos (vector3_scale k2_pos 2))
        (vector3_add (vector3_scale k3_pos 2) k4_pos)) (dt / 6)
    let ang_vel_change := vector3_scale
      (vector3_add (vector3_add k1_ang_vel (vector3_scale k2_ang_vel 2))
        (vector3_add (vector3_scale k3_ang_vel 2) k4_ang_vel)) (dt / 6)
    let rot_change := vector3_scale
      (vector3_add (vector3_add k1_rot (vector3_scale k2_rot 2))
        (vector3_add (vector3_scale k3_rot 2) k4_rot)) (dt / 6)
    rigid_body_clear_forces
      { b4 with
        position := vector3_add initial_pos pos_change
        velocity := vector3_add initial_vel vel_change
        rotation := vector3_add initial_rot rot_change
        angular_velocity := vector3_add initial_ang_vel ang_vel_change }

def integrate_body (body : RigidBody R) (dt : R) (method : IntegrationMethod) : RigidBody R :=
  if method = INTEGRATION_EULER then integrate_euler body dt
  else if method = INTEGRATION_VERLET then integrate_verlet body dt
  else if method = INTEGRATION_RK4 then integrate_rk4 body dt
  else integrate_verlet body dt

def apply_damping (body : RigidBody R) (linear_damping angular_damping : R) : RigidBody R :=
  if body.is_static = true then body
  else
    let b1 := { body with velocity := vector3_scale body.velocity (1 - linear_damping) }
    let b2 :=
      { b1 with angular_velocity := vector3_scale b1.angular_velocity (1 - angular_damping) }
    let linear_speed_sq := vector3_length_squared b2.velocity
    let angular_speed_sq := vector3_length_squared b2.angular_velocity
    let sleep_threshold : R := 1 / 100
    if linear_speed_sq < sleep_threshold ∧ angular_speed_sq < sleep_threshold then
      { b2 with is_sleeping := true, velocity := vector3_zero, angular_velocity := vector3_zero }
    else b2

end Definitions

/-! ## physics_world.h / physics_world.c -/

/-- One used slot of the array `collisions`: the contact and the indices, in
`bodies`, of the bodies its pointers `body_a` and `body_b` name. -/
structure WorldCollision (R : Type) where
  info : CollisionInfo R
  body_a : Nat
  body_b : Nat
deriving DecidableEq

/-- The struct `PhysicsWorld`.  `bodies` is the used part `bodies[0 .. body_count)`
of the array and `collisions` the used part `collisions[0 .. collision_count)`. -/
structure PhysicsWorld (R : Type) where
  bodies : List (RigidBody R)
  collisions : List (WorldCollision R)
  gravity : Vector3 R
  timestep : R
  integration_method : IntegrationMethod
  linear_damping : R
  angular_damping : R
  is_paused : Bool
  time_scale : R
  simulation_iterations : Int
  last_frame_time : R
  collision_checks_performed : Int

section Definitions

variable {R : Type} [LinearOrderedField R]

def MAX_BODIES : Nat := 1000

def MAX_COLLISIONS : Nat := 2000

def PhysicsWorld.body_count (world : PhysicsWorld R) : Nat := world.bodies.length

def PhysicsWorld.collision_count (world : PhysicsWorld R) : Nat := world.collisions.length

/-- The inner loop of `physics_world_wake_sleeping_bodies` at index `j`, for the
moving body at index `i`. -/
def wake_one (sqrtf : R → R) (i : Nat) (moving_body : RigidBody R) (j : Nat)
    (sleeping_body : RigidBody R) : RigidBody R :=
  if i = j then sleeping_body
  else if sleeping_body.is_sleeping = false then sleeping_body
  else
    let distance := vector3_distance sqrtf moving_body.position sleeping_body.position
    let wake_distance : R := 5
    if distance < wake_distance then { sleeping_body with is_sleeping := false }
    else sleeping_body

/-- Running a loop body that touches only `bodies[j]` over `j = k, k+1, ...`. -/
def map_from (f : Nat → RigidBody R → RigidBody R) (k : Nat) :
    List (RigidBody R) → List (RigidBody R)
  | [] => []
  | b :: rest => f k b :: map_from f (k + 1) rest

/-- One iteration, at index `i`, of the outer loop of
`physics_world_wake_sleeping_bodies`. -/
def wake_from (sqrtf : R → R) (bodies : List (RigidBody R)) (i : Nat) : List (RigidBody R) :=
  match bodies.get? i with
  | none => bodies
  | some moving_body =>
    if moving_body.is_static = true ∨ moving_body.is_sleeping = true then bodies
    else
      let speed_sq := vector3_length_squared moving_body.velocity
      if speed_sq < 1 / 10 then bodies
      else map_from (wake_one sqrtf i moving_body) 0 bodies

def physics_world_wake_sleeping_bodies (sqrtf : R → R) (world : PhysicsWorld R) :
    PhysicsWorld R :=
  { world with bodies := (List.range world.body_count).foldl (wake_from sqrtf) world.bodies }

/-- The product `vector3_scale(world->gravity, body->mass)`; `scale_inf` is the
product with an infinite mass. -/
def gravity_force (scale_inf : Vector3 R → Vector3 R) (gravity : Vector3 R) (mass : Mass R) :
    Vector3 R :=
  match mass with
  | Mass.finite m => vector3_scale gravity m
  | Mass.infinity => scale_inf gravity

def physics_world_apply_forces (scale_inf : Vector3 R → Vector3 R) (world : PhysicsWorld R) :
    PhysicsWorld R :=
  { world with
    bodies := world.bodies.map fun body =>
      if body.is_static = true ∨ body.is_sleeping = true then body
      else rigid_body_add_force body (gravity_force scale_inf world.gravity body.mass) }

def physics_world_integrate_bodies (world : PhysicsWorld R) (dt : R) : PhysicsWorld R :=
  { world with
    bodies := world.bodies.map fun body =>
      if body.is_static = true then body
      else integrate_body body dt world.integration_method }

/-- The pairs `(i, j)` with `i < j < n` in the order the two nested loops of
`physics_world_detect_collisions` visit them. -/
def body_pairs (n : Nat) : List (Nat × Nat) :=
  (List.range n).flatMap fun i => (List.range' (i + 1) (n - (i + 1))).map fun j => (i, j)

/-- The body of the inner loop of `physics_world_detect_collisions` for the pair
`(i, j)`. -/
def detect_pair (sqrtf : R → R) (world : PhysicsWorld R) (ij : Nat × Nat) : PhysicsWorld R :=
  match world.bodies.get? ij.1, world.bodies.get? ij.2 with
  | some body_a, some body_b =>
    if body_a.is_static = true ∧ body_b.is_static = true then world
    else if body_a.is_sleeping = true ∧ body_b.is_sleeping = true then world
    else
      let world1 :=
        { world with collision_checks_performed := world.collision_checks_performed + 1 }
      if world1.collision_count < MAX_COLLISIONS then
        match detect_collision sqrtf body_a body_b with
        | some collision =>
          { world1 with
            collisions := world1.collisions ++ [⟨collision, ij.1, ij.2⟩]
            bodies :=
              (world1.bodies.set ij.1 { body_a with is_sleeping := false }).set ij.2
                { body_b with is_sleeping := false } }
        | none => world1
      else world1
  | _, _ => world

def physics_world_detect_collisions (sqrtf : R → R) (world : PhysicsWorld R) : PhysicsWorld R :=
  (body_pairs world.body_count).foldl (detect_pair sqrtf)
    { world with collisions := [], collision_checks_performed := 0 }

/-- One iteration of the loop of `physics_world_resolve_collisions`. -/
def resolve_one (sqrtf : R → R) (bodies : List (RigidBody R)) (c : WorldCollision R) :
    List (RigidBody R) :=
  match bodies.get? c.body_a, bodies.get? c.body_b with
  | some body_a, some body_b =>
    let r := resolve_collision sqrtf c.info body_a body_b
    (bodies.set c.body_a r.1).set c.body_b r.2
  | _, _ => bodies

def physics_world_resolve_collisions (sqrtf : R → R) (world : PhysicsWorld R) : PhysicsWorld R :=
  { world with bodies := world.collisions.foldl (resolve_one sqrtf) world.bodies }

/-- One pass of the `for (iter ...)` loop of `physics_world_step_with_dt`. -/
def sub_step (sqrtf : R → R) (scale_inf : Vector3 R → Vector3 R) (sub_dt : R)
    (world : PhysicsWorld R) : PhysicsWorld R :=
  let w1 := physics_world_wake_sleeping_bodies sqrtf world
  let w2 := physics_world_apply_forces scale_inf w1
  let w3 := physics_world_integrate_bodies w2 sub_dt
  let w4 := physics_world_detect_collisions sqrtf w3
  let w5 := physics_world_resolve_collisions sqrtf w4
  { w5 with
    bodies := w5.bodies.map fun body => apply_damping body w5.linear_damping w5.angular_damping }

def physics_world_step_with_dt (sqrtf : R → R) (scale_inf : Vector3 R → Vector3 R)
    (world : PhysicsWorld R) (dt : R) : PhysicsWorld R :=
  if world.is_paused = true ∨ dt ≤ 0 then world
  else
    let scaled_dt := dt * world.time_scale
    let sub_dt := scaled_dt / ((world.simulation_iterations : Int) : R)
    (sub_step sqrtf scale_inf sub_dt)^[world.simulation_iterations.toNat] world

def physics_world_step (sqrtf : R → R) (scale_inf : Vector3 R → Vector3 R)
    (world : PhysicsWorld R) : PhysicsWorld R :=
  physics_world_step_with_dt sqrtf scale_inf world world.timestep

/-- The world `physics_world_init` sets up (nothing of the old contents is kept). -/
def physics_world_init : PhysicsWorld R :=
  { bodies := []
    collisions := []
    gravity := vector3_create 0 (-981 / 100) 0
    timestep := 1 / 60
    integration_method := INTEGRATION_VERLET
    linear_damping := 1 / 100
    angular_damping := 5 / 100
    is_paused := false
    time_scale := 1
    simulation_iterations := 1
    last_frame_time := 0
    collision_checks_performed := 0 }

/-- The function `physics_world_add_body`: the world it leaves and the value it
returns. -/
def physics_world_add_body (world : PhysicsWorld R) (body : RigidBody R) :
    PhysicsWorld R × Int :=
  if world.body_count ≥ MAX_BODIES then (world, -1)
  else ({ world with bodies := world.bodies ++ [body] }, body.id)

/-- The function `physics_world_remove_body`: the world it leaves and the value
it returns.  The first body with the given id is taken out and the later ones
move down by one slot. -/
def physics_world_remove_body (world : PhysicsWorld R) (body_id : Int) :
    PhysicsWorld R × Bool :=
  match world.bodies.findIdx? (fun body => decide (body.id = body_id)) with
  | some i => ({ world with bodies := world.bodies.eraseIdx i }, true)
  | none => (world, false)

def physics_world_get_body (world : PhysicsWorld R) (body_id : Int) : Option (RigidBody R) :=
  world.bodies.find? (fun body => decide (body.id = body_id))

def physics_world_clear_bodies (world : PhysicsWorld R) : PhysicsWorld R :=
  { world with bodies := [] }

def physics_world_set_gravity (world : PhysicsWorld R) (gravity : Vector3 R) : PhysicsWorld R :=
  { world with gravity := gravity }

def physics_world_set_timestep (world : PhysicsWorld R) (timestep : R) : PhysicsWorld R :=
  if timestep > 0 then { world with timestep := timestep } else world

def physics_world_set_integration_method (world : PhysicsWorld R)
    (method : IntegrationMethod) : PhysicsWorld R :=
  { world with integration_method := method }

def physics_world_set_damping (world : PhysicsWorld R) (linear_damping angular_damping : R) :
    PhysicsWorld R :=
  { world with
    linear_damping := Max.max 0 (Min.min 1 linear_damping)
    angular_damping := Max.max 0 (Min.min 1 angular_damping) }

def physics_world_pause (world : PhysicsWorld R) (paused : Bool) : PhysicsWorld R :=
  { world with is_paused := paused }

def physics_world_set_time_scale (world : PhysicsWorld R) (scale : R) : PhysicsWorld R :=
  if scale ≥ 0 then { world with time_scale := scale } else world

end Definitions

/-! ## Specification vocabulary -/

section Definitions

variable {R : Type} [LinearOrderedField R]

/-- The function `sqrtf` is an exact square root on the non-negative numbers. -/
def IsSqrt (sqrtf : R → R) : Prop := ∀ x, 0 ≤ x → 0 ≤ sqrtf x ∧ sqrtf x * sqrtf x = x

/-- All three coordinates of `v` lie in `[-FLT_MAX, FLT_MAX]`, the bounding box
`get_aabb_min`/`get_aabb_max` give a plane. -/
def in_flt_box (v : Vector3 R) : Prop :=
  (-FLT_MAX ≤ v.x ∧ v.x ≤ FLT_MAX) ∧ (-FLT_MAX ≤ v.y ∧ v.y ≤ FLT_MAX) ∧
    (-FLT_MAX ≤ v.z ∧ v.z ≤ FLT_MAX)

/-- The frame condition of a static body: `after` is static exactly when `before`
is, and if so it has the position and the velocity of `before`. -/
def keeps (before after : RigidBody R) : Prop :=
  after.is_static = before.is_static ∧
    (before.is_static = true →
      after.position = before.position ∧ after.velocity = before.velocity)

/-- A body as `rigid_body_init_sphere`, `rigid_body_init_aabb` or
`rigid_body_init_plane` leaves it, whatever the arguments. -/
def initialised (sqrtf : R → R) (body : RigidBody R) : Prop :=
  (∃ b0 p r m, body = rigid_body_init_sphere b0 p r m) ∨
  (∃ b0 p h m, body = rigid_body_init_aabb b0 p h m) ∨
  (∃ b0 n d, body = rigid_body_init_plane sqrtf b0 n d)

/-- A body as one of the three `rigid_body_init_*` functions leaves it, a plane
being given a normal whose length is at least `VECTOR_EPSILON`. -/
def initialised_nondegenerate (sqrtf : R → R) (body : RigidBody R) : Prop :=
  (∃ b0 p r m, body = rigid_body_init_sphere b0 p r m) ∨
  (∃ b0 p h m, body = rigid_body_init_aabb b0 p h m) ∨
  (∃ b0 n d, VECTOR_EPSILON ≤ vector3_length sqrtf n ∧
    body = rigid_body_init_plane sqrtf b0 n d)

/-- The plane normal a body stores, if the body is a plane, has length 1. -/
def unit_plane (sqrtf : R → R) (body : RigidBody R) : Prop :=
  ∀ n d, body.shape = CollisionShape.plane n d → vector3_length sqrtf n = 1

/-- The pairs `(a, b)` for which the normal of `detect_collision a b` points from
`a` to `b` and is no fallback: two spheres whose centres are more than
`VECTOR_EPSILON` apart; a box and a sphere whose centre is more than
`VECTOR_EPSILON` away from the box; a static plane with a unit normal and a
sphere or a box. -/
def separable_pair (sqrtf : R → R) (a b : RigidBody R) : Prop :=
  match a.shape, b.shape with
  | CollisionShape.sphere _, CollisionShape.sphere _ =>
    VECTOR_EPSILON < vector3_distance sqrtf a.position b.position
  | CollisionShape.aabb _, CollisionShape.sphere _ =>
    VECTOR_EPSILON < vector3_distance sqrtf b.position (closest_point_on_aabb b.position a)
  | CollisionShape.plane n _, CollisionShape.sphere _ =>
    a.is_static = true ∧ vector3_length sqrtf n = 1
  | CollisionShape.plane n _, CollisionShape.aabb _ =>
    a.is_static = true ∧ vector3_length sqrtf n = 1
  | _, _ => False

/-- A call of one of the public operations of `rigid_body.h` that change a body,
with its arguments. -/
inductive BodyOp (R : Type) where
  | init_sphere (position : Vector3 R) (radius mass : R)
  | init_aabb (position half_extents : Vector3 R) (mass : R)
  | init_plane (normal : Vector3 R) (distance : R)
  | set_position (position : Vector3 R)
  | set_velocity (velocity : Vector3 R)
  | set_mass (mass : Mass R)
  | set_restitution (restitution : R)
  | set_friction (friction : R)
  | set_static (is_static : Bool)
  | add_force (force : Vector3 R)
  | add_force_at_point (force point : Vector3 R)
  | add_torque (torque : Vector3 R)
  | add_impulse (impulse : Vector3 R)
  | clear_forces

/-- The body a call leaves. -/
def BodyOp.run (sqrtf : R → R) (body : RigidBody R) : BodyOp R → RigidBody R
  | BodyOp.init_sphere position radius mass => rigid_body_init_sphere body position radius mass
  | BodyOp.init_aabb position half_extents mass =>
    rigid_body_init_aabb body position half_extents mass
  | BodyOp.init_plane normal distance => rigid_body_init_plane sqrtf body normal distance
  | BodyOp.set_position position => rigid_body_set_position body position
  | BodyOp.set_velocity velocity => rigid_body_set_velocity body velocity
  | BodyOp.set_mass mass => rigid_body_set_mass body mass
  | BodyOp.set_restitution restitution => rigid_body_set_restitution body restitution
  | BodyOp.set_friction friction => rigid_body_set_friction body friction
  | BodyOp.set_static is_static => rigid_body_set_static body is_static
  | BodyOp.add_force force => rigid_body_add_force body force
  | BodyOp.add_force_at_point force point => rigid_body_add_force_at_point body force point
  | BodyOp.add_torque torque => rigid_body_add_torque body torque
  | BodyOp.add_impulse impulse => rigid_body_add_impulse body impulse
  | BodyOp.clear_forces => rigid_body_clear_forces body

/-- The body left by a sequence of calls, made in the order of the list. -/
def run_body_ops (sqrtf : R → R) (body : RigidBody R) (ops : List (BodyOp R)) : RigidBody R :=
  ops.foldl (BodyOp.run sqrtf) body

/-- A body in a state reachable from `rigid_body_create` through the public body
operations. -/
def body_reachable (sqrtf : R → R) (body : RigidBody R) : Prop :=
  ∃ (next_id : Int) (ops : List (BodyOp R)),
    body = run_body_ops sqrtf (rigid_body_create next_id) ops

/-- The link between `mass`, `inverse_mass` and `is_static` that every public body
operation keeps: a finite mass is positive, belongs to a non-static body and has
its reciprocal cached; an infinite mass has inverse mass 0. -/
def mass_invariant (body : RigidBody R) : Prop :=
  match body.mass with
  | Mass.finite m => 0 < m ∧ body.inverse_mass = 1 / m ∧ body.is_static = false
  | Mass.infinity => body.inverse_mass = 0

/-- The operations after which a plane body is still a static body at the origin:
all but `rigid_body_set_static(body, false)` and the re-initialisation as a
sphere or a box. -/
def BodyOp.keeps_plane : BodyOp R → Prop
  | BodyOp.set_static false => False
  | BodyOp.init_sphere _ _ _ => False
  | BodyOp.init_aabb _ _ _ => False
  | _ => True

/-- The range of the surface coefficients: restitution in `[0,1]`, friction `≥ 0`. -/
def surface_invariant (body : RigidBody R) : Prop :=
  (0 ≤ body.restitution ∧ body.restitution ≤ 1) ∧ 0 ≤ body.friction

/-- The normal impulse magnitude `apply_impulse_response` applies: its local
`impulse_magnitude`, or 0 when it returns early because the bodies separate. -/
def applied_normal_impulse (collision : CollisionInfo R) (body_a body_b : RigidBody R) : R :=
  if calculate_relative_velocity collision body_a body_b > 0 then 0
  else
    calculate_impulse_magnitude collision body_a body_b
      (Min.min body_a.restitution body_b.restitution)

/-- The friction impulse `apply_friction` applies: its local `friction_impulse`,
or the zero vector when it returns early. -/
def applied_friction_impulse (sqrtf : R → R) (collision : CollisionInfo R)
    (body_a body_b : RigidBody R) : Vector3 R :=
  let relative_velocity_vec := vector3_subtract body_b.velocity body_a.velocity
  let normal := collision.normal
  let relative_velocity_normal := vector3_dot relative_velocity_vec normal
  let tangent0 :=
    vector3_subtract relative_velocity_vec (vector3_scale normal relative_velocity_normal)
  let tangent_length := vector3_length sqrtf tangent0
  if tangent_length < VECTOR_EPSILON then vector3_zero
  else
    let tangent := vector3_normalize sqrtf tangent0
    let friction_coefficient := sqrtf (body_a.friction * body_b.friction)
    let total_inverse_mass := body_a.inverse_mass + body_b.inverse_mass
    if total_inverse_mass ≤ 0 then vector3_zero
    else
      let friction_impulse_magnitude0 :=
        -vector3_dot relative_velocity_vec tangent / total_inverse_mass
      let normal_impulse_magnitude := calculate_impulse_magnitude collision body_a body_b 0
      let max_friction_impulse := friction_coefficient * |normal_impulse_magnitude|
      let friction_impulse_magnitude :=
        if |friction_impulse_magnitude0| > max_friction_impulse then
          copysignf max_friction_impulse friction_impulse_magnitude0
        else friction_impulse_magnitude0
      vector3_scale tangent friction_impulse_magnitude

/-- The contact `detect_collision(plane, sphere)` reports for the ground plane
`sample_plane (0,1,0) 0` and a unit sphere centred at `(0,1/2,0)`. -/
def sample_contact : CollisionInfo R :=
  { has_collision := true
    contact_point := ⟨0, -1 / 2, 0⟩
    normal := ⟨0, 1, 0⟩
    penetration_depth := 1 / 2 }

/-- A call of one of the public operations of `physics_world.h` that change a
world, or of a public body operation on the body at an index of the world, with
its arguments.  `add_body` adds the body `rigid_body_create` returns. -/
inductive WorldOp (R : Type) where
  | add_body (next_id : Int)
  | body_op (index : Nat) (op : BodyOp R)
  | remove_body (body_id : Int)
  | clear_bodies
  | set_gravity (gravity : Vector3 R)
  | set_timestep (timestep : R)
  | set_integration_method (method : IntegrationMethod)
  | set_damping (linear_damping angular_damping : R)
  | pause (paused : Bool)
  | set_time_scale (scale : R)
  | step
  | step_with_dt (dt : R)

/-- The world a call leaves. -/
def WorldOp.run (sqrtf : R → R) (scale_inf : Vector3 R → Vector3 R) (world : PhysicsWorld R) :
    WorldOp R → PhysicsWorld R
  | WorldOp.add_body next_id => (physics_world_add_body world (rigid_body_create next_id)).1
  | WorldOp.body_op index op =>
    match world.bodies.get? index with
    | some body => { world with bodies := world.bodies.set index (BodyOp.run sqrtf body op) }
    | none => world
  | WorldOp.remove_body body_id => (physics_world_remove_body world body_id).1
  | WorldOp.clear_bodies => physics_world_clear_bodies world
  | WorldOp.set_gravity gravity => physics_world_set_gravity world gravity
  | WorldOp.set_timestep timestep => physics_world_set_timestep world timestep
  | WorldOp.set_integration_method method => physics_world_set_integration_method world method
  | WorldOp.set_damping linear_damping angular_damping =>
    physics_world_set_damping world linear_damping angular_damping
  | WorldOp.pause paused => physics_world_pause world paused
  | WorldOp.set_time_scale scale => physics_world_set_time_scale world scale
  | WorldOp.step => physics_world_step sqrtf scale_inf world
  | WorldOp.step_with_dt dt => physics_world_step_with_dt sqrtf scale_inf world dt

/-- A world in a state reachable from `physics_world_init` through calls of the
public operations, each of them `allowed` in the world it is made in. -/
inductive WorldReachable (sqrtf : R → R) (scale_inf : Vector3 R → Vector3 R)
    (allowed : PhysicsWorld R → WorldOp R → Prop) : PhysicsWorld R → Prop where
  | init : WorldReachable sqrtf scale_inf allowed physics_world_init
  | call (world : PhysicsWorld R) (op : WorldOp R) :
    WorldReachable sqrtf scale_inf allowed world → allowed world op →
    WorldReachable sqrtf scale_inf allowed (WorldOp.run sqrtf scale_inf world op)

/-- Every call is allowed. -/
def any_call (_world : PhysicsWorld R) (_op : WorldOp R) : Prop := True

/-- The call is not `rigid_body_set_velocity` or `rigid_body_add_impulse` on a
sleeping body. -/
def spares_sleeping (world : PhysicsWorld R) : WorldOp R → Prop
  | WorldOp.body_op index (BodyOp.set_velocity _) =>
    ∀ body, world.bodies.get? index = some body → body.is_sleeping = false
  | WorldOp.body_op index (BodyOp.add_impulse _) =>
    ∀ body, world.bodies.get? index = some body → body.is_sleeping = false
  | _ => True

/-- A sleeping body has zero velocity and zero angular velocity. -/
def rest_if_sleeping (body : RigidBody R) : Prop :=
  body.is_sleeping = true →
    body.velocity = vector3_zero ∧ body.angular_velocity = vector3_zero

/-- If `before` is at rest when sleeping, so is `after`. -/
def rest_kept (before after : RigidBody R) : Prop :=
  rest_if_sleeping before → rest_if_sleeping after

/-- The bodies of every recorded contact are awake. -/
def contacts_awake (world : PhysicsWorld R) : Prop :=
  ∀ c ∈ world.collisions,
    (∀ b, world.bodies.get? c.body_a = some b → b.is_sleeping = false) ∧
    (∀ b, world.bodies.get? c.body_b = some b → b.is_sleeping = false)

/-- The accumulators of `after` are those of `before`. -/
def same_accumulators (before after : RigidBody R) : Prop :=
  after.force_accumulator = before.force_accumulator ∧
    after.torque_accumulator = before.torque_accumulator

/-- The accumulators of `after` are those of `before`, its static flag too, and a
body that was awake still is. -/
def woken (before after : RigidBody R) : Prop :=
  same_accumulators before after ∧ after.is_static = before.is_static ∧
    (before.is_sleeping = false → after.is_sleeping = false)

/-- The accumulators of `after` are both zero or both those of `before`. -/
def cleared_or_kept (before after : RigidBody R) : Prop :=
  (after.force_accumulator = vector3_zero ∧ after.torque_accumulator = vector3_zero) ∨
    same_accumulators before after

/-- The accumulators of `after` are both zero or both those of `before`, and they
are zero when `before` is neither static nor sleeping. -/
def cleared_if_awake (before after : RigidBody R) : Prop :=
  cleared_or_kept before after ∧
    (before.is_static = false → before.is_sleeping = false →
      after.force_accumulator = vector3_zero ∧ after.torque_accumulator = vector3_zero)


/-- The accumulators and the two flags of `after` are those of `before`. -/
def inert (before after : RigidBody R) : Prop :=
  same_accumulators before after ∧ after.is_static = before.is_static ∧
    after.is_sleeping = before.is_sleeping

/-- The two settings no phase of a step changes. -/
def same_settings (before after : PhysicsWorld R) : Prop :=
  after.simulation_iterations = before.simulation_iterations ∧
    after.timestep = before.timestep

/-- The world after `physics_world_init`, `physics_world_set_gravity` with the
zero vector, `physics_world_add_body` of a body fresh from `rigid_body_create`
and one `physics_world_step`. -/
def sample_rest_world (sqrtf : R → R) (scale_inf : Vector3 R → Vector3 R) : PhysicsWorld R :=
  WorldOp.run sqrtf scale_inf
    (WorldOp.run sqrtf scale_inf
      (WorldOp.run sqrtf scale_inf physics_world_init (WorldOp.set_gravity vector3_zero))
      (WorldOp.add_body 1))
    WorldOp.step

/-- Successive calls of `physics_world_add_body`, one for each body of the list in
its order: the world they leave and the values they return. -/
def add_bodies (world : PhysicsWorld R) : List (RigidBody R) → PhysicsWorld R × List Int
  | [] => (world, [])
  | body :: rest =>
    let r := physics_world_add_body world body
    let rs := add_bodies r.1 rest
    (rs.1, r.2 :: rs.2)

/-- The pair of body indices a recorded contact names. -/
def WorldCollision.pair (c : WorldCollision R) : Nat × Nat := (c.body_a, c.body_b)

/-- The strict lexicographic order on pairs of indices. -/
def pair_lt (p q : Nat × Nat) : Prop := p.1 < q.1 ∨ (p.1 = q.1 ∧ p.2 < q.2)

/-- The tangential part of the relative velocity at a contact: the local `tangent`
of `apply_friction` before it is normalised. -/
def tangential_velocity (collision : CollisionInfo R) (body_a body_b : RigidBody R) :
    Vector3 R :=
  let relative_velocity_vec := vector3_subtract body_b.velocity body_a.velocity
  vector3_subtract relative_velocity_vec
    (vector3_scale collision.normal (vector3_dot relative_velocity_vec collision.normal))

/-- A dynamic sphere of mass 1 made by `rigid_body_create` and
`rigid_body_init_sphere`, moving with `velocity`. -/
def sample_sphere (position velocity : Vector3 R) (radius : R) : RigidBody R :=
  { rigid_body_init_sphere (rigid_body_create 1) position radius 1 with velocity := velocity }

/-- A dynamic box of mass 1 made by `rigid_body_create` and `rigid_body_init_aabb`. -/
def sample_box (position half_extents : Vector3 R) : RigidBody R :=
  rigid_body_init_aabb (rigid_body_create 2) position half_extents 1

/-- A plane body whose stored normal is `normal` as given (what
`rigid_body_init_plane` stores for a normal that is already of unit length). -/
def sample_plane (normal : Vector3 R) (distance : R) : RigidBody R :=
  { rigid_body_create 3 with
    position := vector3_zero
    shape := CollisionShape.plane normal distance
    is_static := true
    mass := Mass.infinity
    inverse_mass := 0 }

/-- The world of the horizontal-projectile scenario: `physics_world_init`, the
integration method set to Euler, and one sphere of mass 1 at the origin moving
at `(10,0,0)`. -/
def projectile_world : PhysicsWorld R :=
  (physics_world_add_body
    (physics_world_set_integration_method physics_world_init INTEGRATION_EULER)
    (sample_sphere ⟨0, 0, 0⟩ ⟨10, 0, 0⟩ 1)).1

/-- A world with the settings of `physics_world_init` apart from the Euler method
and the linear damping `damping`, holding one body: dynamic, awake, of mass 1,
with an empty force accumulator, at `position` and moving at `velocity`. -/
def in_flight (world : PhysicsWorld R) (damping : R) (position velocity : Vector3 R) : Prop :=
  world.is_paused = false ∧ world.timestep = 1 / 60 ∧ world.time_scale = 1 ∧
    world.simulation_iterations = 1 ∧ world.gravity = ⟨0, -981 / 100, 0⟩ ∧
    world.integration_method = INTEGRATION_EULER ∧ world.linear_damping = damping ∧
    ∃ body, world.bodies = [body] ∧ body.is_static = false ∧ body.is_sleeping = false ∧
      body.mass = Mass.finite 1 ∧ body.inverse_mass = 1 ∧
      body.force_accumulator = vector3_zero ∧
      body.position = position ∧ body.velocity = velocity

/-- The sphere of the ball-on-flat-ground scenario: radius 1, mass 1, restitution
0 and friction 0, at rest at `(0,2,0)`. -/
def ground_ball : RigidBody R :=
  rigid_body_set_friction
    (rigid_body_set_restitution (sample_sphere ⟨0, 2, 0⟩ ⟨0, 0, 0⟩ 1) 0) 0

/-- The world of the ball-on-flat-ground scenario: `physics_world_init` (Verlet,
gravity `(0,-9.81,0)`, timestep 1/60), then the ground plane with normal
`(0,1,0)` and distance 0, then the sphere `ground_ball`. -/
def ground_ball_world : PhysicsWorld R :=
  (physics_world_add_body
    (physics_world_add_body physics_world_init (sample_plane ⟨0, 1, 0⟩ 0)).1
    ground_ball).1

/-- The sphere `ground_ball` asleep at height `159891/80000 = 1.9986375`, with the
acceleration of gravity stored and no velocity. -/
def hung_ball : RigidBody R :=
  { (ground_ball : RigidBody R) with
    position := ⟨0, 159891 / 80000, 0⟩
    acceleration := ⟨0, -981 / 100, 0⟩
    is_sleeping := true }

/-- The world of the ball-on-flat-ground scenario with the sphere replaced by
`hung_ball` and one collision check counted. -/
def hung_ball_world : PhysicsWorld R :=
  { (ground_ball_world : PhysicsWorld R) with
    collision_checks_performed := 1
    bodies := [sample_plane ⟨0, 1, 0⟩ 0, hung_ball] }

/-- The world of `physics_world_init` holding a ground plane and a unit sphere
resting two units above it. -/
def sample_world : PhysicsWorld R :=
  { (physics_world_init : PhysicsWorld R) with
    bodies := [sample_plane ⟨0, 1, 0⟩ 0, sample_sphere ⟨0, 2, 0⟩ ⟨0, 0, 0⟩ 1] }

end Definitions

/-! ## Auxiliary lemmas -/

section FrameLemmas

variable {R : Type}

theorem keeps_refl (b : RigidBody R) : keeps b b := ⟨rfl, fun _ => ⟨rfl, rfl⟩⟩

theorem keeps_trans {a b c : RigidBody R} (h1 : keeps a b) (h2 : keeps b c) : keeps a c := by
  refine ⟨h2.1.trans h1.1, fun hs => ?_⟩
  have hb := h1.2 hs
  have hc := h2.2 (h1.1.trans hs)
  exact ⟨hc.1.trans hb.1, hc.2.trans hb.2⟩

theorem keeps_all_refl (bs : List (RigidBody R)) : List.Forall₂ keeps bs bs := by
  induction bs with
  | nil => exact List.Forall₂.nil
  | cons b rest ih => exact List.Forall₂.cons (keeps_refl b) ih

theorem keeps_all_trans {as bs cs : List (RigidBody R)} (h1 : List.Forall₂ keeps as bs)
    (h2 : List.Forall₂ keeps bs cs) : List.Forall₂ keeps as cs := by
  induction h1 generalizing cs with
  | nil =>
    cases h2
    exact List.Forall₂.nil
  | cons hab _ ih =>
    cases h2 with
    | cons hbc hrest => exact List.Forall₂.cons (keeps_trans hab hbc) (ih hrest)

theorem keeps_all_map (f : RigidBody R → RigidBody R) (hf : ∀ b, keeps b (f b))
    (bs : List (RigidBody R)) : List.Forall₂ keeps bs (bs.map f) := by
  induction bs with
  | nil => exact List.Forall₂.nil
  | cons b rest ih => exact List.Forall₂.cons (hf b) ih

theorem keeps_all_map_from (f : Nat → RigidBody R → RigidBody R) (hf : ∀ j b, keeps b (f j b))
    (k : Nat) (bs : List (RigidBody R)) : List.Forall₂ keeps bs (map_from f k bs) := by
  induction bs generalizing k with
  | nil => exact List.Forall₂.nil
  | cons b rest ih => exact List.Forall₂.cons (hf k b) (ih (k + 1))

theorem keeps_all_set (bs : List (RigidBody R)) (i : Nat) (b b' : RigidBody R)
    (hb : bs.get? i = some b) (h : keeps b b') : List.Forall₂ keeps bs (bs.set i b') := by
  induction bs generalizing i with
  | nil => exact List.Forall₂.nil
  | cons c rest ih =>
    cases i with
    | zero =>
      simp only [List.get?_cons_zero, Option.some.injEq] at hb
      subst hb
      exact List.Forall₂.cons h (keeps_all_refl rest)
    | succ n =>
      simp only [List.get?_cons_succ] at hb
      exact List.Forall₂.cons (keeps_refl c) (ih n hb)

theorem keeps_all_get {bs cs : List (RigidBody R)} (h : List.Forall₂ keeps bs cs) (i : Nat)
    (b : RigidBody R) (hb : bs.get? i = some b) : ∃ c, cs.get? i = some c ∧ keeps b c := by
  induction h generalizing i with
  | nil => simp at hb
  | cons hbc _ ih =>
    cases i with
    | zero =>
      simp only [List.get?_cons_zero, Option.some.injEq] at hb
      subst hb
      exact ⟨_, rfl, hbc⟩
    | succ n =>
      simp only [List.get?_cons_succ] at hb
      exact ih n hb

theorem keeps_all_foldl {S X : Type} (f : S → X → S) (proj : S → List (RigidBody R))
    (hf : ∀ s x, List.Forall₂ keeps (proj s) (proj (f s x))) (xs : List X) (s : S) :
    List.Forall₂ keeps (proj s) (proj (xs.foldl f s)) := by
  induction xs generalizing s with
  | nil => exact keeps_all_refl _
  | cons x rest ih => exact keeps_all_trans (hf s x) (ih (f s x))

theorem keeps_of_not_static {b b' : RigidBody R} (hb : b.is_static = false)
    (h : b'.is_static = b.is_static) : keeps b b' :=
  ⟨h, fun hs => by rw [hb] at hs; exact absurd hs (by decide)⟩

theorem keeps_symm {a b : RigidBody R} (h : keeps a b) : keeps b a := by
  refine ⟨h.1.symm, fun hs => ?_⟩
  have ha := h.2 (h.1.symm.trans hs)
  exact ⟨ha.1.symm, ha.2.symm⟩

theorem keeps_sleeping (b : RigidBody R) (v : Bool) : keeps b { b with is_sleeping := v } :=
  ⟨rfl, fun _ => ⟨rfl, rfl⟩⟩

theorem keeps_iterate (f : PhysicsWorld R → PhysicsWorld R)
    (hf : ∀ w, List.Forall₂ keeps w.bodies (f w).bodies) (n : Nat) (w : PhysicsWorld R) :
    List.Forall₂ keeps w.bodies (f^[n] w).bodies := by
  induction n generalizing w with
  | zero => exact keeps_all_refl _
  | succ k ih =>
    rw [Function.iterate_succ_apply]
    exact keeps_all_trans (hf w) (ih (f w))

end FrameLemmas

section ListLemmas

variable {α : Type}

theorem rel_all_refl (r : α → α → Prop) (hr : ∀ a, r a a) (l : List α) : List.Forall₂ r l l := by
  induction l with
  | nil => exact List.Forall₂.nil
  | cons a rest ih => exact List.Forall₂.cons (hr a) ih

theorem rel_all_comp {r1 r2 r3 : α → α → Prop} (h : ∀ a b c, r1 a b → r2 b c → r3 a c)
    {l1 l2 l3 : List α} (h1 : List.Forall₂ r1 l1 l2) (h2 : List.Forall₂ r2 l2 l3) :
    List.Forall₂ r3 l1 l3 := by
  induction h1 generalizing l3 with
  | nil =>
    cases h2
    exact List.Forall₂.nil
  | cons hab _ ih =>
    cases h2 with
    | cons hbc hrest => exact List.Forall₂.cons (h _ _ _ hab hbc) (ih hrest)

theorem rel_all_map (r : α → α → Prop) (f : α → α) (hf : ∀ a, r a (f a)) (l : List α) :
    List.Forall₂ r l (l.map f) := by
  induction l with
  | nil => exact List.Forall₂.nil
  | cons a rest ih => exact List.Forall₂.cons (hf a) ih

theorem rel_all_set {r : α → α → Prop} {l m : List α} (h : List.Forall₂ r l m) (j : Nat)
    (b y : α) (hb : l.get? j = some b) (hy : r b y) : List.Forall₂ r l (m.set j y) := by
  induction h generalizing j with
  | nil => simp at hb
  | cons hab hrest ih =>
    cases j with
    | zero =>
      simp only [List.get?_cons_zero, Option.some.injEq] at hb
      subst hb
      exact List.Forall₂.cons hy hrest
    | succ n =>
      simp only [List.get?_cons_succ] at hb
      exact List.Forall₂.cons hab (ih n hb)

theorem rel_all_get {r : α → α → Prop} {l m : List α} (h : List.Forall₂ r l m) (i : Nat)
    (b : α) (hb : l.get? i = some b) : ∃ c, m.get? i = some c ∧ r b c := by
  induction h generalizing i with
  | nil => simp at hb
  | cons hbc _ ih =>
    cases i with
    | zero =>
      simp only [List.get?_cons_zero, Option.some.injEq] at hb
      subst hb
      exact ⟨_, rfl, hbc⟩
    | succ n =>
      simp only [List.get?_cons_succ] at hb
      exact ih n hb

theorem rel_all_foldl {S X : Type} (r : α → α → Prop) (hr : ∀ a, r a a)
    (ht : ∀ a b c, r a b → r b c → r a c) (f : S → X → S) (proj : S → List α)
    (hf : ∀ s x, List.Forall₂ r (proj s) (proj (f s x))) (xs : List X) (s : S) :
    List.Forall₂ r (proj s) (proj (xs.foldl f s)) := by
  induction xs generalizing s with
  | nil => exact rel_all_refl r hr _
  | cons x rest ih => exact rel_all_comp ht (hf s x) (ih (f s x))

theorem rel_all_iterate {S : Type} (r : α → α → Prop) (hr : ∀ a, r a a)
    (ht : ∀ a b c, r a b → r b c → r a c) (f : S → S) (proj : S → List α)
    (hf : ∀ s, List.Forall₂ r (proj s) (proj (f s))) (n : Nat) (s : S) :
    List.Forall₂ r (proj s) (proj (f^[n] s)) := by
  induction n generalizing s with
  | zero => exact rel_all_refl r hr _
  | succ k ih =>
    rw [Function.iterate_succ_apply]
    exact rel_all_comp ht (hf s) (ih (f s))

theorem get?_set_same (l : List α) (i : Nat) (a c : α) (h : (l.set i a).get? i = some c) :
    c = a := by
  rw [List.get?_eq_getElem?, List.getElem?_set] at h
  simp only [if_true] at h
  split_ifs at h
  exact (Option.some.inj h).symm

theorem get?_set_cases (l : List α) (i j : Nat) (a c : α) (h : (l.set i a).get? j = some c) :
    c = a ∨ l.get? j = some c := by
  by_cases hij : i = j
  · subst hij
    exact Or.inl (get?_set_same l i a c h)
  · rw [List.get?_eq_getElem?, List.getElem?_set, if_neg hij] at h
    rw [List.get?_eq_getElem?]
    exact Or.inr h

theorem rel_all_get_rev {r : α → α → Prop} {l m : List α} (h : List.Forall₂ r l m) (i : Nat)
    (c : α) (hc : m.get? i = some c) : ∃ b, l.get? i = some b ∧ r b c := by
  induction h generalizing i with
  | nil => simp at hc
  | cons hbc _ ih =>
    cases i with
    | zero =>
      simp only [List.get?_cons_zero, Option.some.injEq] at hc
      subst hc
      exact ⟨_, rfl, hbc⟩
    | succ n =>
      simp only [List.get?_cons_succ] at hc
      exact ih n hc

theorem foldl_invariant {S X : Type} (P : S → Prop) (f : S → X → S)
    (hf : ∀ s x, P s → P (f s x)) (xs : List X) (s : S) (hs : P s) : P (xs.foldl f s) := by
  induction xs generalizing s with
  | nil => exact hs
  | cons x rest ih => exact ih (f s x) (hf s x hs)

theorem iterate_invariant {S : Type} (P : S → Prop) (f : S → S) (hf : ∀ s, P s → P (f s))
    (n : Nat) (s : S) (hs : P s) : P (f^[n] s) := by
  induction n generalizing s with
  | zero => exact hs
  | succ k ih =>
    rw [Function.iterate_succ_apply]
    exact ih (f s) (hf s hs)

theorem findIdx?_first (p : α → Bool) (l : List α) (i : Nat) (b : α)
    (hb : l.get? i = some b) (hp : p b = true)
    (hfirst : ∀ j, j < i → ∀ c, l.get? j = some c → p c = false) :
    l.findIdx? p = some i := by
  induction l generalizing i with
  | nil => simp at hb
  | cons x rest ih =>
    rw [List.findIdx?_cons]
    cases i with
    | zero =>
      simp only [List.get?_cons_zero, Option.some.injEq] at hb
      rw [hb, hp]
      rfl
    | succ n =>
      have hx : p x = false := hfirst 0 (Nat.succ_pos n) x rfl
      rw [hx]
      simp only [List.get?_cons_succ] at hb
      have := ih n hb (fun j hj c hc => hfirst (j + 1) (Nat.succ_lt_succ hj) c hc)
      simp only [Bool.false_eq_true, if_false, zero_add]
      rw [List.findIdx?_succ, this]
      rfl

theorem findIdx?_none (p : α → Bool) (l : List α) (h : ∀ c ∈ l, p c = false) :
    l.findIdx? p = none := by
  rw [List.findIdx?_eq_none_iff]
  exact h

theorem findIdx?_some_spec (p : α → Bool) (l : List α) (i : Nat) (h : l.findIdx? p = some i) :
    (∃ b, l.get? i = some b ∧ p b = true) ∧
      ∀ j, j < i → ∀ c, l.get? j = some c → p c = false := by
  induction l generalizing i with
  | nil => simp at h
  | cons x rest ih =>
    rw [List.findIdx?_cons] at h
    by_cases hx : p x = true
    · rw [if_pos hx] at h
      have hi : i = 0 := (Option.some.inj h).symm
      subst hi
      exact ⟨⟨x, rfl, hx⟩, fun j hj => absurd hj (Nat.not_lt_zero j)⟩
    · rw [if_neg hx, zero_add, List.findIdx?_succ] at h
      cases hr : rest.findIdx? p with
      | none => rw [hr] at h; simp at h
      | some k =>
        rw [hr] at h
        have hi : i = k + 1 := (Option.some.inj h).symm
        subst hi
        obtain ⟨⟨b, hb, hpb⟩, hf⟩ := ih k hr
        refine ⟨⟨b, hb, hpb⟩, fun j hj c hc => ?_⟩
        cases j with
        | zero =>
          simp only [List.get?_cons_zero, Option.some.injEq] at hc
          rw [← hc]
          simpa using hx
        | succ n => exact hf n (Nat.lt_of_succ_lt_succ hj) c hc

end ListLemmas

section BodyListLemmas

variable {R : Type}

theorem rel_all_map_from (r : RigidBody R → RigidBody R → Prop)
    (f : Nat → RigidBody R → RigidBody R) (hf : ∀ j b, r b (f j b)) (k : Nat)
    (bs : List (RigidBody R)) : List.Forall₂ r bs (map_from f k bs) := by
  induction bs generalizing k with
  | nil => exact List.Forall₂.nil
  | cons b rest ih => exact List.Forall₂.cons (hf k b) (ih (k + 1))

theorem inert_refl (b : RigidBody R) : inert b b := ⟨⟨rfl, rfl⟩, rfl, rfl⟩

theorem inert_trans (a b c : RigidBody R) (h1 : inert a b) (h2 : inert b c) : inert a c :=
  ⟨⟨h2.1.1.trans h1.1.1, h2.1.2.trans h1.1.2⟩, h2.2.1.trans h1.2.1, h2.2.2.trans h1.2.2⟩

theorem woken_refl (b : RigidBody R) : woken b b := ⟨⟨rfl, rfl⟩, rfl, fun h => h⟩

theorem woken_trans (a b c : RigidBody R) (h1 : woken a b) (h2 : woken b c) : woken a c :=
  ⟨⟨h2.1.1.trans h1.1.1, h2.1.2.trans h1.1.2⟩, h2.2.1.trans h1.2.1,
    fun h => h2.2.2 (h1.2.2 h)⟩

theorem woken_of_inert (a b : RigidBody R) (h : inert a b) : woken a b :=
  ⟨h.1, h.2.1, fun hs => h.2.2.trans hs⟩

theorem woken_sleeping (b : RigidBody R) : woken b { b with is_sleeping := false } :=
  ⟨⟨rfl, rfl⟩, rfl, fun _ => rfl⟩

theorem add_body_room (world : PhysicsWorld R) (body : RigidBody R)
    (h : world.body_count < MAX_BODIES) :
    physics_world_add_body world body =
      ({ world with bodies := world.bodies ++ [body] }, body.id) := by
  unfold physics_world_add_body
  rw [if_neg (not_le.mpr h)]

theorem add_body_full (world : PhysicsWorld R) (body : RigidBody R)
    (h : MAX_BODIES ≤ world.body_count) :
    physics_world_add_body world body = (world, -1) := by
  unfold physics_world_add_body
  rw [if_pos h]

theorem add_bodies_cons (world : PhysicsWorld R) (b : RigidBody R)
    (rest : List (RigidBody R)) :
    add_bodies world (b :: rest) =
      ((add_bodies (physics_world_add_body world b).1 rest).1,
        (physics_world_add_body world b).2 ::
          (add_bodies (physics_world_add_body world b).1 rest).2) := rfl

theorem remove_body_at (world : PhysicsWorld R) (body_id : Int) (i : Nat)
    (h : world.bodies.findIdx? (fun body => decide (body.id = body_id)) = some i) :
    physics_world_remove_body world body_id =
      ({ world with bodies := world.bodies.take i ++ world.bodies.drop (i + 1) }, true) := by
  unfold physics_world_remove_body
  rw [h]
  dsimp only
  rw [List.eraseIdx_eq_take_drop_succ]

theorem remove_body_absent (world : PhysicsWorld R) (body_id : Int)
    (h : world.bodies.findIdx? (fun body => decide (body.id = body_id)) = none) :
    physics_world_remove_body world body_id = (world, false) := by
  unfold physics_world_remove_body
  rw [h]

theorem add_bodies_room (world : PhysicsWorld R) (bodies : List (RigidBody R))
    (h : world.body_count + bodies.length ≤ MAX_BODIES) :
    add_bodies world bodies =
      ({ world with bodies := world.bodies ++ bodies }, bodies.map fun body => body.id) := by
  induction bodies generalizing world with
  | nil => simp [add_bodies]
  | cons b rest ih =>
    have hlt : world.body_count < MAX_BODIES := by
      simp only [List.length_cons] at h
      omega
    unfold add_bodies
    rw [add_body_room world b hlt]
    dsimp only
    rw [ih]
    · simp
    · simp only [PhysicsWorld.body_count, List.length_append, List.length_cons,
        List.length_nil] at h ⊢
      omega

theorem add_bodies_append (world : PhysicsWorld R) (xs ys : List (RigidBody R)) :
    add_bodies world (xs ++ ys) =
      ((add_bodies (add_bodies world xs).1 ys).1,
        (add_bodies world xs).2 ++ (add_bodies (add_bodies world xs).1 ys).2) := by
  induction xs generalizing world with
  | nil => rfl
  | cons b rest ih =>
    rw [List.cons_append, add_bodies_cons, add_bodies_cons, ih]
    rfl

theorem narrow_has_collision (c : Prop) [Decidable c]
    (cp n : Vector3 R) (d : R) (info : CollisionInfo R)
    (h : (if c then some (⟨true, cp, n, d⟩ : CollisionInfo R) else none) = some info) :
    info.has_collision = true := by
  split_ifs at h
  rw [← Option.some.inj h]

end BodyListLemmas

section Lemmas

variable {R : Type} [LinearOrderedField R]

theorem isSqrt_real : IsSqrt Real.sqrt :=
  fun x hx => ⟨Real.sqrt_nonneg x, Real.mul_self_sqrt hx⟩

theorem length_squared_nonneg (v : Vector3 R) : 0 ≤ vector3_length_squared v := by
  unfold vector3_length_squared
  nlinarith [mul_self_nonneg v.x, mul_self_nonneg v.y, mul_self_nonneg v.z]

theorem length_nonneg {sqrtf : R → R} (hs : IsSqrt sqrtf) (v : Vector3 R) :
    0 ≤ vector3_length sqrtf v :=
  (hs _ (length_squared_nonneg v)).1

theorem length_mul_self {sqrtf : R → R} (hs : IsSqrt sqrtf) (v : Vector3 R) :
    vector3_length sqrtf v * vector3_length sqrtf v = vector3_length_squared v :=
  (hs _ (length_squared_nonneg v)).2

theorem abs_x_le_length {sqrtf : R → R} (hs : IsSqrt sqrtf) (v : Vector3 R) :
    |v.x| ≤ vector3_length sqrtf v := by
  apply abs_le_of_sq_le_sq _ (length_nonneg hs v)
  have h := length_mul_self hs v
  unfold vector3_length_squared at h
  nlinarith [mul_self_nonneg v.y, mul_self_nonneg v.z]

theorem abs_y_le_length {sqrtf : R → R} (hs : IsSqrt sqrtf) (v : Vector3 R) :
    |v.y| ≤ vector3_length sqrtf v := by
  apply abs_le_of_sq_le_sq _ (length_nonneg hs v)
  have h := length_mul_self hs v
  unfold vector3_length_squared at h
  nlinarith [mul_self_nonneg v.x, mul_self_nonneg v.z]

theorem abs_z_le_length {sqrtf : R → R} (hs : IsSqrt sqrtf) (v : Vector3 R) :
    |v.z| ≤ vector3_length sqrtf v := by
  apply abs_le_of_sq_le_sq _ (length_nonneg hs v)
  have h := length_mul_self hs v
  unfold vector3_length_squared at h
  nlinarith [mul_self_nonneg v.x, mul_self_nonneg v.y]

theorem FLT_MAX_pos : (0 : R) < FLT_MAX := by
  unfold FLT_MAX
  norm_num

theorem sphere_sphere_gate {sqrtf : R → R} (hs : IsSqrt sqrtf) (a b : RigidBody R) (ra rb : R)
    (ha : a.shape = CollisionShape.sphere ra) (hb : b.shape = CollisionShape.sphere rb)
    (hd : vector3_length sqrtf (vector3_subtract b.position a.position) < ra + rb) :
    aabb_overlap_test a b = true := by
  have hx := abs_le.mp (abs_x_le_length hs (vector3_subtract b.position a.position))
  have hy := abs_le.mp (abs_y_le_length hs (vector3_subtract b.position a.position))
  have hz := abs_le.mp (abs_z_le_length hs (vector3_subtract b.position a.position))
  simp only [vector3_subtract] at hx hy hz hd
  simp only [aabb_overlap_test, get_aabb_min, get_aabb_max, ha, hb, vector3_create, ge_iff_le,
    Bool.and_eq_true, decide_eq_true_eq]
  refine ⟨⟨⟨?_, ?_⟩, ⟨?_, ?_⟩⟩, ⟨?_, ?_⟩⟩ <;> linarith [hx.1, hx.2, hy.1, hy.2, hz.1, hz.2]


theorem sample_sphere_shape (p v : Vector3 R) (r : R) :
    (sample_sphere p v r).shape = CollisionShape.sphere r := by
  norm_num [sample_sphere, rigid_body_init_sphere, rigid_body_set_mass, rigid_body_create]

theorem sample_sphere_position (p v : Vector3 R) (r : R) :
    (sample_sphere p v r).position = p := by
  norm_num [sample_sphere, rigid_body_init_sphere, rigid_body_set_mass, rigid_body_create]

theorem sample_sphere_static (p v : Vector3 R) (r : R) :
    (sample_sphere p v r).is_static = false := by
  norm_num [sample_sphere, rigid_body_init_sphere, rigid_body_set_mass, rigid_body_create]

theorem sample_sphere_inverse_mass (p v : Vector3 R) (r : R) :
    (sample_sphere p v r).inverse_mass = 1 := by
  norm_num [sample_sphere, rigid_body_init_sphere, rigid_body_set_mass, rigid_body_create]

theorem sample_box_shape (p h : Vector3 R) :
    (sample_box p h).shape = CollisionShape.aabb h := by
  norm_num [sample_box, rigid_body_init_aabb, rigid_body_set_mass, rigid_body_create]

theorem sample_box_position (p h : Vector3 R) : (sample_box p h).position = p := by
  norm_num [sample_box, rigid_body_init_aabb, rigid_body_set_mass, rigid_body_create]

theorem min_axis_select (x y z : R) (u v w : Vector3 R) :
    (if x < y ∧ x < z then (x, u) else if y < z then (y, v) else (z, w)).1 =
      min (min x y) z := by
  by_cases h1 : x < y ∧ x < z
  · rw [if_pos h1, min_eq_left (le_of_lt h1.1), min_eq_left (le_of_lt h1.2)]
  · rw [if_neg h1]
    by_cases h2 : y < z
    · rw [if_pos h2]
      have hyx : y ≤ x := by
        by_contra hc
        exact h1 ⟨not_le.mp hc, lt_trans (not_le.mp hc) h2⟩
      rw [min_eq_right hyx, min_eq_left (le_of_lt h2)]
    · rw [if_neg h2]
      have hzy : z ≤ y := not_lt.mp h2
      have hzx : z ≤ x := by
        by_contra hc
        have hxz : x < z := not_le.mp hc
        exact h1 ⟨lt_of_lt_of_le hxz hzy, hxz⟩
      rw [min_eq_right (le_min hzx hzy)]

theorem Icc_inter_nonempty_iff (l1 h1 l2 h2 : R) (ha : l1 ≤ h1) (hb : l2 ≤ h2) :
    (Set.Icc l1 h1 ∩ Set.Icc l2 h2).Nonempty ↔ l1 ≤ h2 ∧ l2 ≤ h1 := by
  rw [Set.Icc_inter_Icc, Set.nonempty_Icc, sup_le_iff, le_inf_iff, le_inf_iff]
  constructor
  · rintro ⟨⟨_, h⟩, ⟨h', _⟩⟩
    exact ⟨h, h'⟩
  · rintro ⟨h, h'⟩
    exact ⟨⟨ha, h⟩, ⟨h', hb⟩⟩

theorem clamp_mem (lo hi p : R) (h : lo ≤ hi) : lo ≤ max lo (min p hi) ∧ max lo (min p hi) ≤ hi :=
  ⟨le_max_left _ _, max_le h (min_le_right _ _)⟩

theorem update_acceleration_is_static (b : RigidBody R) :
    (update_acceleration b).is_static = b.is_static := by
  unfold update_acceleration
  split_ifs <;> rfl

theorem integrate_euler_is_static (b : RigidBody R) (dt : R) :
    (integrate_euler b dt).is_static = b.is_static := by
  unfold integrate_euler
  split_ifs
  · rfl
  · simp only [rigid_body_clear_forces, update_acceleration_is_static]

theorem integrate_verlet_is_static (b : RigidBody R) (dt : R) :
    (integrate_verlet b dt).is_static = b.is_static := by
  unfold integrate_verlet
  split_ifs
  · rfl
  · simp only [rigid_body_clear_forces, update_acceleration_is_static]

theorem integrate_rk4_is_static (b : RigidBody R) (dt : R) :
    (integrate_rk4 b dt).is_static = b.is_static := by
  unfold integrate_rk4
  split_ifs
  · rfl
  · simp only [rigid_body_clear_forces, update_acceleration_is_static]

theorem integrate_body_is_static (b : RigidBody R) (dt : R) (m : IntegrationMethod) :
    (integrate_body b dt m).is_static = b.is_static := by
  unfold integrate_body
  split_ifs
  · exact integrate_euler_is_static b dt
  · exact integrate_verlet_is_static b dt
  · exact integrate_rk4_is_static b dt
  · exact integrate_verlet_is_static b dt

theorem keeps_wake_one (sqrtf : R → R) (i : Nat) (m : RigidBody R) (j : Nat) (b : RigidBody R) :
    keeps b (wake_one sqrtf i m j b) := by
  unfold wake_one
  dsimp only
  split_ifs
  · exact keeps_refl b
  · exact keeps_refl b
  · exact keeps_sleeping b false
  · exact keeps_refl b

theorem keeps_wake_from (sqrtf : R → R) (bs : List (RigidBody R)) (i : Nat) :
    List.Forall₂ keeps bs (wake_from sqrtf bs i) := by
  unfold wake_from
  split
  · exact keeps_all_refl bs
  · dsimp only
    split_ifs
    · exact keeps_all_refl bs
    · exact keeps_all_refl bs
    · exact keeps_all_map_from _ (fun j b => keeps_wake_one sqrtf i _ j b) 0 bs

theorem keeps_wake (sqrtf : R → R) (w : PhysicsWorld R) :
    List.Forall₂ keeps w.bodies (physics_world_wake_sleeping_bodies sqrtf w).bodies :=
  keeps_all_foldl (wake_from sqrtf) (fun bs => bs) (keeps_wake_from sqrtf) _ _

theorem keeps_apply_forces (scale_inf : Vector3 R → Vector3 R) (w : PhysicsWorld R) :
    List.Forall₂ keeps w.bodies (physics_world_apply_forces scale_inf w).bodies := by
  apply keeps_all_map
  intro b
  split_ifs with h1
  · exact keeps_refl b
  · unfold rigid_body_add_force
    split_ifs
    · exact ⟨rfl, fun _ => ⟨rfl, rfl⟩⟩
    · exact keeps_refl b

theorem keeps_integrate (w : PhysicsWorld R) (dt : R) :
    List.Forall₂ keeps w.bodies (physics_world_integrate_bodies w dt).bodies := by
  apply keeps_all_map
  intro b
  split_ifs with h1
  · exact keeps_refl b
  · exact keeps_of_not_static (by simpa using h1) (integrate_body_is_static b dt _)

theorem keeps_detect_pair (sqrtf : R → R) (w : PhysicsWorld R) (ij : Nat × Nat) :
    List.Forall₂ keeps w.bodies (detect_pair sqrtf w ij).bodies := by
  unfold detect_pair
  split
  · rename_i body_a body_b ha hb
    dsimp only
    split_ifs
    · exact keeps_all_refl _
    · exact keeps_all_refl _
    · split
      · have h1 : List.Forall₂ keeps w.bodies
            (w.bodies.set ij.1 { body_a with is_sleeping := false }) :=
          keeps_all_set _ _ body_a _ ha (keeps_sleeping body_a false)
        obtain ⟨c, hc, hk⟩ := keeps_all_get h1 ij.2 body_b hb
        exact keeps_all_trans h1 (keeps_all_set _ ij.2 c _ hc
          (keeps_trans (keeps_symm hk) (keeps_sleeping body_b false)))
      · exact keeps_all_refl _
    · exact keeps_all_refl _
  · exact keeps_all_refl _

theorem keeps_detect (sqrtf : R → R) (w : PhysicsWorld R) :
    List.Forall₂ keeps w.bodies (physics_world_detect_collisions sqrtf w).bodies :=
  keeps_all_foldl (detect_pair sqrtf) (fun s => s.bodies) (keeps_detect_pair sqrtf) _
    { w with collisions := [], collision_checks_performed := 0 }

theorem keeps_separate (c : CollisionInfo R) (a b : RigidBody R) :
    keeps a (separate_bodies c a b).1 ∧ keeps b (separate_bodies c a b).2 := by
  unfold separate_bodies
  dsimp only
  split_ifs <;> refine ⟨?_, ?_⟩ <;>
    first
    | exact keeps_refl _
    | exact keeps_of_not_static (by assumption) rfl

theorem keeps_impulse (c : CollisionInfo R) (a b : RigidBody R) :
    keeps a (apply_impulse_response c a b).1 ∧ keeps b (apply_impulse_response c a b).2 := by
  unfold apply_impulse_response
  dsimp only
  split_ifs <;> refine ⟨?_, ?_⟩ <;>
    first
    | exact keeps_refl _
    | exact keeps_of_not_static (by assumption) rfl

theorem keeps_friction (sqrtf : R → R) (c : CollisionInfo R) (a b : RigidBody R) :
    keeps a (apply_friction sqrtf c a b).1 ∧ keeps b (apply_friction sqrtf c a b).2 := by
  unfold apply_friction
  dsimp only
  split_ifs <;> refine ⟨?_, ?_⟩ <;>
    first
    | exact keeps_refl _
    | exact keeps_of_not_static (by assumption) rfl

theorem keeps_correction (c : CollisionInfo R) (p q : R) (a b : RigidBody R) :
    keeps a (position_correction c p q a b).1 ∧ keeps b (position_correction c p q a b).2 := by
  unfold position_correction
  dsimp only
  split_ifs <;> refine ⟨?_, ?_⟩ <;>
    first
    | exact keeps_refl _
    | exact keeps_of_not_static (by assumption) rfl

theorem keeps_resolve (sqrtf : R → R) (c : CollisionInfo R) (a b : RigidBody R) :
    keeps a (resolve_collision sqrtf c a b).1 ∧ keeps b (resolve_collision sqrtf c a b).2 := by
  unfold resolve_collision
  dsimp only
  split_ifs
  · exact ⟨keeps_refl a, keeps_refl b⟩
  · have h1 := keeps_separate c a b
    have h2 := keeps_impulse c (separate_bodies c a b).1 (separate_bodies c a b).2
    have h3 := keeps_friction sqrtf c
      (apply_impulse_response c (separate_bodies c a b).1 (separate_bodies c a b).2).1
      (apply_impulse_response c (separate_bodies c a b).1 (separate_bodies c a b).2).2
    have h4 := keeps_correction c (8 / 10) (1 / 100)
      (apply_friction sqrtf c
        (apply_impulse_response c (separate_bodies c a b).1 (separate_bodies c a b).2).1
        (apply_impulse_response c (separate_bodies c a b).1 (separate_bodies c a b).2).2).1
      (apply_friction sqrtf c
        (apply_impulse_response c (separate_bodies c a b).1 (separate_bodies c a b).2).1
        (apply_impulse_response c (separate_bodies c a b).1 (separate_bodies c a b).2).2).2
    exact ⟨keeps_trans h1.1 (keeps_trans h2.1 (keeps_trans h3.1 h4.1)),
      keeps_trans h1.2 (keeps_trans h2.2 (keeps_trans h3.2 h4.2))⟩

theorem keeps_resolve_one (sqrtf : R → R) (bs : List (RigidBody R)) (c : WorldCollision R) :
    List.Forall₂ keeps bs (resolve_one sqrtf bs c) := by
  unfold resolve_one
  split
  · rename_i body_a body_b ha hb
    dsimp only
    have hr := keeps_resolve sqrtf c.info body_a body_b
    have h1 : List.Forall₂ keeps bs
        (bs.set c.body_a (resolve_collision sqrtf c.info body_a body_b).1) :=
      keeps_all_set _ _ body_a _ ha hr.1
    obtain ⟨d, hd, hk⟩ := keeps_all_get h1 c.body_b body_b hb
    exact keeps_all_trans h1 (keeps_all_set _ c.body_b d _ hd (keeps_trans (keeps_symm hk) hr.2))
  · exact keeps_all_refl _

theorem keeps_resolve_all (sqrtf : R → R) (w : PhysicsWorld R) :
    List.Forall₂ keeps w.bodies (physics_world_resolve_collisions sqrtf w).bodies :=
  keeps_all_foldl (resolve_one sqrtf) (fun bs => bs) (keeps_resolve_one sqrtf) _ _

theorem keeps_damping (b : RigidBody R) (p q : R) : keeps b (apply_damping b p q) := by
  unfold apply_damping
  dsimp only
  split_ifs with h0 h1
  · exact keeps_refl b
  · exact keeps_of_not_static (by simpa using h0) rfl
  · exact keeps_of_not_static (by simpa using h0) rfl

theorem keeps_sub_step (sqrtf : R → R) (scale_inf : Vector3 R → Vector3 R) (sub_dt : R)
    (w : PhysicsWorld R) :
    List.Forall₂ keeps w.bodies (sub_step sqrtf scale_inf sub_dt w).bodies := by
  unfold sub_step
  dsimp only
  exact keeps_all_trans (keeps_wake sqrtf w)
    (keeps_all_trans (keeps_apply_forces scale_inf _)
      (keeps_all_trans (keeps_integrate _ sub_dt)
        (keeps_all_trans (keeps_detect sqrtf _)
          (keeps_all_trans (keeps_resolve_all sqrtf _)
            (keeps_all_map _ (fun b => keeps_damping b _ _) _)))))

theorem keeps_step (sqrtf : R → R) (scale_inf : Vector3 R → Vector3 R) (w : PhysicsWorld R)
    (dt : R) :
    List.Forall₂ keeps w.bodies (physics_world_step_with_dt sqrtf scale_inf w dt).bodies := by
  unfold physics_world_step_with_dt
  split_ifs
  · exact keeps_all_refl _
  · exact keeps_iterate _ (keeps_sub_step sqrtf scale_inf _) _ w

theorem sqrt_unique {sqrtf : R → R} (hs : IsSqrt sqrtf) (x y : R) (hy : 0 ≤ y)
    (hxy : y * y = x) : sqrtf x = y := by
  have hx : 0 ≤ x := hxy ▸ mul_self_nonneg y
  obtain ⟨h0, h1⟩ := hs x hx
  exact (mul_self_inj h0 hy).mp (h1.trans hxy.symm)

theorem sqrt_one {sqrtf : R → R} (hs : IsSqrt sqrtf) : sqrtf 1 = 1 :=
  sqrt_unique hs 1 1 zero_le_one (one_mul 1)

theorem VECTOR_EPSILON_pos : (0 : R) < VECTOR_EPSILON := by
  unfold VECTOR_EPSILON
  norm_num

theorem length_normalize {sqrtf : R → R} (hs : IsSqrt sqrtf) (v : Vector3 R)
    (h : ¬ vector3_length sqrtf v < VECTOR_EPSILON) :
    vector3_length sqrtf (vector3_normalize sqrtf v) = 1 := by
  have hL : 0 < vector3_length sqrtf v := lt_of_lt_of_le VECTOR_EPSILON_pos (not_lt.mp h)
  have hLL := length_mul_self hs v
  unfold vector3_normalize
  dsimp only
  rw [if_neg h]
  generalize vector3_length sqrtf v = L at hL hLL
  unfold vector3_length
  apply sqrt_unique hs _ 1 zero_le_one
  simp only [vector3_length_squared, vector3_scale] at hLL ⊢
  have hL0 : L ≠ 0 := ne_of_gt hL
  field_simp
  linear_combination hLL

theorem length_of_sq_one {sqrtf : R → R} (hs : IsSqrt sqrtf) (v : Vector3 R)
    (h : vector3_length_squared v = 1) : vector3_length sqrtf v = 1 := by
  unfold vector3_length
  rw [h]
  exact sqrt_one hs

theorem axis_x_unit (c : Prop) [Decidable c] :
    vector3_length_squared (vector3_create (if c then (1 : R) else -1) 0 0) = 1 := by
  split_ifs <;> simp [vector3_length_squared, vector3_create]

theorem axis_y_unit (c : Prop) [Decidable c] :
    vector3_length_squared (vector3_create 0 (if c then (1 : R) else -1) 0) = 1 := by
  split_ifs <;> simp [vector3_length_squared, vector3_create]

theorem axis_z_unit (c : Prop) [Decidable c] :
    vector3_length_squared (vector3_create 0 0 (if c then (1 : R) else -1)) = 1 := by
  split_ifs <;> simp [vector3_length_squared, vector3_create]

theorem axis_x_unit' (c : Prop) [Decidable c] :
    vector3_length_squared (vector3_create (if c then (-1 : R) else 1) 0 0) = 1 := by
  split_ifs <;> simp [vector3_length_squared, vector3_create]

theorem axis_y_unit' (c : Prop) [Decidable c] :
    vector3_length_squared (vector3_create 0 (if c then (-1 : R) else 1) 0) = 1 := by
  split_ifs <;> simp [vector3_length_squared, vector3_create]

theorem axis_z_unit' (c : Prop) [Decidable c] :
    vector3_length_squared (vector3_create 0 0 (if c then (-1 : R) else 1)) = 1 := by
  split_ifs <;> simp [vector3_length_squared, vector3_create]

theorem unit_x_unit : vector3_length_squared (vector3_create (1 : R) 0 0) = 1 := by
  simp [vector3_length_squared, vector3_create]

theorem pair_ite_unit (c : Prop) [Decidable c] (x : R) (u : Vector3 R) (p : R × Vector3 R)
    (hu : vector3_length_squared u = 1) (hp : vector3_length_squared p.2 = 1) :
    vector3_length_squared (if c then (x, u) else p).2 = 1 := by
  split_ifs <;> assumption

theorem length_negate (sqrtf : R → R) (v : Vector3 R) :
    vector3_length sqrtf (vector3_negate v) = vector3_length sqrtf v := by
  unfold vector3_length
  congr 1
  simp only [vector3_length_squared, vector3_negate]
  ring

theorem sphere_sphere_normal {sqrtf : R → R} (hs : IsSqrt sqrtf) (a : RigidBody R) (ra : R)
    (b : RigidBody R) (rb : R) (info : CollisionInfo R)
    (h : sphere_sphere_collision sqrtf a ra b rb = some info) :
    vector3_length sqrtf info.normal = 1 := by
  unfold sphere_sphere_collision at h
  dsimp only at h
  split_ifs at h with h1 h2
  · simp only [Option.some.injEq] at h
    rw [← h]
    exact length_normalize hs _ (not_lt.mpr (le_of_lt h2))
  · simp only [Option.some.injEq] at h
    rw [← h]
    exact length_of_sq_one hs _ unit_x_unit

theorem sphere_aabb_normal {sqrtf : R → R} (hs : IsSqrt sqrtf) (s : RigidBody R) (r : R)
    (bx : RigidBody R) (hh : Vector3 R) (info : CollisionInfo R)
    (h : sphere_aabb_collision sqrtf s r bx hh = some info) :
    vector3_length sqrtf info.normal = 1 := by
  unfold sphere_aabb_collision at h
  dsimp only at h
  by_cases h1 : vector3_length sqrtf
      (vector3_subtract (closest_point_on_aabb s.position bx) s.position) < r
  · rw [if_pos h1] at h
    simp only [Option.some.injEq] at h
    rw [← h]
    dsimp only
    by_cases h2 : vector3_length sqrtf
        (vector3_subtract (closest_point_on_aabb s.position bx) s.position) > VECTOR_EPSILON
    · rw [if_pos h2]
      refine length_normalize hs _ (not_lt.mpr (le_of_lt ?_))
      rw [length_negate]
      exact h2
    · rw [if_neg h2]
      apply length_of_sq_one hs
      exact pair_ite_unit _ _ _ _ (axis_z_unit _)
        (pair_ite_unit _ _ _ _ (axis_y_unit _)
          (pair_ite_unit _ _ _ _ (axis_x_unit _) unit_x_unit))
  · rw [if_neg h1] at h
    exact absurd h (by simp)

theorem aabb_aabb_normal {sqrtf : R → R} (hs : IsSqrt sqrtf) (a b : RigidBody R)
    (info : CollisionInfo R) (h : aabb_aabb_collision a b = some info) :
    vector3_length sqrtf info.normal = 1 := by
  unfold aabb_aabb_collision at h
  dsimp only at h
  split at h
  · simp only [Option.some.injEq] at h
    rw [← h]
    dsimp only
    apply length_of_sq_one hs
    exact pair_ite_unit _ _ _ _ (axis_x_unit' _)
      (pair_ite_unit _ _ _ _ (axis_y_unit' _) (axis_z_unit' _))
  · exact absurd h (by simp)

theorem sphere_plane_normal (s : RigidBody R) (r : R) (n : Vector3 R) (d : R)
    (info : CollisionInfo R) (h : sphere_plane_collision s r n d = some info) :
    info.normal = n := by
  unfold sphere_plane_collision at h
  dsimp only at h
  split at h
  · simp only [Option.some.injEq] at h
    rw [← h]
  · exact absurd h (by simp)

theorem aabb_plane_normal (bx : RigidBody R) (hh n : Vector3 R) (d : R)
    (info : CollisionInfo R) (h : aabb_plane_collision bx hh n d = some info) :
    info.normal = n := by
  unfold aabb_plane_collision at h
  dsimp only at h
  split at h
  · simp only [Option.some.injEq] at h
    rw [← h]
  · exact absurd h (by simp)

theorem unit_plane_of_initialised {sqrtf : R → R} (hs : IsSqrt sqrtf) (body : RigidBody R)
    (h : initialised_nondegenerate sqrtf body) : unit_plane sqrtf body := by
  intro n d hshape
  rcases h with ⟨b0, p, r, m, rfl⟩ | ⟨b0, p, hh, m, rfl⟩ | ⟨b0, n0, d0, hn, rfl⟩
  · exfalso
    unfold rigid_body_init_sphere rigid_body_set_mass at hshape
    dsimp only at hshape
    split_ifs at hshape
  · exfalso
    unfold rigid_body_init_aabb rigid_body_set_mass at hshape
    dsimp only at hshape
    split_ifs at hshape
  · simp only [rigid_body_init_plane, CollisionShape.plane.injEq] at hshape
    rw [← hshape.1]
    exact length_normalize hs n0 (not_lt.mpr hn)

theorem detect_collision_unit_normal {sqrtf : R → R} (hs : IsSqrt sqrtf) (a b : RigidBody R)
    (ha : unit_plane sqrtf a) (hb : unit_plane sqrtf b) (info : CollisionInfo R)
    (h : detect_collision sqrtf a b = some info) : vector3_length sqrtf info.normal = 1 := by
  unfold detect_collision at h
  split_ifs at h
  split at h
  · exact sphere_sphere_normal hs _ _ _ _ _ h
  · exact sphere_aabb_normal hs _ _ _ _ _ h
  · exact sphere_aabb_normal hs _ _ _ _ _ h
  · exact aabb_aabb_normal hs _ _ _ h
  · rename_i ra n d hsa hsb
    rw [sphere_plane_normal _ _ _ _ _ h]
    exact hb n d hsb
  · rename_i n d rb hsa hsb
    rw [sphere_plane_normal _ _ _ _ _ h]
    exact ha n d hsa
  · rename_i hha n d hsa hsb
    rw [aabb_plane_normal _ _ _ _ _ h]
    exact hb n d hsb
  · rename_i n d hhb hsa hsb
    rw [aabb_plane_normal _ _ _ _ _ h]
    exact ha n d hsa
  · exact absurd h (by simp)

theorem vector3_add_scale_zero (p v : Vector3 R) (w : R) :
    vector3_add p (vector3_scale v (-(0 / w))) = p := by
  cases p
  simp [vector3_add, vector3_scale]

theorem vector3_add_scale_zero' (p v : Vector3 R) (w : R) :
    vector3_add p (vector3_scale v (0 / w)) = p := by
  cases p
  simp [vector3_add, vector3_scale]

theorem separate_bodies_eq (c : CollisionInfo R) (a b : RigidBody R)
    (hw : 0 < a.inverse_mass + b.inverse_mass)
    (hsa : a.is_static = true → a.inverse_mass = 0)
    (hsb : b.is_static = true → b.inverse_mass = 0) :
    separate_bodies c a b =
      ({ a with
          position := vector3_add a.position
            (vector3_scale (vector3_scale c.normal c.penetration_depth)
              (-(a.inverse_mass / (a.inverse_mass + b.inverse_mass)))) },
        { b with
          position := vector3_add b.position
            (vector3_scale (vector3_scale c.normal c.penetration_depth)
              (b.inverse_mass / (a.inverse_mass + b.inverse_mass))) }) := by
  unfold separate_bodies
  dsimp only
  rw [if_neg (not_le.mpr hw)]
  have ea : (if a.is_static = false then
      { a with
        position := vector3_add a.position
          (vector3_scale (vector3_scale c.normal c.penetration_depth)
            (-(a.inverse_mass / (a.inverse_mass + b.inverse_mass)))) } else a) =
      { a with
        position := vector3_add a.position
          (vector3_scale (vector3_scale c.normal c.penetration_depth)
            (-(a.inverse_mass / (a.inverse_mass + b.inverse_mass)))) } := by
    by_cases hA : a.is_static = true
    · have hp : vector3_add a.position
          (vector3_scale (vector3_scale c.normal c.penetration_depth)
            (-(a.inverse_mass / (a.inverse_mass + b.inverse_mass)))) = a.position := by
        rw [hsa hA]
        exact vector3_add_scale_zero _ _ _
      rw [if_neg (by simp [hA]), hp]
    · rw [if_pos (by simpa using hA)]
  have eb : (if b.is_static = false then
      { b with
        position := vector3_add b.position
          (vector3_scale (vector3_scale c.normal c.penetration_depth)
            (b.inverse_mass / (a.inverse_mass + b.inverse_mass))) } else b) =
      { b with
        position := vector3_add b.position
          (vector3_scale (vector3_scale c.normal c.penetration_depth)
            (b.inverse_mass / (a.inverse_mass + b.inverse_mass))) } := by
    by_cases hB : b.is_static = true
    · have hp : vector3_add b.position
          (vector3_scale (vector3_scale c.normal c.penetration_depth)
            (b.inverse_mass / (a.inverse_mass + b.inverse_mass))) = b.position := by
        rw [hsb hB]
        exact vector3_add_scale_zero' _ _ _
      rw [if_neg (by simp [hB]), hp]
    · rw [if_pos (by simpa using hB)]
  rw [ea, eb]

theorem clamp_ray (lo hi x t : R) (ht : 0 ≤ t) :
    max lo (min (x + t * (x - max lo (min x hi))) hi) = max lo (min x hi) := by
  rcases le_or_lt x hi with hxh | hxh
  · rw [min_eq_left hxh]
    rcases le_or_lt lo x with hlx | hlx
    · rw [max_eq_right hlx, sub_self, mul_zero, add_zero, min_eq_left hxh, max_eq_right hlx]
    · rw [max_eq_left (le_of_lt hlx)]
      have h1 : t * (x - lo) ≤ 0 := mul_nonpos_of_nonneg_of_nonpos ht (by linarith)
      exact max_eq_left (le_trans (min_le_left _ _) (by linarith))
  · rw [min_eq_right (le_of_lt hxh)]
    rcases le_or_lt lo hi with hlh | hlh
    · rw [max_eq_right hlh]
      have h1 : 0 ≤ t * (x - hi) := mul_nonneg ht (by linarith)
      rw [min_eq_right (by linarith), max_eq_right hlh]
    · rw [max_eq_left (le_of_lt hlh)]
      exact max_eq_left (le_trans (min_le_right _ _) (le_of_lt hlh))

theorem detect_collision_narrow (sqrtf : R → R) (a b : RigidBody R) (info : CollisionInfo R)
    (h : detect_collision sqrtf a b = some info) :
    (match a.shape, b.shape with
      | CollisionShape.sphere ra, CollisionShape.sphere rb =>
        sphere_sphere_collision sqrtf a ra b rb
      | CollisionShape.sphere ra, CollisionShape.aabb hb =>
        sphere_aabb_collision sqrtf a ra b hb
      | CollisionShape.aabb ha, CollisionShape.sphere rb =>
        sphere_aabb_collision sqrtf b rb a ha
      | CollisionShape.aabb _, CollisionShape.aabb _ =>
        aabb_aabb_collision a b
      | CollisionShape.sphere ra, CollisionShape.plane n d =>
        sphere_plane_collision a ra n d
      | CollisionShape.plane n d, CollisionShape.sphere rb =>
        sphere_plane_collision b rb n d
      | CollisionShape.aabb ha, CollisionShape.plane n d =>
        aabb_plane_collision a ha n d
      | CollisionShape.plane n d, CollisionShape.aabb hb =>
        aabb_plane_collision b hb n d
      | CollisionShape.plane _ _, CollisionShape.plane _ _ => none) = some info := by
  unfold detect_collision at h
  split_ifs at h
  exact h

theorem detect_collision_none_of_narrow (sqrtf : R → R) (a b : RigidBody R)
    (h : (match a.shape, b.shape with
      | CollisionShape.sphere ra, CollisionShape.sphere rb =>
        sphere_sphere_collision sqrtf a ra b rb
      | CollisionShape.sphere ra, CollisionShape.aabb hb =>
        sphere_aabb_collision sqrtf a ra b hb
      | CollisionShape.aabb ha, CollisionShape.sphere rb =>
        sphere_aabb_collision sqrtf b rb a ha
      | CollisionShape.aabb _, CollisionShape.aabb _ =>
        aabb_aabb_collision a b
      | CollisionShape.sphere ra, CollisionShape.plane n d =>
        sphere_plane_collision a ra n d
      | CollisionShape.plane n d, CollisionShape.sphere rb =>
        sphere_plane_collision b rb n d
      | CollisionShape.aabb ha, CollisionShape.plane n d =>
        aabb_plane_collision a ha n d
      | CollisionShape.plane n d, CollisionShape.aabb hb =>
        aabb_plane_collision b hb n d
      | CollisionShape.plane _ _, CollisionShape.plane _ _ => none) = none) :
    detect_collision sqrtf a b = none := by
  unfold detect_collision
  split_ifs
  · rfl
  · exact h

theorem separate_plane_sphere (sqrtf : R → R) (a b : RigidBody R) (n : Vector3 R) (d r : R)
    (hA : a.shape = CollisionShape.plane n d) (hB : b.shape = CollisionShape.sphere r)
    (hn : vector3_length_squared n = 1) (hstat : a.is_static = true)
    (hw : 0 < a.inverse_mass + b.inverse_mass)
    (hsa : a.is_static = true → a.inverse_mass = 0)
    (hsb : b.is_static = true → b.inverse_mass = 0)
    (info : CollisionInfo R) (h : detect_collision sqrtf a b = some info) :
    detect_collision sqrtf (separate_bodies info a b).1 (separate_bodies info a b).2 = none := by
  have hnar := detect_collision_narrow sqrtf a b info h
  rw [hA, hB] at hnar
  dsimp only at hnar
  rw [separate_bodies_eq info a b hw hsa hsb]
  apply detect_collision_none_of_narrow
  dsimp only
  rw [hA, hB]
  dsimp only
  have ha0 := hsa hstat
  rw [ha0, zero_add] at hw ⊢
  have hb0 : b.inverse_mass ≠ 0 := ne_of_gt hw
  unfold sphere_plane_collision at hnar ⊢
  dsimp only at hnar ⊢
  split_ifs at hnar with h1
  simp only [Option.some.injEq] at hnar
  rw [← hnar]
  dsimp only
  rw [if_neg]
  simp only [distance_to_plane, vector3_dot, vector3_add, vector3_scale, not_lt] at h1 ⊢
  simp only [vector3_length_squared] at hn
  rw [div_self hb0]
  apply le_of_eq
  linear_combination (-(r - (b.position.x * n.x + b.position.y * n.y + b.position.z * n.z - d))) * hn


theorem separate_plane_aabb (sqrtf : R → R) (a b : RigidBody R) (n : Vector3 R) (d : R)
    (hh : Vector3 R)
    (hA : a.shape = CollisionShape.plane n d) (hB : b.shape = CollisionShape.aabb hh)
    (hn : vector3_length_squared n = 1) (hstat : a.is_static = true)
    (hw : 0 < a.inverse_mass + b.inverse_mass)
    (hsa : a.is_static = true → a.inverse_mass = 0)
    (hsb : b.is_static = true → b.inverse_mass = 0)
    (info : CollisionInfo R) (h : detect_collision sqrtf a b = some info) :
    detect_collision sqrtf (separate_bodies info a b).1 (separate_bodies info a b).2 = none := by
  have hnar := detect_collision_narrow sqrtf a b info h
  rw [hA, hB] at hnar
  dsimp only at hnar
  rw [separate_bodies_eq info a b hw hsa hsb]
  apply detect_collision_none_of_narrow
  dsimp only
  rw [hA, hB]
  dsimp only
  have ha0 := hsa hstat
  rw [ha0, zero_add] at hw ⊢
  have hb0 : b.inverse_mass ≠ 0 := ne_of_gt hw
  unfold aabb_plane_collision at hnar ⊢
  dsimp only at hnar ⊢
  split_ifs at hnar with h1
  simp only [Option.some.injEq] at hnar
  rw [← hnar]
  dsimp only
  rw [if_neg]
  simp only [distance_to_plane, vector3_dot, vector3_add, vector3_scale, not_lt] at h1 ⊢
  simp only [vector3_length_squared] at hn
  rw [div_self hb0]
  apply le_of_eq
  generalize |hh.x * n.x| + |hh.y * n.y| + |hh.z * n.z| = e
  linear_combination (-(e - (b.position.x * n.x + b.position.y * n.y + b.position.z * n.z - d))) * hn

theorem separate_sphere_sphere (sqrtf : R → R) (hs : IsSqrt sqrtf) (a b : RigidBody R)
    (ra rb : R)
    (hA : a.shape = CollisionShape.sphere ra) (hB : b.shape = CollisionShape.sphere rb)
    (hfar : VECTOR_EPSILON < vector3_distance sqrtf a.position b.position)
    (hw : 0 < a.inverse_mass + b.inverse_mass)
    (hsa : a.is_static = true → a.inverse_mass = 0)
    (hsb : b.is_static = true → b.inverse_mass = 0)
    (info : CollisionInfo R) (h : detect_collision sqrtf a b = some info) :
    detect_collision sqrtf (separate_bodies info a b).1 (separate_bodies info a b).2 = none := by
  have hnar := detect_collision_narrow sqrtf a b info h
  rw [hA, hB] at hnar
  dsimp only at hnar
  rw [separate_bodies_eq info a b hw hsa hsb]
  apply detect_collision_none_of_narrow
  dsimp only
  rw [hA, hB]
  dsimp only
  have hw0 : a.inverse_mass + b.inverse_mass ≠ 0 := ne_of_gt hw
  unfold vector3_distance at hfar
  have hdd := length_mul_self hs (vector3_subtract b.position a.position)
  unfold sphere_sphere_collision at hnar ⊢
  dsimp only at hnar ⊢
  split_ifs at hnar with h1
  simp only [Option.some.injEq] at hnar
  rw [← hnar]
  dsimp only
  rw [if_neg]
  rw [not_lt]
  apply le_of_eq
  unfold vector3_normalize
  dsimp only
  rw [if_neg (not_lt.mpr (le_of_lt hfar))]
  generalize vector3_length sqrtf (vector3_subtract b.position a.position) = dist
    at hfar hdd h1
  have hd0 : dist ≠ 0 := ne_of_gt (lt_trans VECTOR_EPSILON_pos hfar)
  have hR : 0 ≤ ra + rb := le_of_lt (lt_trans (lt_trans VECTOR_EPSILON_pos hfar) h1)
  symm
  unfold vector3_length
  apply sqrt_unique hs _ _ hR
  simp only [vector3_length_squared, vector3_subtract, vector3_add, vector3_scale] at hdd ⊢
  field_simp
  linear_combination ((ra + rb) ^ 2 * (a.inverse_mass + b.inverse_mass) ^ 2) * hdd

theorem clamp_after_separation (pa h pb nk pen sa sb t : R) (hsum : sa + sb = 1) (ht : 0 ≤ t)
    (hn : nk * pen = t * (pb - max (pa - h) (min pb (pa + h)))) :
    max (pa + nk * pen * -sa - h) (min (pb + nk * pen * sb) (pa + nk * pen * -sa + h)) -
        (pb + nk * pen * sb) =
      (1 + t) * (max (pa - h) (min pb (pa + h)) - pb) := by
  have key := clamp_ray (pa - h + nk * pen * -sa) (pa + h + nk * pen * -sa)
    (pb + nk * pen * -sa) t ht
  rw [min_add_add_right, max_add_add_right] at key
  have e1 : pb + nk * pen * -sa +
      t * (pb + nk * pen * -sa - (max (pa - h) (min pb (pa + h)) + nk * pen * -sa)) =
      pb + nk * pen * sb := by
    have hsb : sb = 1 - sa := by linarith
    rw [hsb]
    linear_combination (-1 : R) * hn
  rw [e1] at key
  have e2 : pa + nk * pen * -sa - h = pa - h + nk * pen * -sa := by ring
  have e3 : pa + nk * pen * -sa + h = pa + h + nk * pen * -sa := by ring
  rw [e2, e3, key]
  have hsb : sb = 1 - sa := by linarith
  rw [hsb]
  linear_combination (-1 : R) * hn

theorem separate_aabb_sphere (sqrtf : R → R) (hs : IsSqrt sqrtf) (a b : RigidBody R)
    (hh : Vector3 R) (r : R)
    (hA : a.shape = CollisionShape.aabb hh) (hB : b.shape = CollisionShape.sphere r)
    (hfar : VECTOR_EPSILON <
      vector3_distance sqrtf b.position (closest_point_on_aabb b.position a))
    (hw : 0 < a.inverse_mass + b.inverse_mass)
    (hsa : a.is_static = true → a.inverse_mass = 0)
    (hsb : b.is_static = true → b.inverse_mass = 0)
    (info : CollisionInfo R) (h : detect_collision sqrtf a b = some info) :
    detect_collision sqrtf (separate_bodies info a b).1 (separate_bodies info a b).2 = none := by
  have hnar := detect_collision_narrow sqrtf a b info h
  rw [hA, hB] at hnar
  dsimp only at hnar
  rw [separate_bodies_eq info a b hw hsa hsb]
  apply detect_collision_none_of_narrow
  dsimp only
  rw [hA, hB]
  dsimp only
  have hw0 : a.inverse_mass + b.inverse_mass ≠ 0 := ne_of_gt hw
  have hsum : a.inverse_mass / (a.inverse_mass + b.inverse_mass) +
      b.inverse_mass / (a.inverse_mass + b.inverse_mass) = 1 := by
    field_simp
  unfold vector3_distance at hfar
  have hdd := length_mul_self hs
    (vector3_subtract (closest_point_on_aabb b.position a) b.position)
  unfold sphere_aabb_collision at hnar ⊢
  dsimp only at hnar ⊢
  split_ifs at hnar with h1
  simp only [Option.some.injEq] at hnar
  rw [← hnar]
  dsimp only
  rw [if_neg]
  rw [not_lt]
  apply le_of_eq
  unfold vector3_normalize
  dsimp only
  rw [length_negate, if_neg (not_lt.mpr (le_of_lt hfar))]
  simp only [closest_point_on_aabb, get_aabb_min, get_aabb_max, hA, vector3_create] at hfar hdd h1 ⊢
  generalize hdist : vector3_length sqrtf (vector3_subtract
    { x := max (a.position.x - hh.x) (min b.position.x (a.position.x + hh.x)),
      y := max (a.position.y - hh.y) (min b.position.y (a.position.y + hh.y)),
      z := max (a.position.z - hh.z) (min b.position.z (a.position.z + hh.z)) } b.position) = dist
    at hfar hdd h1 ⊢
  have hdpos : 0 < dist := lt_trans VECTOR_EPSILON_pos hfar
  have hr : 0 ≤ r := le_of_lt (lt_trans hdpos h1)
  have hd0 : dist ≠ 0 := ne_of_gt hdpos
  have ht : 0 ≤ (r - dist) / dist := div_nonneg (by linarith) (le_of_lt hdpos)
  have ex := clamp_after_separation a.position.x hh.x b.position.x
    (-(max (a.position.x - hh.x) (min b.position.x (a.position.x + hh.x)) - b.position.x) *
      (1 / dist)) (r - dist) (a.inverse_mass / (a.inverse_mass + b.inverse_mass))
    (b.inverse_mass / (a.inverse_mass + b.inverse_mass)) ((r - dist) / dist) hsum ht
    (by field_simp; ring)
  have ey := clamp_after_separation a.position.y hh.y b.position.y
    (-(max (a.position.y - hh.y) (min b.position.y (a.position.y + hh.y)) - b.position.y) *
      (1 / dist)) (r - dist) (a.inverse_mass / (a.inverse_mass + b.inverse_mass))
    (b.inverse_mass / (a.inverse_mass + b.inverse_mass)) ((r - dist) / dist) hsum ht
    (by field_simp; ring)
  have ez := clamp_after_separation a.position.z hh.z b.position.z
    (-(max (a.position.z - hh.z) (min b.position.z (a.position.z + hh.z)) - b.position.z) *
      (1 / dist)) (r - dist) (a.inverse_mass / (a.inverse_mass + b.inverse_mass))
    (b.inverse_mass / (a.inverse_mass + b.inverse_mass)) ((r - dist) / dist) hsum ht
    (by field_simp; ring)
  symm
  unfold vector3_length
  apply sqrt_unique hs _ r hr
  simp only [vector3_length_squared, vector3_subtract, vector3_add, vector3_scale,
    vector3_negate] at hdd ⊢
  rw [ex, ey, ez]
  field_simp
  linear_combination (r ^ 2) * hdd

theorem length_squared_of_unit {sqrtf : R → R} (hs : IsSqrt sqrtf) (n : Vector3 R)
    (h : vector3_length sqrtf n = 1) : vector3_length_squared n = 1 := by
  have := length_mul_self hs n
  rw [h, one_mul] at this
  exact this.symm

theorem near_coincident_spheres_stay_in_contact :
    ∃ info info',
      detect_collision Real.sqrt (sample_sphere ⟨0, 0, 0⟩ ⟨0, 0, 0⟩ 1)
        (sample_sphere ⟨-1 / 1000000, 0, 0⟩ ⟨0, 0, 0⟩ 1) = some info ∧
      detect_collision Real.sqrt
        (separate_bodies info (sample_sphere ⟨0, 0, 0⟩ ⟨0, 0, 0⟩ 1)
          (sample_sphere ⟨-1 / 1000000, 0, 0⟩ ⟨0, 0, 0⟩ 1)).1
        (separate_bodies info (sample_sphere ⟨0, 0, 0⟩ ⟨0, 0, 0⟩ 1)
          (sample_sphere ⟨-1 / 1000000, 0, 0⟩ ⟨0, 0, 0⟩ 1)).2 = some info' ∧
      info'.penetration_depth ≠ 0 := by
  have h1 : Real.sqrt (1 / 1000000000000) = 1 / 1000000 :=
    sqrt_unique isSqrt_real _ _ (by norm_num) (by norm_num)
  have h2 : Real.sqrt (999998000001 / 250000000000) = 999999 / 500000 :=
    sqrt_unique isSqrt_real _ _ (by norm_num) (by norm_num)
  refine ⟨⟨true, ⟨1 / 2000000, 0, 0⟩, ⟨1, 0, 0⟩, 1999999 / 1000000⟩,
    ⟨true, ⟨-1 / 2000000, 0, 0⟩, ⟨1, 0, 0⟩, 1 / 500000⟩, ?_, ?_, by norm_num⟩
  · norm_num [detect_collision, aabb_overlap_test, get_aabb_min, get_aabb_max,
      sample_sphere, rigid_body_init_sphere, rigid_body_set_mass, rigid_body_create,
      vector3_create, sphere_sphere_collision, vector3_subtract, vector3_normalize,
      vector3_length, vector3_length_squared, VECTOR_EPSILON, vector3_add, vector3_scale, h1]
  · norm_num [detect_collision, aabb_overlap_test, get_aabb_min, get_aabb_max,
      sample_sphere, rigid_body_init_sphere, rigid_body_set_mass, rigid_body_create,
      vector3_create, sphere_sphere_collision, vector3_subtract, vector3_normalize,
      vector3_length, vector3_length_squared, VECTOR_EPSILON, vector3_add, vector3_scale,
      separate_bodies, h1, h2]

theorem sphere_inside_box_stays_in_contact :
    (sample_box (⟨0, 0, 0⟩ : Vector3 ℝ) ⟨2, 2, 2⟩).is_static = false ∧
    0 < (sample_box (⟨0, 0, 0⟩ : Vector3 ℝ) ⟨2, 2, 2⟩).inverse_mass ∧
    ∃ info info',
      detect_collision Real.sqrt (sample_box ⟨0, 0, 0⟩ ⟨2, 2, 2⟩)
        (sample_sphere ⟨0, 0, 0⟩ ⟨0, 0, 0⟩ (1 / 2)) = some info ∧
      detect_collision Real.sqrt
        (separate_bodies info (sample_box ⟨0, 0, 0⟩ ⟨2, 2, 2⟩)
          (sample_sphere ⟨0, 0, 0⟩ ⟨0, 0, 0⟩ (1 / 2))).1
        (separate_bodies info (sample_box ⟨0, 0, 0⟩ ⟨2, 2, 2⟩)
          (sample_sphere ⟨0, 0, 0⟩ ⟨0, 0, 0⟩ (1 / 2))).2 = some info' ∧
      info'.penetration_depth ≠ 0 := by
  have hbox : sample_box (⟨0, 0, 0⟩ : Vector3 ℝ) ⟨2, 2, 2⟩ =
      { (rigid_body_create 2 : RigidBody ℝ) with
        position := ⟨0, 0, 0⟩, shape := CollisionShape.aabb ⟨2, 2, 2⟩ } := by
    norm_num [sample_box, rigid_body_init_aabb, rigid_body_set_mass, rigid_body_create]
  have hsph : sample_sphere (⟨0, 0, 0⟩ : Vector3 ℝ) ⟨0, 0, 0⟩ (1 / 2) =
      { (rigid_body_create 1 : RigidBody ℝ) with
        position := ⟨0, 0, 0⟩, velocity := ⟨0, 0, 0⟩, shape := CollisionShape.sphere (1 / 2) } := by
    norm_num [sample_sphere, rigid_body_init_sphere, rigid_body_set_mass, rigid_body_create]
  have habs : |(1 / 2 : ℝ)| = 1 / 2 := abs_of_pos (by norm_num)
  rw [hbox, hsph]
  refine ⟨rfl, by norm_num [rigid_body_create], ⟨true, ⟨0, 0, 0⟩, ⟨-1, 0, 0⟩, 1 / 2⟩,
    ⟨true, ⟨-1 / 4, 0, 0⟩, ⟨-1, 0, 0⟩, 1 / 2⟩, ?_, ?_, by norm_num⟩
  · norm_num [detect_collision, aabb_overlap_test, get_aabb_min, get_aabb_max, rigid_body_create,
      vector3_create, sphere_aabb_collision, closest_point_on_aabb, vector3_subtract,
      vector3_length, vector3_length_squared, VECTOR_EPSILON, FLT_MAX, vector3_zero]
  · norm_num [detect_collision, aabb_overlap_test, get_aabb_min, get_aabb_max, rigid_body_create,
      vector3_create, sphere_aabb_collision, closest_point_on_aabb, vector3_subtract,
      vector3_length, vector3_length_squared, VECTOR_EPSILON, FLT_MAX, vector3_zero,
      separate_bodies, vector3_add, vector3_scale, habs]

theorem run_body_ops_induction (sqrtf : R → R) (P : RigidBody R → Prop)
    (hstep : ∀ b op, P b → P (BodyOp.run sqrtf b op)) (ops : List (BodyOp R))
    (b : RigidBody R) (hb : P b) : P (run_body_ops sqrtf b ops) := by
  unfold run_body_ops
  induction ops generalizing b with
  | nil => exact hb
  | cons op rest ih => exact ih _ (hstep b op hb)

theorem mass_invariant_set_mass (b : RigidBody R) (m : Mass R) :
    mass_invariant (rigid_body_set_mass b m) := by
  unfold rigid_body_set_mass
  cases m with
  | finite v =>
    dsimp only
    split_ifs with h
    · simp [mass_invariant]
    · rw [not_or] at h
      show 0 < v ∧ (1 : R) / v = 1 / v ∧ b.is_static = false
      exact ⟨not_le.mp h.1, rfl, by simpa using h.2⟩
  | infinity =>
    dsimp only
    split_ifs <;> simp [mass_invariant]

theorem mass_invariant_of_fields (b c : RigidBody R) (hm : c.mass = b.mass)
    (hi : c.inverse_mass = b.inverse_mass) (hs : c.is_static = b.is_static)
    (h : mass_invariant b) : mass_invariant c := by
  unfold mass_invariant at h ⊢
  rw [hm, hi, hs]
  exact h

theorem mass_invariant_run (sqrtf : R → R) (b : RigidBody R) (op : BodyOp R)
    (h : mass_invariant b) : mass_invariant (BodyOp.run sqrtf b op) := by
  cases op with
  | init_sphere p r m => exact mass_invariant_set_mass _ _
  | init_aabb p hh m => exact mass_invariant_set_mass _ _
  | init_plane n d => simp [BodyOp.run, rigid_body_init_plane, mass_invariant]
  | set_position p =>
    simp only [BodyOp.run, rigid_body_set_position]
    split_ifs
    · exact mass_invariant_of_fields b _ rfl rfl rfl h
    · exact h
  | set_velocity v =>
    simp only [BodyOp.run, rigid_body_set_velocity]
    split_ifs
    · exact mass_invariant_of_fields b _ rfl rfl rfl h
    · exact h
  | set_mass m => exact mass_invariant_set_mass _ _
  | set_restitution r => exact mass_invariant_of_fields b _ rfl rfl rfl h
  | set_friction f => exact mass_invariant_of_fields b _ rfl rfl rfl h
  | set_static s =>
    simp only [BodyOp.run, rigid_body_set_static]
    split_ifs
    · simp [mass_invariant]
    · exact mass_invariant_set_mass _ _
  | add_force f =>
    simp only [BodyOp.run, rigid_body_add_force]
    split_ifs
    · exact mass_invariant_of_fields b _ rfl rfl rfl h
    · exact h
  | add_force_at_point f p =>
    simp only [BodyOp.run, rigid_body_add_force_at_point, rigid_body_add_force,
      rigid_body_add_torque]
    split_ifs
    all_goals exact h
  | add_torque t =>
    simp only [BodyOp.run, rigid_body_add_torque]
    split_ifs
    · exact mass_invariant_of_fields b _ rfl rfl rfl h
    · exact h
  | add_impulse j =>
    simp only [BodyOp.run, rigid_body_add_impulse]
    split_ifs
    · exact mass_invariant_of_fields b _ rfl rfl rfl h
    · exact h
  | clear_forces => exact mass_invariant_of_fields b _ rfl rfl rfl h

theorem mass_invariant_create (next_id : Int) :
    mass_invariant (rigid_body_create next_id : RigidBody R) := by
  simp [mass_invariant, rigid_body_create]

theorem mass_invariant_reachable (sqrtf : R → R) (body : RigidBody R)
    (h : body_reachable sqrtf body) : mass_invariant body := by
  obtain ⟨n, ops, rfl⟩ := h
  exact run_body_ops_induction sqrtf mass_invariant (mass_invariant_run sqrtf) ops _
    (mass_invariant_create n)

theorem keeps_plane_run (sqrtf : R → R) (b : RigidBody R) (op : BodyOp R)
    (hop : op.keeps_plane)
    (h : b.is_static = true ∧ b.position = vector3_zero) :
    (BodyOp.run sqrtf b op).is_static = true ∧
      (BodyOp.run sqrtf b op).position = vector3_zero := by
  obtain ⟨hs, hp⟩ := h
  cases op with
  | init_sphere p r m => exact absurd hop id
  | init_aabb p hh m => exact absurd hop id
  | init_plane n d => exact ⟨rfl, rfl⟩
  | set_position p => simp [BodyOp.run, rigid_body_set_position, hs, hp]
  | set_velocity v => simp [BodyOp.run, rigid_body_set_velocity, hs, hp]
  | set_mass m =>
    cases m <;> simp [BodyOp.run, rigid_body_set_mass, hs, hp]
  | set_restitution r => exact ⟨hs, hp⟩
  | set_friction f => exact ⟨hs, hp⟩
  | set_static s =>
    cases s with
    | false => exact absurd hop id
    | true => simp [BodyOp.run, rigid_body_set_static, hp]
  | add_force f => simp [BodyOp.run, rigid_body_add_force, hs, hp]
  | add_force_at_point f p => simp [BodyOp.run, rigid_body_add_force_at_point, hs, hp]
  | add_torque t => simp [BodyOp.run, rigid_body_add_torque, hs, hp]
  | add_impulse j => simp [BodyOp.run, rigid_body_add_impulse, hs, hp]
  | clear_forces => exact ⟨hs, hp⟩

theorem surface_invariant_of_fields (b c : RigidBody R) (hr : c.restitution = b.restitution)
    (hf : c.friction = b.friction) (h : surface_invariant b) : surface_invariant c := by
  unfold surface_invariant at h ⊢
  rw [hr, hf]
  exact h

theorem surface_invariant_set_mass (b : RigidBody R) (m : Mass R) (h : surface_invariant b) :
    surface_invariant (rigid_body_set_mass b m) := by
  unfold rigid_body_set_mass
  cases m <;> dsimp only <;> split_ifs <;> exact h

theorem surface_invariant_run (sqrtf : R → R) (b : RigidBody R) (op : BodyOp R)
    (h : surface_invariant b) : surface_invariant (BodyOp.run sqrtf b op) := by
  cases op with
  | init_sphere p r m => exact surface_invariant_set_mass _ _ h
  | init_aabb p hh m => exact surface_invariant_set_mass _ _ h
  | init_plane n d => exact h
  | set_position p =>
    simp only [BodyOp.run, rigid_body_set_position]
    split_ifs <;> exact h
  | set_velocity v =>
    simp only [BodyOp.run, rigid_body_set_velocity]
    split_ifs <;> exact h
  | set_mass m => exact surface_invariant_set_mass _ _ h
  | set_restitution r =>
    exact ⟨⟨le_max_left _ _, max_le zero_le_one (min_le_left _ _)⟩, h.2⟩
  | set_friction f => exact ⟨h.1, le_max_left _ _⟩
  | set_static s =>
    simp only [BodyOp.run, rigid_body_set_static]
    split_ifs
    · exact h
    · exact surface_invariant_set_mass _ _ h
  | add_force f =>
    simp only [BodyOp.run, rigid_body_add_force]
    split_ifs <;> exact h
  | add_force_at_point f p =>
    simp only [BodyOp.run, rigid_body_add_force_at_point, rigid_body_add_force,
      rigid_body_add_torque]
    split_ifs
    all_goals exact h
  | add_torque t =>
    simp only [BodyOp.run, rigid_body_add_torque]
    split_ifs <;> exact h
  | add_impulse j =>
    simp only [BodyOp.run, rigid_body_add_impulse]
    split_ifs <;> exact h
  | clear_forces => exact h

theorem sample_sphere_sleeping (p v : Vector3 R) (r : R) :
    (sample_sphere p v r).is_sleeping = false := by
  norm_num [sample_sphere, rigid_body_init_sphere, rigid_body_set_mass, rigid_body_create]

theorem vector3_add_zero_scale (p : Vector3 R) (k : R) :
    vector3_add p (vector3_scale vector3_zero k) = p := by
  cases p
  simp [vector3_add, vector3_scale, vector3_zero]

theorem apply_friction_velocity (sqrtf : R → R) (c : CollisionInfo R) (a b : RigidBody R)
    (hsa : a.is_static = true → a.inverse_mass = 0)
    (hsb : b.is_static = true → b.inverse_mass = 0) :
    (apply_friction sqrtf c a b).1.velocity =
      vector3_add a.velocity
        (vector3_scale (applied_friction_impulse sqrtf c a b) (-a.inverse_mass)) ∧
    (apply_friction sqrtf c a b).2.velocity =
      vector3_add b.velocity
        (vector3_scale (applied_friction_impulse sqrtf c a b) b.inverse_mass) := by
  unfold apply_friction applied_friction_impulse
  dsimp only
  by_cases h1 : vector3_length sqrtf
      (vector3_subtract (vector3_subtract b.velocity a.velocity)
        (vector3_scale c.normal
          (vector3_dot (vector3_subtract b.velocity a.velocity) c.normal))) < VECTOR_EPSILON
  · rw [if_pos h1, if_pos h1]
    exact ⟨(vector3_add_zero_scale _ _).symm, (vector3_add_zero_scale _ _).symm⟩
  · rw [if_neg h1, if_neg h1]
    by_cases h2 : a.inverse_mass + b.inverse_mass ≤ 0
    · rw [if_pos h2, if_pos h2]
      exact ⟨(vector3_add_zero_scale _ _).symm, (vector3_add_zero_scale _ _).symm⟩
    · rw [if_neg h2, if_neg h2]
      refine ⟨?_, ?_⟩ <;> dsimp only
      · by_cases hA : a.is_static = true
        · rw [if_neg (by simp [hA]), hsa hA]
          cases a.velocity
          simp [vector3_add, vector3_scale]
        · rw [if_pos (by simpa using hA)]
      · by_cases hB : b.is_static = true
        · rw [if_neg (by simp [hB]), hsb hB]
          cases b.velocity
          simp [vector3_add, vector3_scale]
        · rw [if_pos (by simpa using hB)]

theorem length_zero {sqrtf : R → R} (hs : IsSqrt sqrtf) :
    vector3_length sqrtf (vector3_zero : Vector3 R) = 0 := by
  unfold vector3_length
  apply sqrt_unique hs _ 0 le_rfl
  simp [vector3_length_squared, vector3_zero]

theorem length_scale {sqrtf : R → R} (hs : IsSqrt sqrtf) (v : Vector3 R) (k : R) :
    vector3_length sqrtf (vector3_scale v k) = |k| * vector3_length sqrtf v := by
  have hL := length_nonneg hs v
  have hLL := length_mul_self hs v
  unfold vector3_length at hL hLL ⊢
  apply sqrt_unique hs _ _ (mul_nonneg (abs_nonneg k) hL)
  have hk : |k| * |k| = k * k := abs_mul_abs_self k
  simp only [vector3_length_squared, vector3_scale] at hLL ⊢
  linear_combination (sqrtf (v.x * v.x + v.y * v.y + v.z * v.z) *
    sqrtf (v.x * v.x + v.y * v.y + v.z * v.z)) * hk + (k * k) * hLL

theorem impulse_response_fields (c : CollisionInfo R) (a b : RigidBody R) :
    ((apply_impulse_response c a b).1.inverse_mass = a.inverse_mass ∧
      (apply_impulse_response c a b).1.friction = a.friction ∧
      (apply_impulse_response c a b).1.is_static = a.is_static) ∧
    ((apply_impulse_response c a b).2.inverse_mass = b.inverse_mass ∧
      (apply_impulse_response c a b).2.friction = b.friction ∧
      (apply_impulse_response c a b).2.is_static = b.is_static) := by
  unfold apply_impulse_response
  dsimp only
  split_ifs <;> exact ⟨⟨rfl, rfl, rfl⟩, ⟨rfl, rfl, rfl⟩⟩

theorem position_correction_velocity (c : CollisionInfo R) (p q : R) (a b : RigidBody R) :
    (position_correction c p q a b).1.velocity = a.velocity ∧
    (position_correction c p q a b).2.velocity = b.velocity := by
  unfold position_correction
  dsimp only
  split_ifs <;> exact ⟨rfl, rfl⟩

theorem cleared_or_kept_refl (b : RigidBody R) : cleared_or_kept b b := Or.inr ⟨rfl, rfl⟩

theorem cleared_or_kept_trans (a b c : RigidBody R) (h1 : cleared_or_kept a b)
    (h2 : cleared_or_kept b c) : cleared_or_kept a c := by
  rcases h2 with h2 | h2
  · exact Or.inl h2
  · rcases h1 with h1 | h1
    · exact Or.inl ⟨h2.1.trans h1.1, h2.2.trans h1.2⟩
    · exact Or.inr ⟨h2.1.trans h1.1, h2.2.trans h1.2⟩

theorem cleared_if_awake_after_woken (a b c : RigidBody R) (h1 : woken a b)
    (h2 : cleared_if_awake b c) : cleared_if_awake a c := by
  refine ⟨cleared_or_kept_trans a b c (Or.inr h1.1) h2.1, fun hs hz => ?_⟩
  exact h2.2 (h1.2.1.trans hs) (h1.2.2 hz)

theorem cleared_if_awake_then_kept (a b c : RigidBody R) (h1 : cleared_if_awake a b)
    (h2 : cleared_or_kept b c) : cleared_if_awake a c := by
  refine ⟨cleared_or_kept_trans a b c h1.1 h2, fun hs hz => ?_⟩
  have hb := h1.2 hs hz
  rcases h2 with h2 | h2
  · exact h2
  · exact ⟨h2.1.trans hb.1, h2.2.trans hb.2⟩

theorem integrate_body_accumulators (b : RigidBody R) (dt : R) (m : IntegrationMethod) :
    (b.is_static = true ∨ b.is_sleeping = true → integrate_body b dt m = b) ∧
    (b.is_static = false ∧ b.is_sleeping = false →
      (integrate_body b dt m).force_accumulator = vector3_zero ∧
      (integrate_body b dt m).torque_accumulator = vector3_zero) := by
  constructor
  · intro h
    unfold integrate_body integrate_euler integrate_verlet integrate_rk4
    simp only [if_pos h]
    split_ifs <;> rfl
  · rintro ⟨h1, h2⟩
    have h : ¬ (b.is_static = true ∨ b.is_sleeping = true) := by simp [h1, h2]
    unfold integrate_body integrate_euler integrate_verlet integrate_rk4
    simp only [if_neg h]
    split_ifs <;> exact ⟨rfl, rfl⟩

theorem apply_forces_body (b : RigidBody R) (force : Vector3 R) :
    (b.is_static = true ∨ b.is_sleeping = true →
      (if b.is_static = true ∨ b.is_sleeping = true then b
        else rigid_body_add_force b force) = b) ∧
    (if b.is_static = true ∨ b.is_sleeping = true then b
      else rigid_body_add_force b force).is_static = b.is_static ∧
    (if b.is_static = true ∨ b.is_sleeping = true then b
      else rigid_body_add_force b force).is_sleeping = b.is_sleeping := by
  refine ⟨fun h => if_pos h, ?_, ?_⟩
  · split_ifs
    · rfl
    · unfold rigid_body_add_force
      split_ifs <;> rfl
  · split_ifs
    · rfl
    · unfold rigid_body_add_force
      split_ifs <;> rfl

theorem integrate_bodies_body (c : RigidBody R) (dt : R) (m : IntegrationMethod) :
    (c.is_static = true ∨ c.is_sleeping = true →
      (if c.is_static = true then c else integrate_body c dt m) = c) ∧
    (c.is_static = false → c.is_sleeping = false →
      (if c.is_static = true then c else integrate_body c dt m).force_accumulator =
        vector3_zero ∧
      (if c.is_static = true then c else integrate_body c dt m).torque_accumulator =
        vector3_zero) := by
  constructor
  · intro h
    split_ifs
    · rfl
    · exact (integrate_body_accumulators c dt m).1 h
  · intro h1 h2
    rw [if_neg (fun h => absurd (h1.symm.trans h) (by decide))]
    exact (integrate_body_accumulators c dt m).2 ⟨h1, h2⟩

theorem forces_then_integrate (scale_inf : Vector3 R → Vector3 R) (w : PhysicsWorld R)
    (dt : R) :
    List.Forall₂ cleared_if_awake w.bodies
      (physics_world_integrate_bodies (physics_world_apply_forces scale_inf w) dt).bodies := by
  unfold physics_world_integrate_bodies physics_world_apply_forces
  dsimp only
  rw [List.map_map]
  apply rel_all_map
  intro b
  dsimp only [Function.comp]
  obtain ⟨hf1, hf2, hf3⟩ := apply_forces_body b (gravity_force scale_inf w.gravity b.mass)
  generalize (if b.is_static = true ∨ b.is_sleeping = true then b
      else rigid_body_add_force b (gravity_force scale_inf w.gravity b.mass)) = c at hf1 hf2 hf3
  obtain ⟨hi1, hi2⟩ := integrate_bodies_body c dt w.integration_method
  by_cases h : b.is_static = true ∨ b.is_sleeping = true
  · have hc : c = b := hf1 h
    rw [hi1 (by rw [hc]; exact h), hc]
    refine ⟨cleared_or_kept_refl b, fun h1 h2 => ?_⟩
    rcases h with h | h
    · exact absurd (h1.symm.trans h) (by decide)
    · exact absurd (h2.symm.trans h) (by decide)
  · have hs : b.is_static = false := by
      cases hb : b.is_static
      · rfl
      · exact absurd (Or.inl hb) h
    have hz : b.is_sleeping = false := by
      cases hb : b.is_sleeping
      · rfl
      · exact absurd (Or.inr hb) h
    have hi := hi2 (hf2.trans hs) (hf3.trans hz)
    exact ⟨Or.inl hi, fun _ _ => hi⟩

theorem woken_wake_one (sqrtf : R → R) (i : Nat) (m : RigidBody R) (j : Nat)
    (b : RigidBody R) : woken b (wake_one sqrtf i m j b) := by
  unfold wake_one
  dsimp only
  split_ifs
  · exact woken_refl b
  · exact woken_refl b
  · exact woken_sleeping b
  · exact woken_refl b

theorem woken_wake_from (sqrtf : R → R) (bs : List (RigidBody R)) (i : Nat) :
    List.Forall₂ woken bs (wake_from sqrtf bs i) := by
  unfold wake_from
  split
  · exact rel_all_refl woken woken_refl bs
  · dsimp only
    split_ifs
    · exact rel_all_refl woken woken_refl bs
    · exact rel_all_refl woken woken_refl bs
    · exact rel_all_map_from woken _ (fun j b => woken_wake_one sqrtf i _ j b) 0 bs

theorem woken_wake (sqrtf : R → R) (w : PhysicsWorld R) :
    List.Forall₂ woken w.bodies (physics_world_wake_sleeping_bodies sqrtf w).bodies :=
  rel_all_foldl woken woken_refl woken_trans (wake_from sqrtf) (fun bs => bs)
    (woken_wake_from sqrtf) _ _

theorem woken_detect_pair (sqrtf : R → R) (w : PhysicsWorld R) (ij : Nat × Nat) :
    List.Forall₂ woken w.bodies (detect_pair sqrtf w ij).bodies := by
  unfold detect_pair
  split
  · rename_i body_a body_b ha hb
    dsimp only
    split_ifs
    · exact rel_all_refl woken woken_refl _
    · exact rel_all_refl woken woken_refl _
    · split
      · exact rel_all_set (rel_all_set (rel_all_refl woken woken_refl _) ij.1 body_a _ ha
          (woken_sleeping body_a)) ij.2 body_b _ hb (woken_sleeping body_b)
      · exact rel_all_refl woken woken_refl _
    · exact rel_all_refl woken woken_refl _
  · exact rel_all_refl woken woken_refl _

theorem woken_detect (sqrtf : R → R) (w : PhysicsWorld R) :
    List.Forall₂ woken w.bodies (physics_world_detect_collisions sqrtf w).bodies :=
  rel_all_foldl woken woken_refl woken_trans (detect_pair sqrtf) (fun s => s.bodies)
    (woken_detect_pair sqrtf) _ { w with collisions := [], collision_checks_performed := 0 }

theorem inert_separate (c : CollisionInfo R) (a b : RigidBody R) :
    inert a (separate_bodies c a b).1 ∧ inert b (separate_bodies c a b).2 := by
  unfold separate_bodies
  dsimp only
  split_ifs <;> exact ⟨⟨⟨rfl, rfl⟩, rfl, rfl⟩, ⟨⟨rfl, rfl⟩, rfl, rfl⟩⟩

theorem inert_impulse (c : CollisionInfo R) (a b : RigidBody R) :
    inert a (apply_impulse_response c a b).1 ∧ inert b (apply_impulse_response c a b).2 := by
  unfold apply_impulse_response
  dsimp only
  split_ifs <;> exact ⟨⟨⟨rfl, rfl⟩, rfl, rfl⟩, ⟨⟨rfl, rfl⟩, rfl, rfl⟩⟩

theorem inert_friction (sqrtf : R → R) (c : CollisionInfo R) (a b : RigidBody R) :
    inert a (apply_friction sqrtf c a b).1 ∧ inert b (apply_friction sqrtf c a b).2 := by
  unfold apply_friction
  dsimp only
  split_ifs <;> exact ⟨⟨⟨rfl, rfl⟩, rfl, rfl⟩, ⟨⟨rfl, rfl⟩, rfl, rfl⟩⟩

theorem inert_correction (c : CollisionInfo R) (p q : R) (a b : RigidBody R) :
    inert a (position_correction c p q a b).1 ∧ inert b (position_correction c p q a b).2 := by
  unfold position_correction
  dsimp only
  split_ifs <;> exact ⟨⟨⟨rfl, rfl⟩, rfl, rfl⟩, ⟨⟨rfl, rfl⟩, rfl, rfl⟩⟩

theorem inert_resolve (sqrtf : R → R) (c : CollisionInfo R) (a b : RigidBody R) :
    inert a (resolve_collision sqrtf c a b).1 ∧ inert b (resolve_collision sqrtf c a b).2 := by
  unfold resolve_collision
  dsimp only
  split_ifs
  · exact ⟨inert_refl a, inert_refl b⟩
  · have h1 := inert_separate c a b
    have h2 := inert_impulse c (separate_bodies c a b).1 (separate_bodies c a b).2
    have h3 := inert_friction sqrtf c
      (apply_impulse_response c (separate_bodies c a b).1 (separate_bodies c a b).2).1
      (apply_impulse_response c (separate_bodies c a b).1 (separate_bodies c a b).2).2
    have h4 := inert_correction c (8 / 10) (1 / 100)
      (apply_friction sqrtf c
        (apply_impulse_response c (separate_bodies c a b).1 (separate_bodies c a b).2).1
        (apply_impulse_response c (separate_bodies c a b).1 (separate_bodies c a b).2).2).1
      (apply_friction sqrtf c
        (apply_impulse_response c (separate_bodies c a b).1 (separate_bodies c a b).2).1
        (apply_impulse_response c (separate_bodies c a b).1 (separate_bodies c a b).2).2).2
    exact ⟨inert_trans _ _ _ h1.1 (inert_trans _ _ _ h2.1 (inert_trans _ _ _ h3.1 h4.1)),
      inert_trans _ _ _ h1.2 (inert_trans _ _ _ h2.2 (inert_trans _ _ _ h3.2 h4.2))⟩

theorem inert_resolve_one (sqrtf : R → R) (bs : List (RigidBody R)) (c : WorldCollision R) :
    List.Forall₂ inert bs (resolve_one sqrtf bs c) := by
  unfold resolve_one
  split
  · rename_i body_a body_b ha hb
    dsimp only
    have hr := inert_resolve sqrtf c.info body_a body_b
    exact rel_all_set (rel_all_set (rel_all_refl inert inert_refl _) c.body_a body_a _ ha hr.1)
      c.body_b body_b _ hb hr.2
  · exact rel_all_refl inert inert_refl _

theorem inert_resolve_all (sqrtf : R → R) (w : PhysicsWorld R) :
    List.Forall₂ inert w.bodies (physics_world_resolve_collisions sqrtf w).bodies :=
  rel_all_foldl inert inert_refl inert_trans (resolve_one sqrtf) (fun bs => bs)
    (inert_resolve_one sqrtf) _ _

theorem damping_accumulators (b : RigidBody R) (p q : R) :
    same_accumulators b (apply_damping b p q) ∧ (apply_damping b p q).is_static = b.is_static := by
  unfold apply_damping
  dsimp only
  split_ifs <;> exact ⟨⟨rfl, rfl⟩, rfl⟩

theorem cleared_if_awake_sub_step (sqrtf : R → R) (scale_inf : Vector3 R → Vector3 R)
    (sub_dt : R) (w : PhysicsWorld R) :
    List.Forall₂ cleared_if_awake w.bodies (sub_step sqrtf scale_inf sub_dt w).bodies := by
  unfold sub_step
  dsimp only
  have h1 := woken_wake sqrtf w
  have h2 := forces_then_integrate scale_inf (physics_world_wake_sleeping_bodies sqrtf w) sub_dt
  have h3 := woken_detect sqrtf (physics_world_integrate_bodies
    (physics_world_apply_forces scale_inf (physics_world_wake_sleeping_bodies sqrtf w)) sub_dt)
  have h4 := inert_resolve_all sqrtf (physics_world_detect_collisions sqrtf
    (physics_world_integrate_bodies
      (physics_world_apply_forces scale_inf (physics_world_wake_sleeping_bodies sqrtf w))
      sub_dt))
  have h12 := rel_all_comp cleared_if_awake_after_woken h1 h2
  have h123 := rel_all_comp
    (fun a b c hab hbc => cleared_if_awake_then_kept a b c hab (Or.inr hbc.1)) h12 h3
  have h1234 := rel_all_comp
    (fun a b c hab hbc => cleared_if_awake_then_kept a b c hab (Or.inr hbc.1)) h123 h4
  exact rel_all_comp
    (fun a b c hab hbc => cleared_if_awake_then_kept a b c hab (Or.inr hbc)) h1234
    (rel_all_map same_accumulators _ (fun b => (damping_accumulators b _ _).1) _)

theorem cleared_or_kept_step (sqrtf : R → R) (scale_inf : Vector3 R → Vector3 R)
    (w : PhysicsWorld R) (dt : R) :
    List.Forall₂ cleared_or_kept w.bodies
      (physics_world_step_with_dt sqrtf scale_inf w dt).bodies := by
  unfold physics_world_step_with_dt
  split_ifs
  · exact rel_all_refl cleared_or_kept cleared_or_kept_refl _
  · exact rel_all_iterate cleared_or_kept cleared_or_kept_refl cleared_or_kept_trans _
      (fun s => s.bodies)
      (fun s => rel_all_comp (fun a b c hab hbc => cleared_or_kept_trans a b c hab hbc.1)
        (rel_all_refl cleared_or_kept cleared_or_kept_refl _)
        (cleared_if_awake_sub_step sqrtf scale_inf _ s)) _ w

theorem cleared_if_awake_step (sqrtf : R → R) (scale_inf : Vector3 R → Vector3 R)
    (w : PhysicsWorld R) (dt : R) (hp : w.is_paused = false) (hdt : 0 < dt)
    (hn : 1 ≤ w.simulation_iterations) :
    List.Forall₂ cleared_if_awake w.bodies
      (physics_world_step_with_dt sqrtf scale_inf w dt).bodies := by
  unfold physics_world_step_with_dt
  rw [if_neg (by rw [hp]; simp [not_le.mpr hdt])]
  dsimp only
  obtain ⟨k, hk⟩ : ∃ k, w.simulation_iterations.toNat = k + 1 :=
    ⟨w.simulation_iterations.toNat - 1, by omega⟩
  rw [hk, Function.iterate_succ_apply]
  exact rel_all_comp cleared_if_awake_then_kept (cleared_if_awake_sub_step sqrtf scale_inf _ w)
    (rel_all_iterate cleared_or_kept cleared_or_kept_refl cleared_or_kept_trans _
      (fun s => s.bodies)
      (fun s => rel_all_comp (fun a b c hab hbc => cleared_or_kept_trans a b c hab hbc.1)
        (rel_all_refl cleared_or_kept cleared_or_kept_refl _)
        (cleared_if_awake_sub_step sqrtf scale_inf _ s)) k _)

theorem rest_kept_refl (b : RigidBody R) : rest_kept b b := fun h => h

theorem rest_kept_trans (a b c : RigidBody R) (h1 : rest_kept a b) (h2 : rest_kept b c) :
    rest_kept a c := fun h => h2 (h1 h)

theorem rest_of_awake (b : RigidBody R) (h : b.is_sleeping = false) : rest_if_sleeping b :=
  fun hs => absurd (h.symm.trans hs) (by decide)

theorem rest_of_fields (b c : RigidBody R) (h1 : c.is_sleeping = b.is_sleeping)
    (h2 : c.velocity = b.velocity) (h3 : c.angular_velocity = b.angular_velocity) :
    rest_kept b c := by
  intro h hs
  rw [h2, h3]
  exact h (h1.symm.trans hs)

theorem all_rest_of_rel {l m : List (RigidBody R)} (h : List.Forall₂ rest_kept l m)
    (hl : ∀ i b, l.get? i = some b → rest_if_sleeping b) :
    ∀ i b, m.get? i = some b → rest_if_sleeping b := by
  intro i c hc
  obtain ⟨b, hb, hr⟩ := rel_all_get_rev h i c hc
  exact hr (hl i b hb)

theorem rest_kept_wake_one (sqrtf : R → R) (i : Nat) (m : RigidBody R) (j : Nat)
    (b : RigidBody R) : rest_kept b (wake_one sqrtf i m j b) := by
  unfold wake_one
  dsimp only
  split_ifs
  · exact rest_kept_refl b
  · exact rest_kept_refl b
  · exact fun _ => rest_of_awake _ rfl
  · exact rest_kept_refl b

theorem rest_kept_wake_from (sqrtf : R → R) (bs : List (RigidBody R)) (i : Nat) :
    List.Forall₂ rest_kept bs (wake_from sqrtf bs i) := by
  unfold wake_from
  split
  · exact rel_all_refl rest_kept rest_kept_refl bs
  · dsimp only
    split_ifs
    · exact rel_all_refl rest_kept rest_kept_refl bs
    · exact rel_all_refl rest_kept rest_kept_refl bs
    · exact rel_all_map_from rest_kept _ (fun j b => rest_kept_wake_one sqrtf i _ j b) 0 bs

theorem rest_kept_wake (sqrtf : R → R) (w : PhysicsWorld R) :
    List.Forall₂ rest_kept w.bodies (physics_world_wake_sleeping_bodies sqrtf w).bodies :=
  rel_all_foldl rest_kept rest_kept_refl rest_kept_trans (wake_from sqrtf) (fun bs => bs)
    (rest_kept_wake_from sqrtf) _ _

theorem rest_kept_apply_forces (scale_inf : Vector3 R → Vector3 R) (w : PhysicsWorld R) :
    List.Forall₂ rest_kept w.bodies (physics_world_apply_forces scale_inf w).bodies := by
  apply rel_all_map
  intro b
  split_ifs
  · exact rest_kept_refl b
  · unfold rigid_body_add_force
    split_ifs
    · exact rest_of_fields _ _ rfl rfl rfl
    · exact rest_kept_refl b

theorem update_acceleration_is_sleeping (b : RigidBody R) :
    (update_acceleration b).is_sleeping = b.is_sleeping := by
  unfold update_acceleration
  split_ifs <;> rfl

theorem integrate_body_is_sleeping (b : RigidBody R) (dt : R) (m : IntegrationMethod) :
    (integrate_body b dt m).is_sleeping = b.is_sleeping := by
  unfold integrate_body integrate_euler integrate_verlet integrate_rk4
  split_ifs <;>
    first
    | rfl
    | simp only [rigid_body_clear_forces, update_acceleration_is_sleeping]

theorem rest_kept_integrate (w : PhysicsWorld R) (dt : R) :
    List.Forall₂ rest_kept w.bodies (physics_world_integrate_bodies w dt).bodies := by
  apply rel_all_map
  intro b
  split_ifs
  · exact rest_kept_refl b
  · cases hz : b.is_sleeping
    · exact fun _ => rest_of_awake _ ((integrate_body_is_sleeping b dt _).trans hz)
    · rw [(integrate_body_accumulators b dt _).1 (Or.inr hz)]
      exact rest_kept_refl b

theorem rest_kept_detect_pair (sqrtf : R → R) (w : PhysicsWorld R) (ij : Nat × Nat) :
    List.Forall₂ rest_kept w.bodies (detect_pair sqrtf w ij).bodies := by
  unfold detect_pair
  split
  · rename_i body_a body_b ha hb
    dsimp only
    split_ifs
    · exact rel_all_refl rest_kept rest_kept_refl _
    · exact rel_all_refl rest_kept rest_kept_refl _
    · split
      · exact rel_all_set (rel_all_set (rel_all_refl rest_kept rest_kept_refl _) ij.1 body_a _
          ha (fun _ => rest_of_awake _ rfl)) ij.2 body_b _ hb (fun _ => rest_of_awake _ rfl)
      · exact rel_all_refl rest_kept rest_kept_refl _
    · exact rel_all_refl rest_kept rest_kept_refl _
  · exact rel_all_refl rest_kept rest_kept_refl _

theorem rest_kept_detect (sqrtf : R → R) (w : PhysicsWorld R) :
    List.Forall₂ rest_kept w.bodies (physics_world_detect_collisions sqrtf w).bodies :=
  rel_all_foldl rest_kept rest_kept_refl rest_kept_trans (detect_pair sqrtf)
    (fun s => s.bodies) (rest_kept_detect_pair sqrtf) _
    { w with collisions := [], collision_checks_performed := 0 }

theorem contacts_awake_detect_pair (sqrtf : R → R) (w : PhysicsWorld R) (ij : Nat × Nat)
    (h : contacts_awake w) : contacts_awake (detect_pair sqrtf w ij) := by
  unfold detect_pair
  split
  · rename_i body_a body_b ha hb
    dsimp only
    split_ifs
    · exact h
    · exact h
    · split
      · have key : ∀ (k : Nat) (b : RigidBody R),
            ((w.bodies.set ij.1 { body_a with is_sleeping := false }).set ij.2
              { body_b with is_sleeping := false }).get? k = some b →
            b.is_sleeping = false ∨ w.bodies.get? k = some b := by
          intro k b hk
          rcases get?_set_cases _ _ _ _ _ hk with h1 | h1
          · exact Or.inl (by rw [h1])
          · rcases get?_set_cases _ _ _ _ _ h1 with h2 | h2
            · exact Or.inl (by rw [h2])
            · exact Or.inr h2
        intro c hc
        dsimp only at hc ⊢
        rcases List.mem_append.mp hc with hc | hc
        · refine ⟨fun b hb2 => ?_, fun b hb2 => ?_⟩
          · rcases key _ b hb2 with h1 | h1
            · exact h1
            · exact (h c hc).1 b h1
          · rcases key _ b hb2 with h1 | h1
            · exact h1
            · exact (h c hc).2 b h1
        · rw [List.mem_singleton] at hc
          subst hc
          dsimp only
          refine ⟨fun b hb2 => ?_, fun b hb2 => ?_⟩
          · rcases get?_set_cases _ _ _ _ _ hb2 with h1 | h1
            · rw [h1]
            · rw [get?_set_same _ _ _ _ h1]
          · rw [get?_set_same _ _ _ _ hb2]
      · exact h
    · exact h
  · exact h

theorem contacts_awake_detect (sqrtf : R → R) (w : PhysicsWorld R) :
    contacts_awake (physics_world_detect_collisions sqrtf w) := by
  unfold physics_world_detect_collisions
  apply foldl_invariant contacts_awake
  · exact contacts_awake_detect_pair sqrtf
  · intro c hc
    simp at hc

/-- The invariant of the loop of `physics_world_resolve_collisions`. -/
theorem resolve_loop_rest (sqrtf : R → R) (cs : List (WorldCollision R))
    (bs : List (RigidBody R))
    (hc : ∀ c ∈ cs, (∀ b, bs.get? c.body_a = some b → b.is_sleeping = false) ∧
      (∀ b, bs.get? c.body_b = some b → b.is_sleeping = false))
    (hr : ∀ i b, bs.get? i = some b → rest_if_sleeping b) :
    ∀ i b, (cs.foldl (resolve_one sqrtf) bs).get? i = some b → rest_if_sleeping b := by
  induction cs generalizing bs with
  | nil => exact hr
  | cons c rest ih =>
    rw [List.foldl_cons]
    apply ih
    · intro d hd
      have hin := inert_resolve_one sqrtf bs c
      have hd0 := hc d (List.mem_cons_of_mem c hd)
      refine ⟨fun b hb => ?_, fun b hb => ?_⟩
      · obtain ⟨b0, hb0, hi⟩ := rel_all_get_rev hin _ b hb
        exact hi.2.2.trans (hd0.1 b0 hb0)
      · obtain ⟨b0, hb0, hi⟩ := rel_all_get_rev hin _ b hb
        exact hi.2.2.trans (hd0.2 b0 hb0)
    · have hc0 := hc c (List.mem_cons_self c rest)
      unfold resolve_one
      split
      · rename_i body_a body_b ha hb
        dsimp only
        have hres := inert_resolve sqrtf c.info body_a body_b
        intro i b hi
        rcases get?_set_cases _ _ _ _ _ hi with h1 | h1
        · rw [h1]
          exact rest_of_awake _ (hres.2.2.2.trans (hc0.2 body_b hb))
        · rcases get?_set_cases _ _ _ _ _ h1 with h2 | h2
          · rw [h2]
            exact rest_of_awake _ (hres.1.2.2.trans (hc0.1 body_a ha))
          · exact hr i b h2
      · exact hr

theorem vector3_scale_zero (k : R) : vector3_scale (vector3_zero : Vector3 R) k = vector3_zero := by
  simp [vector3_scale, vector3_zero, vector3_create]

theorem length_squared_zero : vector3_length_squared (vector3_zero : Vector3 R) = 0 := by
  simp [vector3_length_squared, vector3_dot, vector3_zero, vector3_create]

theorem rest_kept_damping (b : RigidBody R) (p q : R) : rest_kept b (apply_damping b p q) := by
  unfold apply_damping
  dsimp only
  split_ifs with h0 h1
  · exact rest_kept_refl b
  · exact fun _ _ => ⟨rfl, rfl⟩
  · intro hb hs
    have hz := hb hs
    exfalso
    apply h1
    rw [hz.1, hz.2, vector3_scale_zero, vector3_scale_zero, length_squared_zero]
    constructor <;> norm_num

theorem all_rest_sub_step (sqrtf : R → R) (scale_inf : Vector3 R → Vector3 R) (sub_dt : R)
    (w : PhysicsWorld R) (h : ∀ i b, w.bodies.get? i = some b → rest_if_sleeping b) :
    ∀ i b, (sub_step sqrtf scale_inf sub_dt w).bodies.get? i = some b → rest_if_sleeping b := by
  unfold sub_step
  dsimp only
  apply all_rest_of_rel (rel_all_map rest_kept _ (fun b => rest_kept_damping b _ _) _)
  unfold physics_world_resolve_collisions
  dsimp only
  apply resolve_loop_rest
  · exact contacts_awake_detect sqrtf _
  · apply all_rest_of_rel (rest_kept_detect sqrtf _)
    apply all_rest_of_rel (rest_kept_integrate _ _)
    apply all_rest_of_rel (rest_kept_apply_forces scale_inf _)
    exact all_rest_of_rel (rest_kept_wake sqrtf w) h

theorem all_rest_step (sqrtf : R → R) (scale_inf : Vector3 R → Vector3 R) (w : PhysicsWorld R)
    (dt : R) (h : ∀ i b, w.bodies.get? i = some b → rest_if_sleeping b) :
    ∀ i b, (physics_world_step_with_dt sqrtf scale_inf w dt).bodies.get? i = some b →
      rest_if_sleeping b := by
  unfold physics_world_step_with_dt
  split_ifs
  · exact h
  · exact iterate_invariant (fun s => ∀ i b, s.bodies.get? i = some b → rest_if_sleeping b) _
      (all_rest_sub_step sqrtf scale_inf _) _ w h

theorem rest_kept_body_op (sqrtf : R → R) (b : RigidBody R) (op : BodyOp R)
    (hv : ∀ v, op = BodyOp.set_velocity v → b.is_sleeping = false)
    (hi : ∀ v, op = BodyOp.add_impulse v → b.is_sleeping = false) :
    rest_kept b (BodyOp.run sqrtf b op) := by
  cases op with
  | init_sphere p r m =>
    show rest_kept b (rigid_body_init_sphere b p r m)
    unfold rigid_body_init_sphere rigid_body_set_mass
    dsimp only
    split_ifs <;> exact rest_of_fields _ _ rfl rfl rfl
  | init_aabb p h m =>
    show rest_kept b (rigid_body_init_aabb b p h m)
    unfold rigid_body_init_aabb rigid_body_set_mass
    dsimp only
    split_ifs <;> exact rest_of_fields _ _ rfl rfl rfl
  | init_plane n d => exact rest_of_fields _ _ rfl rfl rfl
  | set_position p =>
    show rest_kept b (rigid_body_set_position b p)
    unfold rigid_body_set_position
    split_ifs <;> exact rest_of_fields _ _ rfl rfl rfl
  | set_velocity v =>
    show rest_kept b (rigid_body_set_velocity b v)
    unfold rigid_body_set_velocity
    split_ifs
    · exact fun _ => rest_of_awake _ (hv v rfl)
    · exact rest_kept_refl b
  | set_mass m =>
    show rest_kept b (rigid_body_set_mass b m)
    unfold rigid_body_set_mass
    cases m with
    | finite v =>
      dsimp only
      split_ifs <;> exact rest_of_fields _ _ rfl rfl rfl
    | infinity =>
      dsimp only
      split_ifs <;> exact rest_of_fields _ _ rfl rfl rfl
  | set_restitution r => exact rest_of_fields _ _ rfl rfl rfl
  | set_friction f => exact rest_of_fields _ _ rfl rfl rfl
  | set_static s =>
    show rest_kept b (rigid_body_set_static b s)
    unfold rigid_body_set_static
    dsimp only
    split_ifs
    · exact fun _ _ => ⟨rfl, rfl⟩
    · unfold rigid_body_set_mass
      split <;> dsimp only <;> split_ifs <;> exact rest_of_fields _ _ rfl rfl rfl
  | add_force f =>
    show rest_kept b (rigid_body_add_force b f)
    unfold rigid_body_add_force
    split_ifs <;> exact rest_of_fields _ _ rfl rfl rfl
  | add_force_at_point f p =>
    show rest_kept b (rigid_body_add_force_at_point b f p)
    unfold rigid_body_add_force_at_point rigid_body_add_torque rigid_body_add_force
    dsimp only
    split_ifs <;> exact rest_of_fields _ _ rfl rfl rfl
  | add_torque t =>
    show rest_kept b (rigid_body_add_torque b t)
    unfold rigid_body_add_torque
    split_ifs <;> exact rest_of_fields _ _ rfl rfl rfl
  | add_impulse v =>
    show rest_kept b (rigid_body_add_impulse b v)
    unfold rigid_body_add_impulse
    dsimp only
    split_ifs
    · exact fun _ => rest_of_awake _ (hi v rfl)
    · exact rest_kept_refl b
  | clear_forces => exact rest_of_fields _ _ rfl rfl rfl

theorem all_rest_world_op (sqrtf : R → R) (scale_inf : Vector3 R → Vector3 R)
    (w : PhysicsWorld R) (op : WorldOp R) (ha : spares_sleeping w op)
    (h : ∀ i b, w.bodies.get? i = some b → rest_if_sleeping b) :
    ∀ i b, (WorldOp.run sqrtf scale_inf w op).bodies.get? i = some b → rest_if_sleeping b := by
  cases op with
  | add_body next_id =>
    show ∀ i b, (physics_world_add_body w (rigid_body_create next_id)).1.bodies.get? i = some b →
      rest_if_sleeping b
    unfold physics_world_add_body
    split_ifs
    · exact h
    · intro i b hb
      dsimp only at hb
      have hm : b ∈ w.bodies ++ [rigid_body_create next_id] := List.mem_iff_get?.mpr ⟨i, hb⟩
      rcases List.mem_append.mp hm with hm | hm
      · obtain ⟨n, hn⟩ := List.mem_iff_get?.mp hm
        exact h n b hn
      · rw [List.mem_singleton] at hm
        rw [hm]
        exact rest_of_awake _ rfl
  | body_op index bop =>
    show ∀ i b, (match w.bodies.get? index with
      | some body => { w with bodies := w.bodies.set index (BodyOp.run sqrtf body bop) }
      | none => w).bodies.get? i = some b → rest_if_sleeping b
    split
    · rename_i body hbody
      intro i b hb
      dsimp only at hb
      rcases get?_set_cases _ _ _ _ _ hb with h1 | h1
      · rw [h1]
        refine rest_kept_body_op sqrtf body bop ?_ ?_ (h index body hbody)
        · intro v hv
          subst hv
          exact ha body hbody
        · intro v hv
          subst hv
          exact ha body hbody
      · exact h i b h1
    · exact h
  | remove_body body_id =>
    show ∀ i b, (physics_world_remove_body w body_id).1.bodies.get? i = some b →
      rest_if_sleeping b
    unfold physics_world_remove_body
    split
    · intro i b hb
      dsimp only at hb
      have hm : b ∈ w.bodies := List.mem_of_mem_eraseIdx (List.mem_iff_get?.mpr ⟨i, hb⟩)
      obtain ⟨n, hn⟩ := List.mem_iff_get?.mp hm
      exact h n b hn
    · exact h
  | clear_bodies =>
    intro i b hb
    simp [WorldOp.run, physics_world_clear_bodies] at hb
  | set_gravity g => exact h
  | set_timestep t =>
    show ∀ i b, (physics_world_set_timestep w t).bodies.get? i = some b → rest_if_sleeping b
    unfold physics_world_set_timestep
    split_ifs <;> exact h
  | set_integration_method m => exact h
  | set_damping p q => exact h
  | pause p => exact h
  | set_time_scale s =>
    show ∀ i b, (physics_world_set_time_scale w s).bodies.get? i = some b → rest_if_sleeping b
    unfold physics_world_set_time_scale
    split_ifs <;> exact h
  | step => exact all_rest_step sqrtf scale_inf w _ h
  | step_with_dt dt => exact all_rest_step sqrtf scale_inf w dt h

theorem all_rest_reachable (sqrtf : R → R) (scale_inf : Vector3 R → Vector3 R)
    (w : PhysicsWorld R) (hw : WorldReachable sqrtf scale_inf spares_sleeping w) :
    ∀ i b, w.bodies.get? i = some b → rest_if_sleeping b := by
  induction hw with
  | init =>
    intro i b hb
    simp [physics_world_init] at hb
  | call world op _ ha ih => exact all_rest_world_op sqrtf scale_inf world op ha ih

theorem wake_single (sqrtf : R → R) (w : PhysicsWorld R) (b : RigidBody R)
    (hb : w.bodies = [b]) : physics_world_wake_sleeping_bodies sqrtf w = w := by
  unfold physics_world_wake_sleeping_bodies PhysicsWorld.body_count
  have h : (List.range w.bodies.length).foldl (wake_from sqrtf) w.bodies = w.bodies := by
    rw [hb]
    show wake_from sqrtf [b] 0 = [b]
    unfold wake_from
    show (if b.is_static = true ∨ b.is_sleeping = true then [b]
      else if vector3_length_squared b.velocity < 1 / 10 then [b]
      else [wake_one sqrtf 0 b 0 b]) = [b]
    split_ifs
    · rfl
    · rfl
    · unfold wake_one
      rw [if_pos rfl]
  rw [h]

theorem detect_single (sqrtf : R → R) (w : PhysicsWorld R) (b : RigidBody R)
    (hb : w.bodies = [b]) :
    physics_world_detect_collisions sqrtf w =
      { w with collisions := [], collision_checks_performed := 0 } := by
  unfold physics_world_detect_collisions PhysicsWorld.body_count
  rw [hb]
  rfl

theorem sub_step_single (sqrtf : R → R) (scale_inf : Vector3 R → Vector3 R) (sub_dt : R)
    (w : PhysicsWorld R) (b fb ib : RigidBody R) (hb : w.bodies = [b])
    (hf : fb = if b.is_static = true ∨ b.is_sleeping = true then b
      else rigid_body_add_force b (gravity_force scale_inf w.gravity b.mass))
    (hi : ib = if fb.is_static = true then fb
      else integrate_body fb sub_dt w.integration_method) :
    sub_step sqrtf scale_inf sub_dt w =
      { w with
        collisions := []
        collision_checks_performed := 0
        bodies := [apply_damping ib w.linear_damping w.angular_damping] } := by
  unfold sub_step
  dsimp only
  rw [wake_single sqrtf w b hb]
  have h2 : (physics_world_apply_forces scale_inf w).bodies = [fb] := by
    unfold physics_world_apply_forces
    dsimp only
    rw [hb, hf]
    rfl
  have h3 : (physics_world_integrate_bodies (physics_world_apply_forces scale_inf w)
      sub_dt).bodies = [ib] := by
    unfold physics_world_integrate_bodies
    dsimp only
    rw [h2, hi]
    rfl
  rw [detect_single sqrtf _ ib h3]
  unfold physics_world_resolve_collisions
  dsimp only
  rw [List.foldl_nil, h3]
  rfl

theorem step_single (sqrtf : R → R) (scale_inf : Vector3 R → Vector3 R) (w : PhysicsWorld R)
    (dt : R) (hp : w.is_paused = false) (hdt : 0 < dt) (hn : w.simulation_iterations = 1) :
    physics_world_step_with_dt sqrtf scale_inf w dt =
      sub_step sqrtf scale_inf (dt * w.time_scale) w := by
  unfold physics_world_step_with_dt
  rw [if_neg (by rw [hp]; simp [not_le.mpr hdt])]
  dsimp only
  rw [hn]
  simp

theorem sample_rest_world_eq (sqrtf : R → R) (scale_inf : Vector3 R → Vector3 R) :
    sample_rest_world sqrtf scale_inf =
      { (physics_world_init : PhysicsWorld R) with
        gravity := vector3_zero
        bodies := [{ (rigid_body_create 1 : RigidBody R) with is_sleeping := true }] } := by
  unfold sample_rest_world
  show physics_world_step_with_dt sqrtf scale_inf
    { (physics_world_init : PhysicsWorld R) with
      gravity := vector3_zero, bodies := [rigid_body_create 1] } (1 / 60) = _
  rw [step_single sqrtf scale_inf _ _ rfl (by norm_num) rfl,
    sub_step_single sqrtf scale_inf _ _ (rigid_body_create 1) _ _ rfl rfl rfl]
  simp [physics_world_init, rigid_body_create, rigid_body_add_force, gravity_force,
    integrate_body, integrate_verlet, update_acceleration, rigid_body_clear_forces,
    apply_damping, vector3_scale, vector3_add, vector3_zero, vector3_length_squared,
    vector3_create, INTEGRATION_VERLET, INTEGRATION_EULER]

theorem sample_rest_world_reachable (sqrtf : R → R) (scale_inf : Vector3 R → Vector3 R)
    (allowed : PhysicsWorld R → WorldOp R → Prop)
    (h : ∀ w, allowed w (WorldOp.set_gravity vector3_zero) ∧ allowed w (WorldOp.add_body 1) ∧
      allowed w WorldOp.step) :
    WorldReachable sqrtf scale_inf allowed (sample_rest_world sqrtf scale_inf) :=
  WorldReachable.call _ _ (WorldReachable.call _ _ (WorldReachable.call _ _ WorldReachable.init
    (h _).1) (h _).2.1) (h _).2.2

theorem same_settings_detect_pair (sqrtf : R → R) (w : PhysicsWorld R) (ij : Nat × Nat) :
    same_settings w (detect_pair sqrtf w ij) := by
  unfold detect_pair
  split
  · dsimp only
    split_ifs
    · exact ⟨rfl, rfl⟩
    · exact ⟨rfl, rfl⟩
    · split <;> exact ⟨rfl, rfl⟩
    · exact ⟨rfl, rfl⟩
  · exact ⟨rfl, rfl⟩

theorem same_settings_sub_step (sqrtf : R → R) (scale_inf : Vector3 R → Vector3 R) (sub_dt : R)
    (w : PhysicsWorld R) : same_settings w (sub_step sqrtf scale_inf sub_dt w) := by
  unfold sub_step physics_world_resolve_collisions physics_world_detect_collisions
  dsimp only
  exact foldl_invariant (fun s => same_settings w s) (detect_pair sqrtf)
    (fun s x hs => ⟨(same_settings_detect_pair sqrtf s x).1.trans hs.1,
      (same_settings_detect_pair sqrtf s x).2.trans hs.2⟩) _ _ ⟨rfl, rfl⟩

theorem same_settings_step (sqrtf : R → R) (scale_inf : Vector3 R → Vector3 R)
    (w : PhysicsWorld R) (dt : R) :
    same_settings w (physics_world_step_with_dt sqrtf scale_inf w dt) := by
  unfold physics_world_step_with_dt
  split_ifs
  · exact ⟨rfl, rfl⟩
  · exact iterate_invariant (fun s => same_settings w s) _
      (fun s hs => ⟨(same_settings_sub_step sqrtf scale_inf _ s).1.trans hs.1,
        (same_settings_sub_step sqrtf scale_inf _ s).2.trans hs.2⟩) _ w ⟨rfl, rfl⟩

theorem settings_world_op (sqrtf : R → R) (scale_inf : Vector3 R → Vector3 R)
    (w : PhysicsWorld R) (op : WorldOp R)
    (h : w.simulation_iterations = 1 ∧ 0 < w.timestep) :
    (WorldOp.run sqrtf scale_inf w op).simulation_iterations = 1 ∧
      0 < (WorldOp.run sqrtf scale_inf w op).timestep := by
  cases op with
  | add_body next_id =>
    show (physics_world_add_body w (rigid_body_create next_id)).1.simulation_iterations = 1 ∧
      0 < (physics_world_add_body w (rigid_body_create next_id)).1.timestep
    unfold physics_world_add_body
    split_ifs <;> exact h
  | body_op index bop =>
    simp only [WorldOp.run]
    split <;> exact h
  | remove_body body_id =>
    show (physics_world_remove_body w body_id).1.simulation_iterations = 1 ∧
      0 < (physics_world_remove_body w body_id).1.timestep
    unfold physics_world_remove_body
    split <;> exact h
  | clear_bodies => exact h
  | set_gravity g => exact h
  | set_timestep t =>
    show (physics_world_set_timestep w t).simulation_iterations = 1 ∧
      0 < (physics_world_set_timestep w t).timestep
    unfold physics_world_set_timestep
    split_ifs with ht
    · exact ⟨h.1, ht⟩
    · exact h
  | set_integration_method m => exact h
  | set_damping p q => exact h
  | pause p => exact h
  | set_time_scale s =>
    show (physics_world_set_time_scale w s).simulation_iterations = 1 ∧
      0 < (physics_world_set_time_scale w s).timestep
    unfold physics_world_set_time_scale
    split_ifs <;> exact h
  | step =>
    have hs := same_settings_step sqrtf scale_inf w w.timestep
    exact ⟨hs.1.trans h.1, lt_of_lt_of_eq h.2 hs.2.symm⟩
  | step_with_dt dt =>
    have hs := same_settings_step sqrtf scale_inf w dt
    exact ⟨hs.1.trans h.1, lt_of_lt_of_eq h.2 hs.2.symm⟩

theorem settings_reachable (sqrtf : R → R) (scale_inf : Vector3 R → Vector3 R)
    (allowed : PhysicsWorld R → WorldOp R → Prop) (w : PhysicsWorld R)
    (hw : WorldReachable sqrtf scale_inf allowed w) :
    w.simulation_iterations = 1 ∧ 0 < w.timestep := by
  induction hw with
  | init => exact ⟨rfl, by norm_num [physics_world_init]⟩
  | call world op _ _ ih => exact settings_world_op sqrtf scale_inf world op ih

theorem apply_damping_sleeps (body : RigidBody R) (p q : R) (hs : body.is_static = false)
    (h1 : vector3_length_squared (vector3_scale body.velocity (1 - p)) < 1 / 100)
    (h2 : vector3_length_squared (vector3_scale body.angular_velocity (1 - q)) < 1 / 100) :
    apply_damping body p q =
      { body with
        is_sleeping := true, velocity := vector3_zero, angular_velocity := vector3_zero } := by
  unfold apply_damping
  dsimp only
  rw [if_neg (fun h => absurd (hs.symm.trans h) (by decide)), if_pos ⟨h1, h2⟩]

theorem apply_damping_awake (body : RigidBody R) (p q : R) (hs : body.is_static = false)
    (h : ¬ (vector3_length_squared (vector3_scale body.velocity (1 - p)) < 1 / 100 ∧
      vector3_length_squared (vector3_scale body.angular_velocity (1 - q)) < 1 / 100)) :
    apply_damping body p q =
      { body with
        velocity := vector3_scale body.velocity (1 - p)
        angular_velocity := vector3_scale body.angular_velocity (1 - q) } := by
  unfold apply_damping
  dsimp only
  rw [if_neg (fun h => absurd (hs.symm.trans h) (by decide)), if_neg h]

theorem detect_collision_has_collision (sqrtf : R → R) (a b : RigidBody R)
    (info : CollisionInfo R) (h : detect_collision sqrtf a b = some info) :
    info.has_collision = true := by
  have hn := detect_collision_narrow sqrtf a b info h
  split at hn
  · exact narrow_has_collision _ _ _ _ info hn
  · exact narrow_has_collision _ _ _ _ info hn
  · exact narrow_has_collision _ _ _ _ info hn
  · exact narrow_has_collision _ _ _ _ info hn
  · exact narrow_has_collision _ _ _ _ info hn
  · exact narrow_has_collision _ _ _ _ info hn
  · exact narrow_has_collision _ _ _ _ info hn
  · exact narrow_has_collision _ _ _ _ info hn
  · exact absurd hn (by simp)

theorem detect_pair_collisions (sqrtf : R → R) (w : PhysicsWorld R) (ij : Nat × Nat) :
    (detect_pair sqrtf w ij).collisions = w.collisions ∨
    (w.collision_count < MAX_COLLISIONS ∧
      ∃ info, info.has_collision = true ∧
        (detect_pair sqrtf w ij).collisions = w.collisions ++ [⟨info, ij.1, ij.2⟩]) := by
  unfold detect_pair
  split
  · rename_i body_a body_b ha hb
    dsimp only
    split_ifs with h1 h2 h3
    · exact Or.inl rfl
    · exact Or.inl rfl
    · split
      · rename_i collision hc
        exact Or.inr ⟨h3, collision, detect_collision_has_collision sqrtf _ _ _ hc, rfl⟩
      · exact Or.inl rfl
    · exact Or.inl rfl
  · exact Or.inl rfl

theorem detect_loop_collisions (sqrtf : R → R) (ps : List (Nat × Nat)) (w : PhysicsWorld R) :
    ∃ extra : List (WorldCollision R),
      (ps.foldl (detect_pair sqrtf) w).collisions = w.collisions ++ extra ∧
      List.Sublist (extra.map WorldCollision.pair) ps ∧
      (∀ c ∈ extra, c.info.has_collision = true) ∧
      (w.collision_count ≤ MAX_COLLISIONS →
        (ps.foldl (detect_pair sqrtf) w).collision_count ≤ MAX_COLLISIONS) ∧
      (MAX_COLLISIONS ≤ w.collision_count → extra = []) := by
  induction ps generalizing w with
  | nil => exact ⟨[], by simp, List.Sublist.slnil, by simp, fun h => h, fun _ => rfl⟩
  | cons p rest ih =>
    rw [List.foldl_cons]
    obtain ⟨extra, he, hsub, hall, hle, hfull⟩ := ih (detect_pair sqrtf w p)
    rcases detect_pair_collisions sqrtf w p with h | ⟨hlt, info, hinfo, h⟩
    · refine ⟨extra, by rw [he, h], List.Sublist.cons p hsub, hall, fun hw => hle ?_,
        fun hw => hfull ?_⟩
      · show (detect_pair sqrtf w p).collisions.length ≤ MAX_COLLISIONS
        rw [h]
        exact hw
      · show MAX_COLLISIONS ≤ (detect_pair sqrtf w p).collisions.length
        rw [h]
        exact hw
    · refine ⟨⟨info, p.1, p.2⟩ :: extra, by rw [he, h]; simp, ?_, ?_, fun _ => hle ?_,
        fun hw => absurd hlt (not_lt.mpr hw)⟩
      · rw [List.map_cons]
        exact List.Sublist.cons₂ p hsub
      · intro c hc
        rcases List.mem_cons.mp hc with hc | hc
        · rw [hc]
          exact hinfo
        · exact hall c hc
      · show (detect_pair sqrtf w p).collisions.length ≤ MAX_COLLISIONS
        rw [h, List.length_append]
        exact hlt

theorem body_pairs_mem (n : Nat) (p : Nat × Nat) (h : p ∈ body_pairs n) :
    p.1 < p.2 ∧ p.2 < n := by
  unfold body_pairs at h
  rw [List.mem_flatMap] at h
  obtain ⟨i, hi, hp⟩ := h
  rw [List.mem_map] at hp
  obtain ⟨j, hj, rfl⟩ := hp
  rw [List.mem_range] at hi
  rw [List.mem_range'_1] at hj
  dsimp only
  omega

theorem body_pairs_sorted (n : Nat) : (body_pairs n).Pairwise pair_lt := by
  unfold body_pairs
  rw [List.pairwise_flatMap]
  constructor
  · intro i _
    rw [List.pairwise_map]
    exact (List.pairwise_lt_range' (i + 1) (n - (i + 1))).imp (fun h => Or.inr ⟨rfl, h⟩)
  · refine (List.pairwise_lt_range n).imp ?_
    intro a b hab x hx y hy
    rw [List.mem_map] at hx hy
    obtain ⟨_, _, rfl⟩ := hx
    obtain ⟨_, _, rfl⟩ := hy
    exact Or.inl hab

theorem clamp_inside (p lo hi : R) (h1 : lo ≤ p) (h2 : p ≤ hi) : max lo (min p hi) = p := by
  rw [min_eq_left h2, max_eq_right h1]

theorem sphere_at_box_centre (sqrtf : R → R) (hs : IsSqrt sqrtf) (s bx : RigidBody R)
    (hp : s.position = bx.position) (hb : bx.shape = CollisionShape.aabb ⟨2, 2, 2⟩) :
    sphere_aabb_collision sqrtf s (1 / 2) bx ⟨2, 2, 2⟩ =
      some ⟨true, s.position, ⟨-1, 0, 0⟩, 1 / 2⟩ := by
  have hc : closest_point_on_aabb s.position bx = s.position := by
    unfold closest_point_on_aabb get_aabb_min get_aabb_max
    rw [hb, hp]
    dsimp only [vector3_create]
    rw [clamp_inside _ _ _ (by linarith) (by linarith),
      clamp_inside _ _ _ (by linarith) (by linarith),
      clamp_inside _ _ _ (by linarith) (by linarith)]
  have hd : vector3_length sqrtf (vector3_subtract s.position s.position) = 0 := by
    unfold vector3_length
    apply sqrt_unique hs _ 0 le_rfl
    simp [vector3_length_squared, vector3_subtract]
  unfold sphere_aabb_collision
  dsimp only
  rw [hc, hd, if_pos (by norm_num), if_neg (by unfold VECTOR_EPSILON; norm_num), hp]
  have hF : (2 : R) < FLT_MAX := by unfold FLT_MAX; norm_num
  simp [vector3_subtract, vector3_create, hF]

theorem position_correction_eq (c : CollisionInfo R) (p q : R) (a b : RigidBody R)
    (hw : 0 < a.inverse_mass + b.inverse_mass) (hpen : q < c.penetration_depth) :
    position_correction c p q a b =
      (if a.is_static = false then
          { a with
            position := vector3_add a.position
              (vector3_scale
                (vector3_scale c.normal
                  ((c.penetration_depth - q) * p / (a.inverse_mass + b.inverse_mass)))
                (-a.inverse_mass)) }
        else a,
        if b.is_static = false then
          { b with
            position := vector3_add b.position
              (vector3_scale
                (vector3_scale c.normal
                  ((c.penetration_depth - q) * p / (a.inverse_mass + b.inverse_mass)))
                b.inverse_mass) }
        else b) := by
  unfold position_correction
  dsimp only
  rw [if_neg (not_le.mpr hw), if_neg (not_le.mpr (sub_pos.mpr hpen))]

theorem scale_scale (v : Vector3 R) (k m : R) :
    vector3_scale (vector3_scale v k) m = vector3_scale v (k * m) := by
  simp only [vector3_scale, Vector3.mk.injEq]
  refine ⟨?_, ?_, ?_⟩ <;> ring

theorem impulse_response_velocity (c : CollisionInfo R) (a b : RigidBody R)
    (hsa : a.is_static = true → a.inverse_mass = 0)
    (hsb : b.is_static = true → b.inverse_mass = 0) :
    (apply_impulse_response c a b).1.velocity =
      vector3_add a.velocity
        (vector3_scale (vector3_scale c.normal (applied_normal_impulse c a b))
          (-a.inverse_mass)) ∧
    (apply_impulse_response c a b).2.velocity =
      vector3_add b.velocity
        (vector3_scale (vector3_scale c.normal (applied_normal_impulse c a b))
          b.inverse_mass) := by
  unfold apply_impulse_response applied_normal_impulse
  dsimp only
  by_cases h1 : calculate_relative_velocity c a b > 0
  · rw [if_pos h1, if_pos h1]
    refine ⟨?_, ?_⟩ <;> simp [vector3_add, vector3_scale]
  · rw [if_neg h1, if_neg h1]
    refine ⟨?_, ?_⟩ <;> dsimp only
    · by_cases hA : a.is_static = true
      · rw [if_neg (by simp [hA]), hsa hA]
        cases a.velocity
        simp [vector3_add, vector3_scale]
      · rw [if_pos (by simpa using hA)]
    · by_cases hB : b.is_static = true
      · rw [if_neg (by simp [hB]), hsb hB]
        cases b.velocity
        simp [vector3_add, vector3_scale]
      · rw [if_pos (by simpa using hB)]

theorem momentum_after_impulse (va vb J : Vector3 R) (ma mb ia ib : R) (ha : ma * ia = 1)
    (hb : mb * ib = 1) :
    vector3_add (vector3_scale (vector3_add va (vector3_scale J (-ia))) ma)
        (vector3_scale (vector3_add vb (vector3_scale J ib)) mb) =
      vector3_add (vector3_scale va ma) (vector3_scale vb mb) := by
  simp only [vector3_add, vector3_scale, Vector3.mk.injEq]
  refine ⟨?_, ?_, ?_⟩
  · linear_combination (-J.x) * ha + J.x * hb
  · linear_combination (-J.y) * ha + J.y * hb
  · linear_combination (-J.z) * ha + J.z * hb

theorem separate_bodies_fields (c : CollisionInfo R) (a b : RigidBody R) :
    ((separate_bodies c a b).1.velocity = a.velocity ∧
      (separate_bodies c a b).1.inverse_mass = a.inverse_mass ∧
      (separate_bodies c a b).1.mass = a.mass ∧
      (separate_bodies c a b).1.is_static = a.is_static) ∧
    ((separate_bodies c a b).2.velocity = b.velocity ∧
      (separate_bodies c a b).2.inverse_mass = b.inverse_mass ∧
      (separate_bodies c a b).2.mass = b.mass ∧
      (separate_bodies c a b).2.is_static = b.is_static) := by
  unfold separate_bodies
  dsimp only
  split_ifs <;> exact ⟨⟨rfl, rfl, rfl, rfl⟩, ⟨rfl, rfl, rfl, rfl⟩⟩

theorem impulse_response_mass (c : CollisionInfo R) (a b : RigidBody R) :
    (apply_impulse_response c a b).1.mass = a.mass ∧
    (apply_impulse_response c a b).2.mass = b.mass := by
  unfold apply_impulse_response
  dsimp only
  split_ifs <;> exact ⟨rfl, rfl⟩

theorem apply_friction_fields (sqrtf : R → R) (c : CollisionInfo R) (a b : RigidBody R) :
    ((apply_friction sqrtf c a b).1.inverse_mass = a.inverse_mass ∧
      (apply_friction sqrtf c a b).1.mass = a.mass ∧
      (apply_friction sqrtf c a b).1.is_static = a.is_static) ∧
    ((apply_friction sqrtf c a b).2.inverse_mass = b.inverse_mass ∧
      (apply_friction sqrtf c a b).2.mass = b.mass ∧
      (apply_friction sqrtf c a b).2.is_static = b.is_static) := by
  unfold apply_friction
  dsimp only
  split_ifs <;> exact ⟨⟨rfl, rfl, rfl⟩, ⟨rfl, rfl, rfl⟩⟩

theorem position_correction_mass (c : CollisionInfo R) (p q : R) (a b : RigidBody R) :
    (position_correction c p q a b).1.mass = a.mass ∧
    (position_correction c p q a b).2.mass = b.mass := by
  unfold position_correction
  dsimp only
  split_ifs <;> exact ⟨rfl, rfl⟩

theorem scale_zero (v : Vector3 R) : vector3_scale v 0 = vector3_zero := by
  simp [vector3_scale, vector3_zero]

theorem friction_impulse_form {sqrtf : R → R} (hs : IsSqrt sqrtf) (c : CollisionInfo R)
    (a b : RigidBody R) (hn : vector3_length_squared c.normal = 1)
    (hw : 0 < a.inverse_mass + b.inverse_mass) (hf : 0 ≤ a.friction * b.friction) :
    ∃ k, 0 ≤ k ∧ k * (a.inverse_mass + b.inverse_mass) ≤ 1 ∧
      applied_friction_impulse sqrtf c a b = vector3_scale (tangential_velocity c a b) (-k) := by
  have hmu : 0 ≤ sqrtf (a.friction * b.friction) := (hs _ hf).1
  unfold applied_friction_impulse tangential_velocity
  dsimp only
  generalize hV : vector3_subtract b.velocity a.velocity = V
  generalize hT : vector3_subtract V (vector3_scale c.normal (vector3_dot V c.normal)) = T
  have hTT := length_mul_self hs T
  have hVT : vector3_dot V T = vector3_length_squared T := by
    rw [← hT]
    simp only [vector3_length_squared] at hn
    simp only [vector3_dot, vector3_subtract, vector3_scale, vector3_length_squared]
    linear_combination
      (-(V.x * c.normal.x + V.y * c.normal.y + V.z * c.normal.z) ^ 2) * hn
  by_cases h1 : vector3_length sqrtf T < VECTOR_EPSILON
  · rw [if_pos h1]
    exact ⟨0, le_rfl, by rw [zero_mul]; exact zero_le_one, by rw [neg_zero, scale_zero]⟩
  · rw [if_neg h1, if_neg (not_le.mpr hw)]
    have hL : 0 < vector3_length sqrtf T := lt_of_lt_of_le VECTOR_EPSILON_pos (not_lt.mp h1)
    have hnorm : vector3_normalize sqrtf T = vector3_scale T (1 / vector3_length sqrtf T) := by
      unfold vector3_normalize
      dsimp only
      rw [if_neg h1]
    have hdot : vector3_dot V (vector3_normalize sqrtf T) = vector3_length sqrtf T := by
      rw [hnorm]
      have : vector3_dot V (vector3_scale T (1 / vector3_length sqrtf T)) =
          vector3_dot V T * (1 / vector3_length sqrtf T) := by
        simp only [vector3_dot, vector3_scale]
        ring
      rw [this, hVT, ← hTT]
      field_simp
    rw [hdot, hnorm]
    generalize vector3_length sqrtf T = L at hL
    have hM0 : 0 ≤ sqrtf (a.friction * b.friction) * |calculate_impulse_magnitude c a b 0| :=
      mul_nonneg hmu (abs_nonneg _)
    generalize sqrtf (a.friction * b.friction) * |calculate_impulse_magnitude c a b 0| = M
      at hM0
    generalize a.inverse_mass + b.inverse_mass = w at hw
    have hL0 : L ≠ 0 := ne_of_gt hL
    have hw0 : w ≠ 0 := ne_of_gt hw
    have hj0 : -L / w < 0 := div_neg_of_neg_of_pos (neg_lt_zero.mpr hL) hw
    by_cases h3 : |-L / w| > M
    · rw [if_pos h3]
      have habs : |-L / w| = L / w := by
        rw [abs_of_neg hj0]
        ring
      rw [habs] at h3
      have hMw : M * w < L := (lt_div_iff₀ hw).mp h3
      refine ⟨|M| / L, div_nonneg (abs_nonneg _) (le_of_lt hL), ?_, ?_⟩
      · rw [abs_of_nonneg hM0, div_mul_eq_mul_div, div_le_one hL]
        exact le_of_lt hMw
      · unfold copysignf
        rw [if_neg (not_le.mpr hj0), scale_scale]
        congr 1
        field_simp
    · rw [if_neg h3]
      refine ⟨1 / w, le_of_lt (one_div_pos.mpr hw), le_of_eq (one_div_mul_cancel hw0), ?_⟩
      rw [scale_scale]
      congr 1
      field_simp

theorem aabb_overlap_test_comm (a b : RigidBody R) :
    aabb_overlap_test a b = aabb_overlap_test b a := by
  unfold aabb_overlap_test
  dsimp only
  rw [Bool.eq_iff_iff]
  simp only [Bool.and_eq_true, decide_eq_true_eq, ge_iff_le]
  tauto

theorem in_flight_step (sqrtf : R → R) (scale_inf : Vector3 R → Vector3 R)
    (w : PhysicsWorld R) (ld px py pz vx vy vz : R)
    (h : in_flight w ld ⟨px, py, pz⟩ ⟨vx, vy, vz⟩)
    (hfast : 1 / 100 ≤ vx * (1 - ld) * (vx * (1 - ld))) :
    in_flight (physics_world_step sqrtf scale_inf w) ld
      ⟨px + vx / 60, py + (vy - 981 / 6000) / 60, pz + vz / 60⟩
      ⟨vx * (1 - ld), (vy - 981 / 6000) * (1 - ld), vz * (1 - ld)⟩ := by
  obtain ⟨hp, ht, hts, hn, hg, hm, hld, b, hb, hst, hsl, hmass, hinv, hf, hpos, hvel⟩ := h
  unfold physics_world_step
  rw [step_single sqrtf scale_inf w _ hp (by rw [ht]; norm_num) hn,
    sub_step_single sqrtf scale_inf _ w b _ _ hb rfl rfl]
  have hnot : ¬ (b.is_static = true ∨ b.is_sleeping = true) := by
    rw [hst, hsl]
    simp
  have hfb : (if b.is_static = true ∨ b.is_sleeping = true then b
      else rigid_body_add_force b (gravity_force scale_inf w.gravity b.mass)) =
      { b with force_accumulator := ⟨0, -981 / 100, 0⟩ } := by
    rw [if_neg hnot]
    unfold rigid_body_add_force
    rw [if_pos hst, hmass, hg, hf]
    simp [gravity_force, vector3_add, vector3_scale, vector3_zero]
  rw [hfb]
  have hib : (if ({ b with force_accumulator := (⟨0, -981 / 100, 0⟩ : Vector3 R) } :
        RigidBody R).is_static = true
      then { b with force_accumulator := (⟨0, -981 / 100, 0⟩ : Vector3 R) }
      else integrate_body { b with force_accumulator := (⟨0, -981 / 100, 0⟩ : Vector3 R) }
        (w.timestep * w.time_scale) w.integration_method) =
      integrate_euler { b with force_accumulator := (⟨0, -981 / 100, 0⟩ : Vector3 R) }
        (1 / 60) := by
    rw [if_neg (by show ¬ b.is_static = true; rw [hst]; simp), hm, ht, hts, mul_one]
    unfold integrate_body
    rw [if_pos rfl]
  rw [hib]
  have hst2 : (integrate_euler { b with force_accumulator := (⟨0, -981 / 100, 0⟩ : Vector3 R) }
      (1 / 60)).is_static = false := by
    rw [integrate_euler_is_static]
    exact hst
  have hv2 : (integrate_euler { b with force_accumulator := (⟨0, -981 / 100, 0⟩ : Vector3 R) }
      (1 / 60)).velocity = ⟨vx, vy - 981 / 6000, vz⟩ := by
    simp only [integrate_euler, update_acceleration, rigid_body_clear_forces, hst, hsl, hinv,
      hvel, vector3_add, vector3_scale]
    norm_num
    ring
  have hp2 : (integrate_euler { b with force_accumulator := (⟨0, -981 / 100, 0⟩ : Vector3 R) }
      (1 / 60)).position = ⟨px + vx / 60, py + (vy - 981 / 6000) / 60, pz + vz / 60⟩ := by
    simp only [integrate_euler, update_acceleration, rigid_body_clear_forces, hst, hsl, hinv,
      hvel, hpos, vector3_add, vector3_scale]
    norm_num
    refine ⟨?_, ?_, ?_⟩ <;> ring
  have hrest : (integrate_euler { b with force_accumulator := (⟨0, -981 / 100, 0⟩ : Vector3 R) }
      (1 / 60)).is_sleeping = false ∧
      (integrate_euler { b with force_accumulator := (⟨0, -981 / 100, 0⟩ : Vector3 R) }
        (1 / 60)).mass = Mass.finite 1 ∧
      (integrate_euler { b with force_accumulator := (⟨0, -981 / 100, 0⟩ : Vector3 R) }
        (1 / 60)).inverse_mass = 1 ∧
      (integrate_euler { b with force_accumulator := (⟨0, -981 / 100, 0⟩ : Vector3 R) }
        (1 / 60)).force_accumulator = vector3_zero := by
    simp only [integrate_euler, update_acceleration, rigid_body_clear_forces, hst, hsl, hinv,
      hmass]
    norm_num
  generalize integrate_euler { b with force_accumulator := (⟨0, -981 / 100, 0⟩ : Vector3 R) }
    (1 / 60) = ib at hst2 hv2 hp2 hrest
  have hawake := apply_damping_awake ib w.linear_damping w.angular_damping hst2 (by
    intro hboth
    have h1 := hboth.1
    rw [hv2, hld] at h1
    simp only [vector3_length_squared, vector3_scale] at h1
    nlinarith [mul_self_nonneg ((vy - 981 / 6000) * (1 - ld)), mul_self_nonneg (vz * (1 - ld))])
  rw [hawake]
  refine ⟨hp, ht, hts, hn, hg, hm, hld, _, rfl, hst2, hrest.1, hrest.2.1, hrest.2.2.1,
    hrest.2.2.2, hp2, ?_⟩
  show vector3_scale ib.velocity (1 - w.linear_damping) = _
  rw [hv2, hld]
  rfl

theorem projectile_world_in_flight :
    in_flight (projectile_world : PhysicsWorld R) (1 / 100) ⟨0, 0, 0⟩ ⟨10, 0, 0⟩ := by
  unfold in_flight projectile_world
  refine ⟨rfl, rfl, rfl, rfl, rfl, rfl, rfl, sample_sphere ⟨0, 0, 0⟩ ⟨10, 0, 0⟩ 1, rfl, ?_, ?_,
    ?_, ?_, ?_, ?_, rfl⟩ <;>
    norm_num [sample_sphere, rigid_body_init_sphere, rigid_body_set_mass, rigid_body_create]

theorem projectile_world_undamped_in_flight :
    in_flight (physics_world_set_damping (projectile_world : PhysicsWorld R) 0 0) 0
      ⟨0, 0, 0⟩ ⟨10, 0, 0⟩ := by
  unfold in_flight projectile_world
  refine ⟨rfl, rfl, rfl, rfl, rfl, rfl, ?_, sample_sphere ⟨0, 0, 0⟩ ⟨10, 0, 0⟩ 1, rfl, ?_, ?_,
    ?_, ?_, ?_, ?_, rfl⟩
  · show max (0 : R) (min 1 0) = 0
    norm_num
  all_goals
    norm_num [sample_sphere, rigid_body_init_sphere, rigid_body_set_mass, rigid_body_create]

theorem projectile_damped_flight (sqrtf : R → R) (scale_inf : Vector3 R → Vector3 R) (k : Nat)
    (hk : k ≤ 60) :
    ∃ py pz vy vz,
      in_flight ((physics_world_step sqrtf scale_inf)^[k] projectile_world) (1 / 100)
        ⟨50 / 3 * (1 - (99 / 100) ^ k), py, pz⟩ ⟨10 * (99 / 100) ^ k, vy, vz⟩ := by
  induction k with
  | zero =>
    refine ⟨0, 0, 0, 0, ?_⟩
    have h := projectile_world_in_flight (R := R)
    simpa using h
  | succ n ih =>
    obtain ⟨py, pz, vy, vz, h⟩ := ih (Nat.le_of_succ_le hk)
    have hq : (1 / 2 : R) ≤ (99 / 100) ^ (n + 1) := by
      have h60 : (1 / 2 : R) ≤ (99 / 100) ^ 60 := by norm_num
      exact le_trans h60 (pow_le_pow_of_le_one (by norm_num) (by norm_num) hk)
    have hstep := in_flight_step sqrtf scale_inf _ _ _ _ _ _ _ _ h (by
      have e : 10 * (99 / 100 : R) ^ n * (1 - 1 / 100) = 10 * (99 / 100) ^ (n + 1) := by
        rw [pow_succ]
        ring
      rw [e]
      nlinarith)
    rw [Function.iterate_succ_apply']
    have e1 : 50 / 3 * (1 - (99 / 100 : R) ^ n) + 10 * (99 / 100) ^ n / 60 =
        50 / 3 * (1 - (99 / 100) ^ (n + 1)) := by
      rw [pow_succ]
      ring
    have e2 : 10 * (99 / 100 : R) ^ n * (1 - 1 / 100) = 10 * (99 / 100) ^ (n + 1) := by
      rw [pow_succ]
      ring
    rw [e1, e2] at hstep
    exact ⟨_, _, _, _, hstep⟩

theorem projectile_undamped_flight (sqrtf : R → R) (scale_inf : Vector3 R → Vector3 R)
    (k : Nat) :
    in_flight
      ((physics_world_step sqrtf scale_inf)^[k] (physics_world_set_damping projectile_world 0 0))
      0 ⟨(k : R) / 6, -(981 / 720000) * ((k : R) * ((k : R) + 1)), 0⟩
      ⟨10, -(981 / 6000) * (k : R), 0⟩ := by
  induction k with
  | zero =>
    have h := projectile_world_undamped_in_flight (R := R)
    simpa using h
  | succ n ih =>
    have hstep := in_flight_step sqrtf scale_inf _ _ _ _ _ _ _ _ ih (by norm_num)
    rw [Function.iterate_succ_apply']
    have e1 : (n : R) / 6 + 10 / 60 = ((n + 1 : Nat) : R) / 6 := by
      push_cast
      ring
    have e2 : -(981 / 720000) * ((n : R) * ((n : R) + 1)) +
        (-(981 / 6000) * (n : R) - 981 / 6000) / 60 =
        -(981 / 720000) * (((n + 1 : Nat) : R) * (((n + 1 : Nat) : R) + 1)) := by
      push_cast
      ring
    have e3 : (0 : R) + 0 / 60 = 0 := by norm_num
    have e4 : (10 : R) * (1 - 0) = 10 := by norm_num
    have e5 : (-(981 / 6000) * (n : R) - 981 / 6000) * (1 - 0) =
        -(981 / 6000) * ((n + 1 : Nat) : R) := by
      push_cast
      ring
    have e6 : (0 : R) * (1 - 0) = 0 := by norm_num
    rw [e1, e2, e3, e4, e5, e6] at hstep
    exact hstep

theorem wake_from_none (sqrtf : R → R) (bs : List (RigidBody R)) (i : Nat)
    (h : ∀ b ∈ bs, b.is_static = true ∨ b.is_sleeping = true ∨
      vector3_length_squared b.velocity < 1 / 10) :
    wake_from sqrtf bs i = bs := by
  unfold wake_from
  split
  · rfl
  · rename_i moving hm
    dsimp only
    have hmem : moving ∈ bs := List.mem_iff_get?.mpr ⟨i, hm⟩
    rcases h moving hmem with h1 | h1 | h1
    · rw [if_pos (Or.inl h1)]
    · rw [if_pos (Or.inr h1)]
    · split_ifs <;> rfl

theorem wake_none (sqrtf : R → R) (w : PhysicsWorld R)
    (h : ∀ b ∈ w.bodies, b.is_static = true ∨ b.is_sleeping = true ∨
      vector3_length_squared b.velocity < 1 / 10) :
    physics_world_wake_sleeping_bodies sqrtf w = w := by
  unfold physics_world_wake_sleeping_bodies
  have hfold : ∀ l : List Nat, l.foldl (wake_from sqrtf) w.bodies = w.bodies := by
    intro l
    induction l with
    | nil => rfl
    | cons i rest ih => rw [List.foldl_cons, wake_from_none sqrtf _ i h, ih]
  rw [hfold]

theorem detect_two (sqrtf : R → R) (w : PhysicsWorld R) (a b : RigidBody R)
    (hb : w.bodies = [a, b]) (hstatic : ¬ (a.is_static = true ∧ b.is_static = true))
    (hsleep : ¬ (a.is_sleeping = true ∧ b.is_sleeping = true))
    (hnone : detect_collision sqrtf a b = none) :
    physics_world_detect_collisions sqrtf w =
      { w with collisions := [], collision_checks_performed := 1 } := by
  unfold physics_world_detect_collisions PhysicsWorld.body_count
  have hpairs : body_pairs w.bodies.length = [(0, 1)] := by
    rw [hb]
    rfl
  rw [hpairs, List.foldl_cons, List.foldl_nil]
  unfold detect_pair
  dsimp only
  rw [hb]
  simp only [List.get?_cons_zero, List.get?_cons_succ]
  rw [if_neg hstatic, if_neg hsleep, hnone]
  simp [PhysicsWorld.collision_count, MAX_COLLISIONS]

theorem sub_step_ground (sqrtf : R → R) (scale_inf : Vector3 R → Vector3 R) (sub_dt : R)
    (w : PhysicsWorld R) (a b fb ib : RigidBody R) (hb : w.bodies = [a, b])
    (hsa : a.is_static = true) (haw : a.is_sleeping = false) (hsb : b.is_static = false)
    (hslow : b.is_sleeping = true ∨ vector3_length_squared b.velocity < 1 / 10)
    (hf : fb = if b.is_static = true ∨ b.is_sleeping = true then b
      else rigid_body_add_force b (gravity_force scale_inf w.gravity b.mass))
    (hi : ib = if fb.is_static = true then fb
      else integrate_body fb sub_dt w.integration_method)
    (hnone : detect_collision sqrtf a ib = none) :
    sub_step sqrtf scale_inf sub_dt w =
      { w with
        collisions := []
        collision_checks_performed := 1
        bodies := [a, apply_damping ib w.linear_damping w.angular_damping] } := by
  unfold sub_step
  dsimp only
  rw [wake_none sqrtf w (by
    intro x hx
    rw [hb] at hx
    rcases List.mem_cons.mp hx with hx | hx
    · exact Or.inl (by rw [hx]; exact hsa)
    · rw [List.mem_singleton] at hx
      rw [hx]
      exact Or.inr hslow)]
  have h2 : (physics_world_apply_forces scale_inf w).bodies = [a, fb] := by
    unfold physics_world_apply_forces
    dsimp only
    rw [hb, hf]
    simp only [List.map_cons, List.map_nil]
    rw [if_pos (Or.inl hsa)]
  have h3 : (physics_world_integrate_bodies (physics_world_apply_forces scale_inf w)
      sub_dt).bodies = [a, ib] := by
    unfold physics_world_integrate_bodies
    dsimp only
    rw [h2, hi]
    simp only [List.map_cons, List.map_nil]
    rw [if_pos hsa]
    rfl
  have hib_static : ib.is_static = false := by
    rw [hi]
    have hfbs : fb.is_static = false := by
      rw [hf]
      split_ifs
      · exact hsb
      · unfold rigid_body_add_force
        rw [if_pos hsb]
        exact hsb
    rw [if_neg (by rw [hfbs]; decide), integrate_body_is_static]
    exact hfbs
  rw [detect_two sqrtf _ a ib h3
    (fun h => absurd (hib_static.symm.trans h.2) (by decide))
    (fun h => absurd (haw.symm.trans h.1) (by decide)) hnone]
  unfold physics_world_resolve_collisions
  dsimp only
  rw [List.foldl_nil, h3]
  simp only [List.map_cons, List.map_nil]
  have hda : apply_damping a
      (physics_world_integrate_bodies (physics_world_apply_forces scale_inf w)
        sub_dt).linear_damping
      (physics_world_integrate_bodies (physics_world_apply_forces scale_inf w)
        sub_dt).angular_damping = a := by
    unfold apply_damping
    rw [if_pos hsa]
  rw [hda]
  rfl

theorem ground_ball_world_eq :
    (ground_ball_world : PhysicsWorld R) =
      { (physics_world_init : PhysicsWorld R) with
        bodies := [sample_plane ⟨0, 1, 0⟩ 0, ground_ball] } := by
  unfold ground_ball_world physics_world_add_body
  simp [PhysicsWorld.body_count, MAX_BODIES, physics_world_init]

theorem ground_ball_is_static : (ground_ball : RigidBody R).is_static = false := by
  norm_num [ground_ball, rigid_body_set_friction, rigid_body_set_restitution, sample_sphere,
    rigid_body_init_sphere, rigid_body_set_mass, rigid_body_create]

theorem ground_ball_first_step (sqrtf : R → R) (scale_inf : Vector3 R → Vector3 R) :
    physics_world_step sqrtf scale_inf ground_ball_world = hung_ball_world := by
  unfold physics_world_step hung_ball_world
  rw [ground_ball_world_eq]
  rw [step_single sqrtf scale_inf _ _ rfl (by norm_num [physics_world_init]) rfl]
  rw [sub_step_ground sqrtf scale_inf _ _ (sample_plane ⟨0, 1, 0⟩ 0) ground_ball _ _ rfl rfl rfl
    ground_ball_is_static (Or.inr (by
      norm_num [ground_ball, rigid_body_set_friction, rigid_body_set_restitution, sample_sphere,
        vector3_length_squared, vector3_dot])) rfl rfl (by
      norm_num [detect_collision, aabb_overlap_test, get_aabb_min, get_aabb_max, sample_plane,
        rigid_body_create, ground_ball, rigid_body_set_friction, rigid_body_set_restitution,
        sample_sphere, rigid_body_init_sphere, rigid_body_set_mass, physics_world_init,
        rigid_body_add_force, gravity_force, integrate_body, integrate_verlet,
        update_acceleration, rigid_body_clear_forces, vector3_create, vector3_add,
        vector3_scale, vector3_zero, sphere_plane_collision, distance_to_plane, vector3_dot,
        FLT_MAX, INTEGRATION_EULER, INTEGRATION_VERLET, INTEGRATION_RK4])]
  norm_num [hung_ball, apply_damping, sample_plane,
        rigid_body_create, ground_ball, rigid_body_set_friction, rigid_body_set_restitution,
        sample_sphere, rigid_body_init_sphere, rigid_body_set_mass, physics_world_init,
        rigid_body_add_force, gravity_force, integrate_body, integrate_verlet,
        update_acceleration, rigid_body_clear_forces, vector3_create, vector3_add,
        vector3_scale, vector3_zero, vector3_length_squared, vector3_dot,
        INTEGRATION_EULER, INTEGRATION_VERLET, INTEGRATION_RK4]

theorem hung_ball_world_fixed (sqrtf : R → R) (scale_inf : Vector3 R → Vector3 R) :
    physics_world_step sqrtf scale_inf hung_ball_world = hung_ball_world := by
  unfold physics_world_step hung_ball_world
  rw [ground_ball_world_eq]
  rw [step_single sqrtf scale_inf _ _ rfl (by norm_num [physics_world_init]) rfl]
  rw [sub_step_ground sqrtf scale_inf _ _ (sample_plane ⟨0, 1, 0⟩ 0) hung_ball _ _ rfl rfl rfl
    ground_ball_is_static (Or.inl rfl) rfl rfl (by
      norm_num [detect_collision, aabb_overlap_test, get_aabb_min, get_aabb_max, sample_plane,
        rigid_body_create, hung_ball, ground_ball, rigid_body_set_friction,
        rigid_body_set_restitution, sample_sphere, rigid_body_init_sphere, rigid_body_set_mass,
        physics_world_init, integrate_body, integrate_verlet, vector3_create, vector3_zero,
        sphere_plane_collision, distance_to_plane, vector3_dot, FLT_MAX, INTEGRATION_EULER,
        INTEGRATION_VERLET, INTEGRATION_RK4])]
  norm_num [hung_ball, apply_damping, sample_plane, rigid_body_create, ground_ball,
    rigid_body_set_friction, rigid_body_set_restitution, sample_sphere, rigid_body_init_sphere,
    rigid_body_set_mass, physics_world_init, integrate_body, integrate_verlet, vector3_create,
    vector3_scale, vector3_zero, vector3_length_squared, vector3_dot, INTEGRATION_EULER,
    INTEGRATION_VERLET, INTEGRATION_RK4]

theorem ground_ball_run (sqrtf : R → R) (scale_inf : Vector3 R → Vector3 R) :
    (physics_world_step sqrtf scale_inf)^[600] ground_ball_world = hung_ball_world := by
  rw [show 600 = 599 + 1 from rfl, Function.iterate_succ_apply, ground_ball_first_step]
  exact Function.iterate_fixed (hung_ball_world_fixed sqrtf scale_inf) 599

end Lemmas

/-! ## The world: adding and removing bodies -/

section WorldClaims

variable {R : Type}

/-- C23. `physics_world_add_body` on a world holding fewer than `MAX_BODIES = 1000`
bodies stores the body at index `body_count`, increases `body_count` by exactly 1,
leaves the earlier entries unchanged and returns the body's id; on a world
holding 1000 bodies (or more) it returns `-1 < 0` and leaves the world
unchanged; of 1001 successive adds to an empty world the first 1000 return the
ids of their bodies and store them, and the 1001st returns `-1`. -/
theorem add_body_capacity (world : PhysicsWorld R) (body : RigidBody R) :
    MAX_BODIES = 1000 ∧
    (world.body_count < 1000 →
      (physics_world_add_body world body).1.bodies.get? world.body_count = some body ∧
      (physics_world_add_body world body).1.body_count = world.body_count + 1 ∧
      (∀ i, i < world.body_count →
        (physics_world_add_body world body).1.bodies.get? i = world.bodies.get? i) ∧
      (physics_world_add_body world body).1 =
        { world with bodies := (physics_world_add_body world body).1.bodies } ∧
      (physics_world_add_body world body).2 = body.id) ∧
    (1000 ≤ world.body_count →
      (physics_world_add_body world body).1 = world ∧
      (physics_world_add_body world body).2 = -1 ∧
      (physics_world_add_body world body).2 < 0) ∧
    (∀ bodies : List (RigidBody R), world.body_count = 0 → bodies.length = 1001 →
      (add_bodies world bodies).2 = (bodies.take 1000).map (fun b => b.id) ++ [-1] ∧
      (add_bodies world bodies).1.bodies = bodies.take 1000) := by
  refine ⟨rfl, fun h => ?_, fun h => ?_, fun bodies h0 hlen => ?_⟩
  · rw [add_body_room world body h]
    refine ⟨?_, ?_, fun i hi => ?_, rfl, rfl⟩
    · show (world.bodies ++ [body]).get? world.bodies.length = some body
      simp
    · show (world.bodies ++ [body]).length = world.bodies.length + 1
      simp
    · show (world.bodies ++ [body]).get? i = world.bodies.get? i
      rw [List.get?_eq_getElem?, List.get?_eq_getElem?]
      exact List.getElem?_append_left hi
  · rw [add_body_full world body h]
    exact ⟨rfl, rfl, (by decide : (-1 : Int) < 0)⟩
  · have hnil : world.bodies = [] := List.length_eq_zero.mp h0
    have hsplit : bodies = bodies.take 1000 ++ bodies.drop 1000 := (List.take_append_drop _ _).symm
    have htake : (bodies.take 1000).length = 1000 := by
      rw [List.length_take, hlen]
      rfl
    obtain ⟨last, hlast⟩ : ∃ last, bodies.drop 1000 = [last] := by
      have hd : (bodies.drop 1000).length = 1 := by
        rw [List.length_drop, hlen]
      exact List.length_eq_one.mp hd
    have h1 : add_bodies world (bodies.take 1000) =
        ({ world with bodies := world.bodies ++ bodies.take 1000 },
          (bodies.take 1000).map fun b => b.id) :=
      add_bodies_room world _ (by
        rw [h0, htake]
        exact le_of_eq (by rfl))
    have h2 : add_bodies { world with bodies := world.bodies ++ bodies.take 1000 } [last] =
        ({ world with bodies := world.bodies ++ bodies.take 1000 }, [-1]) := by
      rw [add_bodies_cons, add_body_full _ last (by
        show MAX_BODIES ≤ (world.bodies ++ bodies.take 1000).length
        rw [hnil, List.nil_append, htake]
        exact le_of_eq (by rfl))]
      rfl
    have key : add_bodies world bodies =
        ({ world with bodies := world.bodies ++ bodies.take 1000 },
          (bodies.take 1000).map (fun b => b.id) ++ [-1]) := by
      conv_lhs => rw [hsplit]
      rw [add_bodies_append, hlast, h1]
      dsimp only
      rw [h2]
    rw [key]
    exact ⟨rfl, by rw [hnil, List.nil_append]⟩

/-- Witness of C23: 1001 fresh bodies with the ids 1 to 1001 are added to the
world of `physics_world_init`; the calls return the ids 1 to 1000 and then `-1`. -/
theorem add_body_capacity_witness :
    (add_bodies (physics_world_init : PhysicsWorld ℚ)
      ((List.range 1001).map fun k : Nat => rigid_body_create (Int.ofNat k + 1))).2 =
      (((List.range 1001).map fun k : Nat =>
        (rigid_body_create (Int.ofNat k + 1) : RigidBody ℚ)).take 1000).map (fun b => b.id) ++
        [-1] :=
  ((add_body_capacity (physics_world_init : PhysicsWorld ℚ) (rigid_body_create 1)).2.2.2
    ((List.range 1001).map fun k : Nat => rigid_body_create (Int.ofNat k + 1)) rfl
    (by rw [List.length_map, List.length_range])).1

/-- C25. `physics_world_remove_body(id)`: if `i` is the first index whose body has
that id, the bodies left are those before `i` followed by those after `i`, in
their order, `body_count` decreases by exactly 1 and the call returns true; if no
body has that id the call returns false and the world is unchanged.  When the
ids in the world are distinct, `physics_world_get_body(id)` afterwards returns
no body. -/
theorem remove_body_contract (world : PhysicsWorld R) (body_id : Int) :
    (∀ i body, world.bodies.get? i = some body → body.id = body_id →
      (∀ j, j < i → ∀ c, world.bodies.get? j = some c → c.id ≠ body_id) →
      physics_world_remove_body world body_id =
        ({ world with bodies := world.bodies.take i ++ world.bodies.drop (i + 1) }, true) ∧
      (physics_world_remove_body world body_id).1.body_count + 1 = world.body_count) ∧
    ((∀ c ∈ world.bodies, c.id ≠ body_id) →
      physics_world_remove_body world body_id = (world, false)) ∧
    ((world.bodies.map fun b => b.id).Nodup →
      physics_world_get_body (physics_world_remove_body world body_id).1 body_id = none) := by
  refine ⟨fun i body hb hid hfirst => ?_, fun h => ?_, fun hnd => ?_⟩
  · have hf := findIdx?_first (fun b : RigidBody R => decide (b.id = body_id)) world.bodies i
      body hb (by simpa using hid) (fun j hj c hc => by simpa using hfirst j hj c hc)
    rw [remove_body_at world body_id i hf]
    refine ⟨rfl, ?_⟩
    have hi : i < world.bodies.length := by
      rw [List.get?_eq_getElem?] at hb
      exact (List.getElem?_eq_some_iff.mp hb).1
    show (world.bodies.take i ++ world.bodies.drop (i + 1)).length + 1 = world.bodies.length
    rw [List.length_append, List.length_take, List.length_drop]
    omega
  · exact remove_body_absent world body_id
      (findIdx?_none _ _ (fun c hc => by simpa using h c hc))
  · unfold physics_world_get_body
    rw [List.find?_eq_none]
    intro c hc
    cases hf : world.bodies.findIdx? (fun body => decide (body.id = body_id)) with
    | none =>
      rw [remove_body_absent world body_id hf] at hc
      have := (List.findIdx?_eq_none_iff.mp hf) c hc
      simpa using this
    | some i =>
      rw [remove_body_at world body_id i hf] at hc
      obtain ⟨⟨b, hb, hpb⟩, hfirst⟩ := findIdx?_some_spec _ _ i hf
      have hbid : b.id = body_id := by simpa using hpb
      have hi : i < world.bodies.length := by
        rw [List.get?_eq_getElem?] at hb
        exact (List.getElem?_eq_some_iff.mp hb).1
      have hsplit : world.bodies = world.bodies.take i ++ b :: world.bodies.drop (i + 1) := by
        rw [List.get?_eq_getElem?] at hb
        have hg : world.bodies[i] = b := (List.getElem?_eq_some_iff.mp hb).2
        rw [← hg, List.getElem_cons_drop _ i hi, List.take_append_drop]
      rcases List.mem_append.mp hc with hm | hm
      · obtain ⟨j, hj⟩ := List.mem_iff_get?.mp hm
        have hjlt : j < i := by
          rw [List.get?_eq_getElem?] at hj
          have := (List.getElem?_eq_some_iff.mp hj).1
          rw [List.length_take] at this
          omega
        have hj2 : world.bodies.get? j = some c := by
          rw [List.get?_eq_getElem?] at hj ⊢
          rw [List.getElem?_take] at hj
          rw [if_pos hjlt] at hj
          exact hj
        simpa using hfirst j hjlt c hj2
      · rw [hsplit, List.map_append, List.map_cons] at hnd
        have h2 := (List.nodup_cons.mp (List.nodup_append.mp hnd).2.1).1
        intro hcid
        apply h2
        rw [List.mem_map]
        exact ⟨c, hm, by rw [hbid]; simpa using hcid⟩

/-- Witness of C25: from a world holding fresh bodies with the ids 1, 2 and 3 the
body with id 2 is removed, and the bodies with the ids 1 and 3 are left. -/
theorem remove_body_contract_witness :
    physics_world_remove_body
      { (physics_world_init : PhysicsWorld ℚ) with
        bodies := [rigid_body_create 1, rigid_body_create 2, rigid_body_create 3] } 2 =
      ({ (physics_world_init : PhysicsWorld ℚ) with
        bodies := [rigid_body_create 1, rigid_body_create 3] }, true) :=
  ((remove_body_contract
    { (physics_world_init : PhysicsWorld ℚ) with
      bodies := [rigid_body_create 1, rigid_body_create 2, rigid_body_create 3] } 2).1
    1 (rigid_body_create 2) rfl rfl
    (fun j hj c hc => by
      have h0 : j = 0 := by omega
      subst h0
      simp only [List.get?_cons_zero, Option.some.injEq] at hc
      rw [← hc]
      norm_num [rigid_body_create])).1

end WorldClaims

/-! ## The world step: static bodies -/

section Claims

variable {R : Type} [LinearOrderedField R]

/-- C1. For every world, every `dt` and every world configuration (integration
method, damping, time scale, sub-iteration count), `physics_world_step_with_dt`
keeps the body list as long as it was and leaves the position and the velocity
of every body whose `is_static` flag is true exactly as they were, whatever the
body's shape, sleeping flag or inverse mass and whatever contacts it takes part
in. -/
theorem static_body_frame (sqrtf : R → R) (scale_inf : Vector3 R → Vector3 R)
    (world : PhysicsWorld R) (dt : R) (i : Nat) (body : RigidBody R)
    (hbody : world.bodies.get? i = some body) (hstatic : body.is_static = true) :
    (physics_world_step_with_dt sqrtf scale_inf world dt).bodies.length = world.bodies.length ∧
    ∃ after, (physics_world_step_with_dt sqrtf scale_inf world dt).bodies.get? i = some after ∧
      after.position = body.position ∧ after.velocity = body.velocity := by
  have h := keeps_step sqrtf scale_inf world dt
  obtain ⟨c, hc, hk⟩ := keeps_all_get h i body hbody
  exact ⟨h.length_eq.symm, c, hc, (hk.2 hstatic).1, (hk.2 hstatic).2⟩

/-- Witness of C1: the ground plane of `sample_world` over one step of 1/60 s. -/
theorem static_body_frame_witness :
    ∃ after, (physics_world_step_with_dt Real.sqrt (fun v => v) sample_world (1 / 60)).bodies.get? 0 =
        some after ∧
      after.position = (sample_plane (⟨0, 1, 0⟩ : Vector3 ℝ) 0).position ∧
      after.velocity = (sample_plane (⟨0, 1, 0⟩ : Vector3 ℝ) 0).velocity :=
  (static_body_frame Real.sqrt (fun v => v) sample_world (1 / 60) 0 (sample_plane ⟨0, 1, 0⟩ 0)
    rfl rfl).2

/-! ## Collision response: the normal impulse -/

/-- C2. For a contact with unit normal `n` between two bodies of total inverse
mass `w = inv_a + inv_b > 0`, every static body having inverse mass 0:
if the relative normal velocity `v_rel = (v_b - v_a)·n` is `≤ 0`, then after
`apply_impulse_response` the relative normal velocity is `-e·v_rel` with
`e = min(restitution_a, restitution_b)`; if `v_rel > 0` the call changes
nothing. -/
theorem apply_impulse_response_restitution (c : CollisionInfo R) (a b : RigidBody R)
    (hn : vector3_length_squared c.normal = 1)
    (hw : 0 < a.inverse_mass + b.inverse_mass)
    (hsa : a.is_static = true → a.inverse_mass = 0)
    (hsb : b.is_static = true → b.inverse_mass = 0) :
    (vector3_dot (vector3_subtract b.velocity a.velocity) c.normal ≤ 0 →
      vector3_dot
          (vector3_subtract (apply_impulse_response c a b).2.velocity
            (apply_impulse_response c a b).1.velocity) c.normal
        = -(min a.restitution b.restitution) *
            vector3_dot (vector3_subtract b.velocity a.velocity) c.normal) ∧
    (0 < vector3_dot (vector3_subtract b.velocity a.velocity) c.normal →
      apply_impulse_response c a b = (a, b)) := by
  have hw' : ¬ a.inverse_mass + b.inverse_mass ≤ 0 := not_le.mpr hw
  have hw0 : a.inverse_mass + b.inverse_mass ≠ 0 := ne_of_gt hw
  constructor
  · intro hv
    have hv' : ¬ 0 < vector3_dot (vector3_subtract b.velocity a.velocity) c.normal := not_lt.mpr hv
    have hJw : -(1 + min a.restitution b.restitution) *
        vector3_dot (vector3_subtract b.velocity a.velocity) c.normal /
          (a.inverse_mass + b.inverse_mass) * (a.inverse_mass + b.inverse_mass) =
        -(1 + min a.restitution b.restitution) *
          vector3_dot (vector3_subtract b.velocity a.velocity) c.normal :=
      div_mul_cancel₀ _ hw0
    unfold vector3_length_squared at hn
    cases hA : a.is_static <;> cases hB : b.is_static <;>
      simp only [apply_impulse_response, calculate_relative_velocity, calculate_impulse_magnitude,
        gt_iff_lt, hv', hw', if_false, if_true, hA, hB, Bool.true_eq_false, eq_self_iff_true] <;>
      generalize -(1 + min a.restitution b.restitution) *
        vector3_dot (vector3_subtract b.velocity a.velocity) c.normal /
          (a.inverse_mass + b.inverse_mass) = J at hJw ⊢ <;>
      simp only [vector3_dot, vector3_subtract, vector3_add, vector3_scale] at hJw ⊢
    · linear_combination hJw + (J * (a.inverse_mass + b.inverse_mass)) * hn
    · linear_combination hJw + (J * a.inverse_mass) * hn - J * hsb hB
    · linear_combination hJw + (J * b.inverse_mass) * hn - J * hsa hA
    · exfalso
      rw [hsa hA, hsb hB] at hw
      simp at hw
  · intro hv
    simp [apply_impulse_response, calculate_relative_velocity, hv]

/-- Witness of C2: a sphere of mass 1 falling at speed 1 onto a static plane
(restitution 1/2 each) leaves with relative normal velocity 1/2. -/
theorem apply_impulse_response_restitution_witness :
    vector3_dot
      (vector3_subtract
        (apply_impulse_response (⟨true, ⟨0, 0, 0⟩, ⟨0, 1, 0⟩, 0⟩ : CollisionInfo ℚ)
          (sample_plane ⟨0, 1, 0⟩ 0) (sample_sphere ⟨0, 1, 0⟩ ⟨0, -1, 0⟩ 1)).2.velocity
        (apply_impulse_response (⟨true, ⟨0, 0, 0⟩, ⟨0, 1, 0⟩, 0⟩ : CollisionInfo ℚ)
          (sample_plane ⟨0, 1, 0⟩ 0) (sample_sphere ⟨0, 1, 0⟩ ⟨0, -1, 0⟩ 1)).1.velocity)
      (⟨0, 1, 0⟩ : Vector3 ℚ) = 1 / 2 := by
  have h := (apply_impulse_response_restitution
    (⟨true, ⟨0, 0, 0⟩, ⟨0, 1, 0⟩, 0⟩ : CollisionInfo ℚ)
    (sample_plane ⟨0, 1, 0⟩ 0) (sample_sphere ⟨0, 1, 0⟩ ⟨0, -1, 0⟩ 1)
    (by norm_num [vector3_length_squared])
    (by norm_num [sample_plane, sample_sphere_inverse_mass])
    (by simp [sample_plane])
    (by simp [sample_sphere_static])).1
    (by norm_num [vector3_dot, vector3_subtract, sample_plane, sample_sphere, rigid_body_create,
      vector3_zero])
  rw [h]
  norm_num [vector3_dot, vector3_subtract, sample_plane, sample_sphere, rigid_body_create,
    vector3_zero, rigid_body_init_sphere, rigid_body_set_mass]

/-! ## Narrow phase: thresholds and contact data -/

/-- C5. For any two sphere bodies, `detect_collision` (broad-phase gate
included) reports a contact if and only if the distance `d` between the centres
is strictly less than `r_a + r_b`; spheres at distance exactly `r_a + r_b` do
not collide; a reported contact has penetration depth `r_a + r_b - d`. -/
theorem sphere_sphere_detect_iff (sqrtf : R → R) (hs : IsSqrt sqrtf) (a b : RigidBody R)
    (ra rb : R) (ha : a.shape = CollisionShape.sphere ra)
    (hb : b.shape = CollisionShape.sphere rb) :
    ((detect_collision sqrtf a b).isSome = true ↔
      vector3_distance sqrtf a.position b.position < ra + rb) ∧
    (vector3_distance sqrtf a.position b.position = ra + rb →
      detect_collision sqrtf a b = none) ∧
    (∀ info, detect_collision sqrtf a b = some info →
      info.penetration_depth = ra + rb - vector3_distance sqrtf a.position b.position) := by
  have key : detect_collision sqrtf a b =
      if vector3_distance sqrtf a.position b.position < ra + rb then
        sphere_sphere_collision sqrtf a ra b rb
      else none := by
    by_cases hd : vector3_distance sqrtf a.position b.position < ra + rb
    · have hg := sphere_sphere_gate hs a b ra rb ha hb hd
      simp [detect_collision, hg, ha, hb, hd]
    · unfold vector3_distance at hd
      by_cases hg : aabb_overlap_test a b = true
      · simp [detect_collision, hg, ha, hb, vector3_distance, sphere_sphere_collision, hd]
      · simp [detect_collision, hg, vector3_distance, hd]
  rw [key]
  refine ⟨?_, ?_, ?_⟩
  · by_cases hd : vector3_distance sqrtf a.position b.position < ra + rb
    · unfold vector3_distance at hd
      simp [sphere_sphere_collision, vector3_distance, hd]
    · simp [hd]
  · intro he
    simp [he]
  · intro info hinfo
    by_cases hd : vector3_distance sqrtf a.position b.position < ra + rb
    · unfold vector3_distance at hd
      simp only [vector3_distance, hd, if_true, sphere_sphere_collision, Option.some.injEq]
        at hinfo
      rw [← hinfo]
      rfl
    · simp [hd] at hinfo


/-- Witness of C5: two unit spheres whose centres are 3/2 apart. -/
theorem sphere_sphere_detect_iff_witness :
    ((detect_collision Real.sqrt (sample_sphere ⟨0, 0, 0⟩ ⟨0, 0, 0⟩ 1)
        (sample_sphere ⟨3 / 2, 0, 0⟩ ⟨0, 0, 0⟩ 1)).isSome = true ↔
      vector3_distance Real.sqrt (sample_sphere (⟨0, 0, 0⟩ : Vector3 ℝ) ⟨0, 0, 0⟩ 1).position
        (sample_sphere (⟨3 / 2, 0, 0⟩ : Vector3 ℝ) ⟨0, 0, 0⟩ 1).position < 1 + 1) :=
  (sphere_sphere_detect_iff Real.sqrt isSqrt_real (sample_sphere ⟨0, 0, 0⟩ ⟨0, 0, 0⟩ 1)
    (sample_sphere ⟨3 / 2, 0, 0⟩ ⟨0, 0, 0⟩ 1) 1 1 (sample_sphere_shape _ _ _)
    (sample_sphere_shape _ _ _)).1

/-- C6. For a sphere (centre `c`, radius `r`) lying within the `±FLT_MAX` box
used for planes (its centre does and `r ≥ 0`, or both corners of its bounding
box do) and a plane body (normal `n`, distance `d`), passed to
`detect_collision` in either order: a contact is reported if and only if
`s = n·c - d < r`, and the reported contact has normal `n`, penetration depth
`r - s` and contact point `c - r·n`. -/
theorem sphere_plane_detect (sqrtf : R → R) (s p : RigidBody R) (r d : R) (n : Vector3 R)
    (hs : s.shape = CollisionShape.sphere r) (hp : p.shape = CollisionShape.plane n d)
    (hbox : (0 ≤ r ∧ in_flt_box s.position) ∨
      (in_flt_box (get_aabb_min s) ∧ in_flt_box (get_aabb_max s))) :
    ∀ res, res = detect_collision sqrtf s p ∨ res = detect_collision sqrtf p s →
      (res.isSome = true ↔ vector3_dot n s.position - d < r) ∧
      (∀ info, res = some info →
        info.normal = n ∧
        info.penetration_depth = r - (vector3_dot n s.position - d) ∧
        info.contact_point = vector3_subtract s.position (vector3_scale n r)) := by
  have hF : (0 : R) < FLT_MAX := FLT_MAX_pos
  have hg1 : aabb_overlap_test s p = true := by
    simp only [aabb_overlap_test, get_aabb_min, get_aabb_max, hs, hp, vector3_create, ge_iff_le,
      Bool.and_eq_true, decide_eq_true_eq]
    simp only [in_flt_box, get_aabb_min, get_aabb_max, hs, vector3_create] at hbox
    rcases hbox with ⟨hr, ⟨hx, hy, hz⟩⟩ | ⟨⟨hx, hy, hz⟩, ⟨hx', hy', hz'⟩⟩
    · refine ⟨⟨⟨?_, ?_⟩, ⟨?_, ?_⟩⟩, ⟨?_, ?_⟩⟩ <;> linarith [hx.1, hx.2, hy.1, hy.2, hz.1, hz.2]
    · refine ⟨⟨⟨?_, ?_⟩, ⟨?_, ?_⟩⟩, ⟨?_, ?_⟩⟩ <;>
        linarith [hx.1, hx.2, hy.1, hy.2, hz.1, hz.2, hx'.1, hx'.2, hy'.1, hy'.2, hz'.1, hz'.2]
  have hg2 : aabb_overlap_test p s = true := by
    simp only [aabb_overlap_test, get_aabb_min, get_aabb_max, hs, hp, vector3_create, ge_iff_le,
      Bool.and_eq_true, decide_eq_true_eq]
    simp only [in_flt_box, get_aabb_min, get_aabb_max, hs, vector3_create] at hbox
    rcases hbox with ⟨hr, ⟨hx, hy, hz⟩⟩ | ⟨⟨hx, hy, hz⟩, ⟨hx', hy', hz'⟩⟩
    · refine ⟨⟨⟨?_, ?_⟩, ⟨?_, ?_⟩⟩, ⟨?_, ?_⟩⟩ <;> linarith [hx.1, hx.2, hy.1, hy.2, hz.1, hz.2]
    · refine ⟨⟨⟨?_, ?_⟩, ⟨?_, ?_⟩⟩, ⟨?_, ?_⟩⟩ <;>
        linarith [hx.1, hx.2, hy.1, hy.2, hz.1, hz.2, hx'.1, hx'.2, hy'.1, hy'.2, hz'.1, hz'.2]
  have e1 : detect_collision sqrtf s p = sphere_plane_collision s r n d := by
    simp [detect_collision, hg1, hs, hp]
  have e2 : detect_collision sqrtf p s = sphere_plane_collision s r n d := by
    simp [detect_collision, hg2, hs, hp]
  have hdot : vector3_dot s.position n = vector3_dot n s.position := by
    simp only [vector3_dot]
    ring
  intro res hres
  have hres' : res = sphere_plane_collision s r n d := by
    rcases hres with h | h
    · rw [h, e1]
    · rw [h, e2]
  subst hres'
  by_cases hd : vector3_dot n s.position - d < r
  · simp only [sphere_plane_collision, distance_to_plane, hdot, hd, if_true, Option.isSome_some,
      true_iff, Option.some.injEq]
    refine ⟨trivial, ?_⟩
    intro info hinfo
    rw [← hinfo]
    refine ⟨rfl, rfl, ?_⟩
    simp only [vector3_add, vector3_scale, vector3_subtract, Vector3.mk.injEq]
    refine ⟨?_, ?_, ?_⟩ <;> ring
  · simp [sphere_plane_collision, distance_to_plane, hdot, hd]

/-- Witness of C6: a unit sphere centred 1/2 above the ground plane. -/
theorem sphere_plane_detect_witness :
    (detect_collision (fun x => x) (sample_plane ⟨0, 1, 0⟩ 0)
        (sample_sphere (⟨0, 1 / 2, 0⟩ : Vector3 ℚ) ⟨0, 0, 0⟩ 1)).isSome = true ↔
      vector3_dot (⟨0, 1, 0⟩ : Vector3 ℚ)
        (sample_sphere (⟨0, 1 / 2, 0⟩ : Vector3 ℚ) ⟨0, 0, 0⟩ 1).position - 0 < 1 :=
  (sphere_plane_detect (fun x => x) (sample_sphere ⟨0, 1 / 2, 0⟩ ⟨0, 0, 0⟩ 1)
    (sample_plane ⟨0, 1, 0⟩ 0) 1 0 ⟨0, 1, 0⟩ (sample_sphere_shape _ _ _) rfl
    (Or.inl ⟨by norm_num, by
      rw [sample_sphere_position]
      norm_num [in_flt_box, FLT_MAX]⟩) _ (Or.inr rfl)).1

/-- C7. For a sphere (centre `c`, radius `r`) and a box with non-negative
half-extents, passed to `detect_collision` in either order: a contact is
reported if and only if the distance `d` from `c` to the point obtained by
clamping `c` to the box's `[min, max]` is strictly less than `r` (so the
broad-phase gate never suppresses such a contact); the reported penetration
depth is `r - d` and the contact point is the clamped point. -/
theorem sphere_aabb_detect (sqrtf : R → R) (hsq : IsSqrt sqrtf) (s bx : RigidBody R) (r : R)
    (h : Vector3 R) (hs : s.shape = CollisionShape.sphere r)
    (hb : bx.shape = CollisionShape.aabb h) (hh : 0 ≤ h.x ∧ 0 ≤ h.y ∧ 0 ≤ h.z) :
    ∀ clamped : Vector3 R,
      clamped =
        ⟨max (bx.position.x - h.x) (min s.position.x (bx.position.x + h.x)),
          max (bx.position.y - h.y) (min s.position.y (bx.position.y + h.y)),
          max (bx.position.z - h.z) (min s.position.z (bx.position.z + h.z))⟩ →
    ∀ res, res = detect_collision sqrtf s bx ∨ res = detect_collision sqrtf bx s →
      (res.isSome = true ↔ vector3_distance sqrtf s.position clamped < r) ∧
      (∀ info, res = some info →
        info.penetration_depth = r - vector3_distance sqrtf s.position clamped ∧
        info.contact_point = clamped) := by
  intro clamped hcl
  have hcp : closest_point_on_aabb s.position bx = clamped := by
    rw [hcl]
    simp only [closest_point_on_aabb, get_aabb_min, get_aabb_max, hb, vector3_create]
  have hnarrow : ∀ res, res = detect_collision sqrtf s bx ∨ res = detect_collision sqrtf bx s →
      res = if vector3_distance sqrtf s.position clamped < r then
        sphere_aabb_collision sqrtf s r bx h else none := by
    intro res hres
    by_cases hd : vector3_distance sqrtf s.position clamped < r
    · rw [if_pos hd]
      have hd' := hd
      unfold vector3_distance at hd'
      have hx := abs_le.mp (abs_x_le_length hsq (vector3_subtract clamped s.position))
      have hy := abs_le.mp (abs_y_le_length hsq (vector3_subtract clamped s.position))
      have hz := abs_le.mp (abs_z_le_length hsq (vector3_subtract clamped s.position))
      generalize vector3_length sqrtf (vector3_subtract clamped s.position) = d at hx hy hz hd'
      have mx := clamp_mem (bx.position.x - h.x) (bx.position.x + h.x) s.position.x
        (by linarith [hh.1])
      have my := clamp_mem (bx.position.y - h.y) (bx.position.y + h.y) s.position.y
        (by linarith [hh.2.1])
      have mz := clamp_mem (bx.position.z - h.z) (bx.position.z + h.z) s.position.z
        (by linarith [hh.2.2])
      rw [hcl] at hx hy hz
      simp only [vector3_subtract] at hx hy hz
      have hg1 : aabb_overlap_test s bx = true := by
        simp only [aabb_overlap_test, get_aabb_min, get_aabb_max, hs, hb, vector3_create,
          ge_iff_le, Bool.and_eq_true, decide_eq_true_eq]
        refine ⟨⟨⟨?_, ?_⟩, ⟨?_, ?_⟩⟩, ⟨?_, ?_⟩⟩ <;>
          linarith [hx.1, hx.2, hy.1, hy.2, hz.1, hz.2, mx.1, mx.2, my.1, my.2, mz.1, mz.2]
      have hg2 : aabb_overlap_test bx s = true := by
        simp only [aabb_overlap_test, get_aabb_min, get_aabb_max, hs, hb, vector3_create,
          ge_iff_le, Bool.and_eq_true, decide_eq_true_eq]
        refine ⟨⟨⟨?_, ?_⟩, ⟨?_, ?_⟩⟩, ⟨?_, ?_⟩⟩ <;>
          linarith [hx.1, hx.2, hy.1, hy.2, hz.1, hz.2, mx.1, mx.2, my.1, my.2, mz.1, mz.2]
      rcases hres with h' | h'
      · rw [h']
        simp [detect_collision, hg1, hs, hb]
      · rw [h']
        simp [detect_collision, hg2, hs, hb]
    · rw [if_neg hd]
      have hn : sphere_aabb_collision sqrtf s r bx h = none := by
        unfold vector3_distance at hd
        simp only [sphere_aabb_collision, hcp, hd, if_false]
      rcases hres with h' | h'
      · rw [h']
        by_cases hg : aabb_overlap_test s bx = true
        · simp [detect_collision, hg, hs, hb, hn]
        · simp [detect_collision, hg]
      · rw [h']
        by_cases hg : aabb_overlap_test bx s = true
        · simp [detect_collision, hg, hs, hb, hn]
        · simp [detect_collision, hg]
  intro res hres
  rw [hnarrow res hres]
  by_cases hd : vector3_distance sqrtf s.position clamped < r
  · rw [if_pos hd]
    have hd' := hd
    unfold vector3_distance at hd'
    simp only [sphere_aabb_collision, hcp, hd', if_true, Option.isSome_some, true_iff,
      Option.some.injEq, hd]
    refine ⟨trivial, ?_⟩
    intro info hinfo
    rw [← hinfo]
    exact ⟨rfl, rfl⟩
  · simp [hd]

/-- Witness of C7: a sphere of radius 5/2 centred at `(3,0,0)` and the box of
half-extents `(1,1,1)` at the origin. -/
theorem sphere_aabb_detect_witness :
    (detect_collision Real.sqrt (sample_box ⟨0, 0, 0⟩ ⟨1, 1, 1⟩)
        (sample_sphere ⟨3, 0, 0⟩ ⟨0, 0, 0⟩ (5 / 2))).isSome = true ↔
      vector3_distance Real.sqrt (sample_sphere (⟨3, 0, 0⟩ : Vector3 ℝ) ⟨0, 0, 0⟩ (5 / 2)).position
        ⟨max ((sample_box (⟨0, 0, 0⟩ : Vector3 ℝ) ⟨1, 1, 1⟩).position.x - 1)
            (min (sample_sphere (⟨3, 0, 0⟩ : Vector3 ℝ) ⟨0, 0, 0⟩ (5 / 2)).position.x
              ((sample_box (⟨0, 0, 0⟩ : Vector3 ℝ) ⟨1, 1, 1⟩).position.x + 1)),
          max ((sample_box (⟨0, 0, 0⟩ : Vector3 ℝ) ⟨1, 1, 1⟩).position.y - 1)
            (min (sample_sphere (⟨3, 0, 0⟩ : Vector3 ℝ) ⟨0, 0, 0⟩ (5 / 2)).position.y
              ((sample_box (⟨0, 0, 0⟩ : Vector3 ℝ) ⟨1, 1, 1⟩).position.y + 1)),
          max ((sample_box (⟨0, 0, 0⟩ : Vector3 ℝ) ⟨1, 1, 1⟩).position.z - 1)
            (min (sample_sphere (⟨3, 0, 0⟩ : Vector3 ℝ) ⟨0, 0, 0⟩ (5 / 2)).position.z
              ((sample_box (⟨0, 0, 0⟩ : Vector3 ℝ) ⟨1, 1, 1⟩).position.z + 1))⟩ < 5 / 2 :=
  (sphere_aabb_detect Real.sqrt isSqrt_real (sample_sphere ⟨3, 0, 0⟩ ⟨0, 0, 0⟩ (5 / 2))
    (sample_box ⟨0, 0, 0⟩ ⟨1, 1, 1⟩) (5 / 2) ⟨1, 1, 1⟩ (sample_sphere_shape _ _ _)
    (sample_box_shape _ _) ⟨zero_le_one, zero_le_one, zero_le_one⟩ _ rfl _ (Or.inr rfl)).1

/-- C8. For any two box bodies, `detect_collision` reports a contact if and
only if, on each of the three axes, `min_a ≤ max_b` and `min_b ≤ max_a`
(touching boxes do collide); the reported penetration depth is the minimum over
the three axes `k` of `min(max_a,k - min_b,k, max_b,k - min_a,k)`, whatever ties
occur; and for boxes with non-negative half-extents the condition says that the
closed intervals `[min, max]` of the two boxes intersect on all three axes. -/
theorem aabb_aabb_detect (sqrtf : R → R) (a b : RigidBody R) (ha hb : Vector3 R)
    (hA : a.shape = CollisionShape.aabb ha) (hB : b.shape = CollisionShape.aabb hb) :
    ((detect_collision sqrtf a b).isSome = true ↔
      (a.position.x - ha.x ≤ b.position.x + hb.x ∧ b.position.x - hb.x ≤ a.position.x + ha.x) ∧
      (a.position.y - ha.y ≤ b.position.y + hb.y ∧ b.position.y - hb.y ≤ a.position.y + ha.y) ∧
      (a.position.z - ha.z ≤ b.position.z + hb.z ∧ b.position.z - hb.z ≤ a.position.z + ha.z)) ∧
    (∀ info, detect_collision sqrtf a b = some info →
      info.penetration_depth =
        min (min
          (min (a.position.x + ha.x - (b.position.x - hb.x))
            (b.position.x + hb.x - (a.position.x - ha.x)))
          (min (a.position.y + ha.y - (b.position.y - hb.y))
            (b.position.y + hb.y - (a.position.y - ha.y))))
          (min (a.position.z + ha.z - (b.position.z - hb.z))
            (b.position.z + hb.z - (a.position.z - ha.z)))) ∧
    ((0 ≤ ha.x ∧ 0 ≤ ha.y ∧ 0 ≤ ha.z) ∧ (0 ≤ hb.x ∧ 0 ≤ hb.y ∧ 0 ≤ hb.z) →
      ((detect_collision sqrtf a b).isSome = true ↔
        (Set.Icc (a.position.x - ha.x) (a.position.x + ha.x) ∩
          Set.Icc (b.position.x - hb.x) (b.position.x + hb.x)).Nonempty ∧
        (Set.Icc (a.position.y - ha.y) (a.position.y + ha.y) ∩
          Set.Icc (b.position.y - hb.y) (b.position.y + hb.y)).Nonempty ∧
        (Set.Icc (a.position.z - ha.z) (a.position.z + ha.z) ∩
          Set.Icc (b.position.z - hb.z) (b.position.z + hb.z)).Nonempty)) := by
  have hov : aabb_overlap_test a b = true ↔
      (a.position.x - ha.x ≤ b.position.x + hb.x ∧ b.position.x - hb.x ≤ a.position.x + ha.x) ∧
      (a.position.y - ha.y ≤ b.position.y + hb.y ∧ b.position.y - hb.y ≤ a.position.y + ha.y) ∧
      (a.position.z - ha.z ≤ b.position.z + hb.z ∧ b.position.z - hb.z ≤ a.position.z + ha.z) := by
    simp only [aabb_overlap_test, get_aabb_min, get_aabb_max, hA, hB, vector3_create, ge_iff_le,
      Bool.and_eq_true, decide_eq_true_eq, and_assoc]
  have hfirst : (detect_collision sqrtf a b).isSome = true ↔
      (a.position.x - ha.x ≤ b.position.x + hb.x ∧ b.position.x - hb.x ≤ a.position.x + ha.x) ∧
      (a.position.y - ha.y ≤ b.position.y + hb.y ∧ b.position.y - hb.y ≤ a.position.y + ha.y) ∧
      (a.position.z - ha.z ≤ b.position.z + hb.z ∧ b.position.z - hb.z ≤ a.position.z + ha.z) := by
    rw [← hov]
    by_cases hg : aabb_overlap_test a b = true
    · have hg' := hg
      simp only [aabb_overlap_test] at hg'
      simp only [detect_collision, hg, hA, hB, aabb_aabb_collision, hg', if_true,
        Bool.true_eq_false, if_false, Option.isSome_some]
    · simp [detect_collision, hg]
  refine ⟨hfirst, ?_, ?_⟩
  · intro info hinfo
    by_cases hg : aabb_overlap_test a b = true
    · have hg' := hg
      simp only [aabb_overlap_test] at hg'
      simp only [detect_collision, hg, hA, hB, aabb_aabb_collision, hg', if_true,
        Bool.true_eq_false, if_false, Option.some.injEq] at hinfo
      rw [← hinfo]
      simp only [min_axis_select, get_aabb_min, get_aabb_max, hA, hB, vector3_create]
    · simp [detect_collision, hg] at hinfo
  · rintro ⟨⟨a1, a2, a3⟩, ⟨b1, b2, b3⟩⟩
    rw [hfirst, Icc_inter_nonempty_iff _ _ _ _ (by linarith) (by linarith),
      Icc_inter_nonempty_iff _ _ _ _ (by linarith) (by linarith),
      Icc_inter_nonempty_iff _ _ _ _ (by linarith) (by linarith)]

/-- Witness of C8: two boxes of half-extents `(1,1,1)` that touch in a face. -/
theorem aabb_aabb_detect_witness :
    (detect_collision (fun x => x) (sample_box (⟨0, 0, 0⟩ : Vector3 ℚ) ⟨1, 1, 1⟩)
        (sample_box ⟨2, 0, 0⟩ ⟨1, 1, 1⟩)).isSome = true ↔
      (Set.Icc ((sample_box (⟨0, 0, 0⟩ : Vector3 ℚ) ⟨1, 1, 1⟩).position.x - 1)
          ((sample_box (⟨0, 0, 0⟩ : Vector3 ℚ) ⟨1, 1, 1⟩).position.x + 1) ∩
        Set.Icc ((sample_box (⟨2, 0, 0⟩ : Vector3 ℚ) ⟨1, 1, 1⟩).position.x - 1)
          ((sample_box (⟨2, 0, 0⟩ : Vector3 ℚ) ⟨1, 1, 1⟩).position.x + 1)).Nonempty ∧
      (Set.Icc ((sample_box (⟨0, 0, 0⟩ : Vector3 ℚ) ⟨1, 1, 1⟩).position.y - 1)
          ((sample_box (⟨0, 0, 0⟩ : Vector3 ℚ) ⟨1, 1, 1⟩).position.y + 1) ∩
        Set.Icc ((sample_box (⟨2, 0, 0⟩ : Vector3 ℚ) ⟨1, 1, 1⟩).position.y - 1)
          ((sample_box (⟨2, 0, 0⟩ : Vector3 ℚ) ⟨1, 1, 1⟩).position.y + 1)).Nonempty ∧
      (Set.Icc ((sample_box (⟨0, 0, 0⟩ : Vector3 ℚ) ⟨1, 1, 1⟩).position.z - 1)
          ((sample_box (⟨0, 0, 0⟩ : Vector3 ℚ) ⟨1, 1, 1⟩).position.z + 1) ∩
        Set.Icc ((sample_box (⟨2, 0, 0⟩ : Vector3 ℚ) ⟨1, 1, 1⟩).position.z - 1)
          ((sample_box (⟨2, 0, 0⟩ : Vector3 ℚ) ⟨1, 1, 1⟩).position.z + 1)).Nonempty :=
  (aabb_aabb_detect (fun x => x) (sample_box ⟨0, 0, 0⟩ ⟨1, 1, 1⟩)
    (sample_box ⟨2, 0, 0⟩ ⟨1, 1, 1⟩) ⟨1, 1, 1⟩ ⟨1, 1, 1⟩ (sample_box_shape _ _)
    (sample_box_shape _ _)).2.2
    ⟨⟨zero_le_one, zero_le_one, zero_le_one⟩, ⟨zero_le_one, zero_le_one, zero_le_one⟩⟩

/-- C9. For a box (centre `c`, half-extents `h`) lying within the `±FLT_MAX` box
used for planes (its centre does and `h ≥ 0`, or both corners of its bounding
box do) and a plane (normal `n`, distance `d`), passed to `detect_collision` in
either order: a contact is reported if and only if `s = n·c - d` is strictly
less than `e = |h_x·n_x| + |h_y·n_y| + |h_z·n_z|`; in particular `s = e` gives
no contact; the reported penetration is `e - s` and the normal is `n`. -/
theorem aabb_plane_detect (sqrtf : R → R) (bx p : RigidBody R) (h n : Vector3 R) (d : R)
    (hb : bx.shape = CollisionShape.aabb h) (hp : p.shape = CollisionShape.plane n d)
    (hbox : ((0 ≤ h.x ∧ 0 ≤ h.y ∧ 0 ≤ h.z) ∧ in_flt_box bx.position) ∨
      (in_flt_box (get_aabb_min bx) ∧ in_flt_box (get_aabb_max bx))) :
    ∀ res, res = detect_collision sqrtf bx p ∨ res = detect_collision sqrtf p bx →
      (res.isSome = true ↔
        vector3_dot n bx.position - d < |h.x * n.x| + |h.y * n.y| + |h.z * n.z|) ∧
      (vector3_dot n bx.position - d = |h.x * n.x| + |h.y * n.y| + |h.z * n.z| → res = none) ∧
      (∀ info, res = some info →
        info.penetration_depth =
          |h.x * n.x| + |h.y * n.y| + |h.z * n.z| - (vector3_dot n bx.position - d) ∧
        info.normal = n) := by
  have hF : (0 : R) < FLT_MAX := FLT_MAX_pos
  have hg1 : aabb_overlap_test bx p = true := by
    simp only [aabb_overlap_test, get_aabb_min, get_aabb_max, hb, hp, vector3_create, ge_iff_le,
      Bool.and_eq_true, decide_eq_true_eq]
    simp only [in_flt_box, get_aabb_min, get_aabb_max, hb, vector3_create] at hbox
    rcases hbox with ⟨⟨h1, h2, h3⟩, ⟨hx, hy, hz⟩⟩ | ⟨⟨hx, hy, hz⟩, ⟨hx', hy', hz'⟩⟩
    · refine ⟨⟨⟨?_, ?_⟩, ⟨?_, ?_⟩⟩, ⟨?_, ?_⟩⟩ <;> linarith [hx.1, hx.2, hy.1, hy.2, hz.1, hz.2]
    · refine ⟨⟨⟨?_, ?_⟩, ⟨?_, ?_⟩⟩, ⟨?_, ?_⟩⟩ <;>
        linarith [hx.1, hx.2, hy.1, hy.2, hz.1, hz.2, hx'.1, hx'.2, hy'.1, hy'.2, hz'.1, hz'.2]
  have hg2 : aabb_overlap_test p bx = true := by
    simp only [aabb_overlap_test, get_aabb_min, get_aabb_max, hb, hp, vector3_create, ge_iff_le,
      Bool.and_eq_true, decide_eq_true_eq]
    simp only [in_flt_box, get_aabb_min, get_aabb_max, hb, vector3_create] at hbox
    rcases hbox with ⟨⟨h1, h2, h3⟩, ⟨hx, hy, hz⟩⟩ | ⟨⟨hx, hy, hz⟩, ⟨hx', hy', hz'⟩⟩
    · refine ⟨⟨⟨?_, ?_⟩, ⟨?_, ?_⟩⟩, ⟨?_, ?_⟩⟩ <;> linarith [hx.1, hx.2, hy.1, hy.2, hz.1, hz.2]
    · refine ⟨⟨⟨?_, ?_⟩, ⟨?_, ?_⟩⟩, ⟨?_, ?_⟩⟩ <;>
        linarith [hx.1, hx.2, hy.1, hy.2, hz.1, hz.2, hx'.1, hx'.2, hy'.1, hy'.2, hz'.1, hz'.2]
  have e1 : detect_collision sqrtf bx p = aabb_plane_collision bx h n d := by
    simp [detect_collision, hg1, hb, hp]
  have e2 : detect_collision sqrtf p bx = aabb_plane_collision bx h n d := by
    simp [detect_collision, hg2, hb, hp]
  have hdot : vector3_dot bx.position n = vector3_dot n bx.position := by
    simp only [vector3_dot]
    ring
  intro res hres
  have hres' : res = aabb_plane_collision bx h n d := by
    rcases hres with h' | h'
    · rw [h', e1]
    · rw [h', e2]
  subst hres'
  by_cases hd : vector3_dot n bx.position - d < |h.x * n.x| + |h.y * n.y| + |h.z * n.z|
  · simp only [aabb_plane_collision, distance_to_plane, hdot, hd, if_true, Option.isSome_some,
      true_iff, Option.some.injEq]
    refine ⟨trivial, ?_, ?_⟩
    · intro he
      exact absurd he (ne_of_lt hd)
    · intro info hinfo
      rw [← hinfo]
      exact ⟨rfl, rfl⟩
  · simp [aabb_plane_collision, distance_to_plane, hdot, hd]


/-- Witness of C9: the box of half-extents `(1,1,1)` centred 1/2 above the
ground plane. -/
theorem aabb_plane_detect_witness :
    (detect_collision (fun x => x) (sample_box (⟨0, 1 / 2, 0⟩ : Vector3 ℚ) ⟨1, 1, 1⟩)
        (sample_plane ⟨0, 1, 0⟩ 0)).isSome = true ↔
      vector3_dot (⟨0, 1, 0⟩ : Vector3 ℚ)
        (sample_box (⟨0, 1 / 2, 0⟩ : Vector3 ℚ) ⟨1, 1, 1⟩).position - 0 <
          |(1 : ℚ) * 0| + |(1 : ℚ) * 1| + |(1 : ℚ) * 0| :=
  (aabb_plane_detect (fun x => x) (sample_box ⟨0, 1 / 2, 0⟩ ⟨1, 1, 1⟩)
    (sample_plane ⟨0, 1, 0⟩ 0) ⟨1, 1, 1⟩ ⟨0, 1, 0⟩ 0 (sample_box_shape _ _) rfl
    (Or.inl ⟨⟨zero_le_one, zero_le_one, zero_le_one⟩, by
      rw [sample_box_position]
      norm_num [in_flt_box, FLT_MAX]⟩) _ (Or.inl rfl)).1

/-! ## Contact normals -/

/-- C10 (as stated, refuted). A plane initialised by `rigid_body_init_plane` with
the zero vector as normal stores the zero vector, and `detect_collision` of the
unit sphere at the origin against it reports a contact whose normal has length
0, not 1. -/
theorem detect_collision_normal_unit_counterexample :
    initialised Real.sqrt (rigid_body_init_sphere (rigid_body_create 1) ⟨0, 0, 0⟩ 1 1) ∧
    initialised Real.sqrt (rigid_body_init_plane Real.sqrt (rigid_body_create 2) ⟨0, 0, 0⟩ 0) ∧
    ∃ info,
      detect_collision Real.sqrt (rigid_body_init_sphere (rigid_body_create 1) ⟨0, 0, 0⟩ 1 1)
        (rigid_body_init_plane Real.sqrt (rigid_body_create 2) ⟨0, 0, 0⟩ 0) = some info ∧
      vector3_length Real.sqrt info.normal ≠ 1 := by
  refine ⟨Or.inl ⟨_, _, _, _, rfl⟩, Or.inr (Or.inr ⟨_, _, _, rfl⟩), ?_⟩
  have hn : vector3_normalize Real.sqrt (⟨0, 0, 0⟩ : Vector3 ℝ) = vector3_zero := by
    norm_num [vector3_normalize, vector3_length, vector3_length_squared, VECTOR_EPSILON]
  refine ⟨⟨true, ⟨0, 0, 0⟩, ⟨0, 0, 0⟩, 1⟩, ?_, ?_⟩
  · norm_num [detect_collision, aabb_overlap_test, get_aabb_min, get_aabb_max,
      rigid_body_init_sphere, rigid_body_init_plane, rigid_body_set_mass, rigid_body_create,
      vector3_create, FLT_MAX, sphere_plane_collision, distance_to_plane, vector3_dot, hn,
      vector3_zero, vector3_add, vector3_scale]
  · norm_num [vector3_length, vector3_length_squared]

/-- C10 (amended). For all bodies initialised through `rigid_body_init_sphere`,
`rigid_body_init_aabb` or `rigid_body_init_plane`, every plane being given a
normal of length at least `VECTOR_EPSILON`, every contact reported by
`detect_collision` has a normal of length exactly 1, including the fallback
normal `(1,0,0)` used for coincident spheres. -/
theorem detect_collision_normal_unit (sqrtf : R → R) (hs : IsSqrt sqrtf) (a b : RigidBody R)
    (ha : initialised_nondegenerate sqrtf a) (hb : initialised_nondegenerate sqrtf b)
    (info : CollisionInfo R) (h : detect_collision sqrtf a b = some info) :
    vector3_length sqrtf info.normal = 1 :=
  detect_collision_unit_normal hs a b (unit_plane_of_initialised hs a ha)
    (unit_plane_of_initialised hs b hb) info h


/-- Witness of C10 (amended): the unit sphere at the origin against the ground
plane initialised with normal `(0,2,0)`. -/
theorem detect_collision_normal_unit_witness :
    vector3_length Real.sqrt
      (⟨true, ⟨0, -1, 0⟩, ⟨0, 1, 0⟩, 1⟩ : CollisionInfo ℝ).normal = 1 :=
  detect_collision_normal_unit Real.sqrt isSqrt_real
    (rigid_body_init_sphere (rigid_body_create 1) ⟨0, 0, 0⟩ 1 1)
    (rigid_body_init_plane Real.sqrt (rigid_body_create 2) ⟨0, 2, 0⟩ 0)
    (Or.inl ⟨_, _, _, _, rfl⟩)
    (Or.inr (Or.inr ⟨_, _, _, by
      have h4 : Real.sqrt 4 = 2 := sqrt_unique isSqrt_real 4 2 (by norm_num) (by norm_num)
      norm_num [vector3_length, vector3_length_squared, VECTOR_EPSILON, h4], rfl⟩))
    ⟨true, ⟨0, -1, 0⟩, ⟨0, 1, 0⟩, 1⟩
    (by
      have h4 : Real.sqrt 4 = 2 := sqrt_unique isSqrt_real 4 2 (by norm_num) (by norm_num)
      have hn : vector3_normalize Real.sqrt (⟨0, 2, 0⟩ : Vector3 ℝ) = ⟨0, 1, 0⟩ := by
        norm_num [vector3_normalize, vector3_length, vector3_length_squared, VECTOR_EPSILON, h4,
          vector3_scale]
      norm_num [detect_collision, aabb_overlap_test, get_aabb_min, get_aabb_max,
        rigid_body_init_sphere, rigid_body_init_plane, rigid_body_set_mass, rigid_body_create,
        vector3_create, FLT_MAX, sphere_plane_collision, distance_to_plane, vector3_dot, hn,
        vector3_zero, vector3_add, vector3_scale])

/-! ## Positional separation and the direction of the normal -/

/-- C3 (as stated, refuted), at two inputs the code handles by its fallback
normals.  Two dynamic unit spheres whose centres are `1e-6 = VECTOR_EPSILON`
apart along `-x`: `detect_collision` reports the arbitrary normal `(1,0,0)` and
penetration `2 - 1e-6`, `separate_bodies` moves them to distance `2 - 2e-6`, and
the same test reports a contact of penetration `2e-6`.  A dynamic sphere of radius
1/2 whose centre is the centre of a dynamic box of half-extents `(2,2,2)`:
`detect_collision(box, sphere)` reports the fallback normal `(-1,0,0)` and
penetration `r - d = 1/2`, `separate_bodies` moves the bodies 1/2 apart, the
centre stays inside the box, and the same test reports penetration 1/2 again. -/
theorem separate_bodies_clears_penetration_counterexample :
    (∃ info info',
      detect_collision Real.sqrt (sample_sphere ⟨0, 0, 0⟩ ⟨0, 0, 0⟩ 1)
        (sample_sphere ⟨-1 / 1000000, 0, 0⟩ ⟨0, 0, 0⟩ 1) = some info ∧
      detect_collision Real.sqrt
        (separate_bodies info (sample_sphere ⟨0, 0, 0⟩ ⟨0, 0, 0⟩ 1)
          (sample_sphere ⟨-1 / 1000000, 0, 0⟩ ⟨0, 0, 0⟩ 1)).1
        (separate_bodies info (sample_sphere ⟨0, 0, 0⟩ ⟨0, 0, 0⟩ 1)
          (sample_sphere ⟨-1 / 1000000, 0, 0⟩ ⟨0, 0, 0⟩ 1)).2 = some info' ∧
      info'.penetration_depth ≠ 0) ∧
    ((sample_box (⟨0, 0, 0⟩ : Vector3 ℝ) ⟨2, 2, 2⟩).is_static = false ∧
    0 < (sample_box (⟨0, 0, 0⟩ : Vector3 ℝ) ⟨2, 2, 2⟩).inverse_mass ∧
    ∃ info info',
      detect_collision Real.sqrt (sample_box ⟨0, 0, 0⟩ ⟨2, 2, 2⟩)
        (sample_sphere ⟨0, 0, 0⟩ ⟨0, 0, 0⟩ (1 / 2)) = some info ∧
      detect_collision Real.sqrt
        (separate_bodies info (sample_box ⟨0, 0, 0⟩ ⟨2, 2, 2⟩)
          (sample_sphere ⟨0, 0, 0⟩ ⟨0, 0, 0⟩ (1 / 2))).1
        (separate_bodies info (sample_box ⟨0, 0, 0⟩ ⟨2, 2, 2⟩)
          (sample_sphere ⟨0, 0, 0⟩ ⟨0, 0, 0⟩ (1 / 2))).2 = some info' ∧
      info'.penetration_depth ≠ 0) :=
  ⟨near_coincident_spheres_stay_in_contact, sphere_inside_box_stays_in_contact⟩

/-- C3 (amended). For every contact reported by `detect_collision(body_a, body_b)`
with total inverse mass `w > 0` (static bodies having inverse mass 0; `w > 0`
holds as soon as one body has positive inverse mass and the other a
non-negative one), where the pair is two spheres whose centres are more than
`VECTOR_EPSILON` apart, or a box and a sphere (in this order) whose centre is
more than `VECTOR_EPSILON` away from the box, or a static plane with a unit
normal and a sphere or a box (in this order): `separate_bodies` makes the full
penetration vanish; the same narrow-phase test run on the moved bodies reports
no contact or a contact of penetration depth 0. -/
theorem separate_bodies_clears_penetration (sqrtf : R → R) (hs : IsSqrt sqrtf)
    (a b : RigidBody R) (hpair : separable_pair sqrtf a b)
    (hw : 0 < a.inverse_mass + b.inverse_mass)
    (hsa : a.is_static = true → a.inverse_mass = 0)
    (hsb : b.is_static = true → b.inverse_mass = 0)
    (info : CollisionInfo R) (h : detect_collision sqrtf a b = some info) :
    detect_collision sqrtf (separate_bodies info a b).1 (separate_bodies info a b).2 = none ∨
    ∃ info', detect_collision sqrtf (separate_bodies info a b).1 (separate_bodies info a b).2 =
        some info' ∧ info'.penetration_depth = 0 := by
  left
  unfold separable_pair at hpair
  split at hpair
  · rename_i ra rb hA hB
    exact separate_sphere_sphere sqrtf hs a b ra rb hA hB hpair hw hsa hsb info h
  · rename_i hh r hA hB
    exact separate_aabb_sphere sqrtf hs a b hh r hA hB hpair hw hsa hsb info h
  · rename_i n d r hA hB
    exact separate_plane_sphere sqrtf a b n d r hA hB (length_squared_of_unit hs n hpair.2)
      hpair.1 hw hsa hsb info h
  · rename_i n d hh hA hB
    exact separate_plane_aabb sqrtf a b n d hh hA hB (length_squared_of_unit hs n hpair.2)
      hpair.1 hw hsa hsb info h
  · exact absurd hpair id


/-- Witness of C3 (amended): the unit sphere centred 1/2 above the static ground
plane, passed as `(plane, sphere)`. -/
theorem separate_bodies_clears_penetration_witness :
    detect_collision Real.sqrt
        (separate_bodies (⟨true, ⟨0, -1 / 2, 0⟩, ⟨0, 1, 0⟩, 1 / 2⟩ : CollisionInfo ℝ)
          (sample_plane ⟨0, 1, 0⟩ 0) (sample_sphere ⟨0, 1 / 2, 0⟩ ⟨0, 0, 0⟩ 1)).1
        (separate_bodies (⟨true, ⟨0, -1 / 2, 0⟩, ⟨0, 1, 0⟩, 1 / 2⟩ : CollisionInfo ℝ)
          (sample_plane ⟨0, 1, 0⟩ 0) (sample_sphere ⟨0, 1 / 2, 0⟩ ⟨0, 0, 0⟩ 1)).2 = none ∨
    ∃ info', detect_collision Real.sqrt
        (separate_bodies (⟨true, ⟨0, -1 / 2, 0⟩, ⟨0, 1, 0⟩, 1 / 2⟩ : CollisionInfo ℝ)
          (sample_plane ⟨0, 1, 0⟩ 0) (sample_sphere ⟨0, 1 / 2, 0⟩ ⟨0, 0, 0⟩ 1)).1
        (separate_bodies (⟨true, ⟨0, -1 / 2, 0⟩, ⟨0, 1, 0⟩, 1 / 2⟩ : CollisionInfo ℝ)
          (sample_plane ⟨0, 1, 0⟩ 0) (sample_sphere ⟨0, 1 / 2, 0⟩ ⟨0, 0, 0⟩ 1)).2 =
        some info' ∧ info'.penetration_depth = 0 :=
  separate_bodies_clears_penetration Real.sqrt isSqrt_real
    (sample_plane ⟨0, 1, 0⟩ 0) (sample_sphere ⟨0, 1 / 2, 0⟩ ⟨0, 0, 0⟩ 1)
    (by
      norm_num [separable_pair, sample_plane, sample_sphere, rigid_body_init_sphere,
        rigid_body_set_mass, rigid_body_create, vector3_length, vector3_length_squared])
    (by norm_num [sample_plane, sample_sphere_inverse_mass])
    (by simp [sample_plane])
    (by simp [sample_sphere_static])
    ⟨true, ⟨0, -1 / 2, 0⟩, ⟨0, 1, 0⟩, 1 / 2⟩
    (by
      norm_num [detect_collision, aabb_overlap_test, get_aabb_min, get_aabb_max, sample_plane,
        sample_sphere, rigid_body_init_sphere, rigid_body_set_mass, rigid_body_create,
        vector3_create, FLT_MAX, sphere_plane_collision, distance_to_plane, vector3_dot,
        vector3_zero, vector3_add, vector3_scale])

/-- C4 (the code at two failing inputs). For the boxes of half-extents `(1,1,1)`
centred at `(0,0,0)` and `(1,0,0)`, `detect_collision(a, b)` reports the normal
`(-1,0,0)`, which points from `b` to `a`: `normal · (position_b - position_a) = -1`.
For the sphere of radius 5/2 at `(3,0,0)` and the box of half-extents `(1,1,1)`
at the origin, `detect_collision(sphere, box)` reports the normal `(1,0,0)`,
which points from the box to the sphere: `normal · (position_b - position_a) = -3`. -/
theorem detect_collision_normal_from_b_to_a :
    (∃ info,
      detect_collision Real.sqrt (sample_box ⟨0, 0, 0⟩ ⟨1, 1, 1⟩)
        (sample_box ⟨1, 0, 0⟩ ⟨1, 1, 1⟩) = some info ∧
      info.normal = ⟨-1, 0, 0⟩ ∧
      vector3_dot info.normal
        (vector3_subtract (sample_box (⟨1, 0, 0⟩ : Vector3 ℝ) ⟨1, 1, 1⟩).position
          (sample_box (⟨0, 0, 0⟩ : Vector3 ℝ) ⟨1, 1, 1⟩).position) = -1) ∧
    (∃ info,
      detect_collision Real.sqrt (sample_sphere ⟨3, 0, 0⟩ ⟨0, 0, 0⟩ (5 / 2))
        (sample_box ⟨0, 0, 0⟩ ⟨1, 1, 1⟩) = some info ∧
      info.normal = ⟨1, 0, 0⟩ ∧
      vector3_dot info.normal
        (vector3_subtract (sample_box (⟨0, 0, 0⟩ : Vector3 ℝ) ⟨1, 1, 1⟩).position
          (sample_sphere (⟨3, 0, 0⟩ : Vector3 ℝ) ⟨0, 0, 0⟩ (5 / 2)).position) = -3) := by
  constructor
  · refine ⟨⟨true, ⟨1 / 2, 0, 0⟩, ⟨-1, 0, 0⟩, 1⟩, ?_, rfl, ?_⟩
    · norm_num [detect_collision, aabb_overlap_test, get_aabb_min, get_aabb_max, sample_box,
        rigid_body_init_aabb, rigid_body_set_mass, rigid_body_create, vector3_create,
        aabb_aabb_collision, vector3_add, vector3_scale]
    · norm_num [vector3_dot, vector3_subtract, sample_box_position]
  · have h4 : Real.sqrt 4 = 2 := sqrt_unique isSqrt_real 4 2 (by norm_num) (by norm_num)
    refine ⟨⟨true, ⟨1, 0, 0⟩, ⟨1, 0, 0⟩, 1 / 2⟩, ?_, rfl, ?_⟩
    · norm_num [detect_collision, aabb_overlap_test, get_aabb_min, get_aabb_max, sample_box,
        sample_sphere, rigid_body_init_sphere,
        rigid_body_init_aabb, rigid_body_set_mass, rigid_body_create, vector3_create,
        sphere_aabb_collision, closest_point_on_aabb, vector3_subtract, vector3_negate,
        vector3_normalize, vector3_length, vector3_length_squared, VECTOR_EPSILON,
        vector3_add, vector3_scale, h4]
    · norm_num [vector3_dot, vector3_subtract, sample_box_position, sample_sphere_position]

/-! ## Integration -/

/-- C12. For every non-static, non-sleeping body and every `dt`, `integrate_euler`
computes `a = force·inverse_mass` and `α = torque·inverse_mass`, sets velocity to
`v + a·dt` and angular velocity to `ω + α·dt`, and then advances position and
rotation with the already updated velocities: position `= x + (v + a·dt)·dt` and
rotation `= θ + (ω + α·dt)·dt`. -/
theorem integrate_euler_formula (body : RigidBody R) (dt : R)
    (hstatic : body.is_static = false) (hsleep : body.is_sleeping = false) :
    (integrate_euler body dt).acceleration =
      vector3_scale body.force_accumulator body.inverse_mass ∧
    (integrate_euler body dt).angular_acceleration =
      vector3_scale body.torque_accumulator body.inverse_mass ∧
    (integrate_euler body dt).velocity =
      vector3_add body.velocity
        (vector3_scale (vector3_scale body.force_accumulator body.inverse_mass) dt) ∧
    (integrate_euler body dt).angular_velocity =
      vector3_add body.angular_velocity
        (vector3_scale (vector3_scale body.torque_accumulator body.inverse_mass) dt) ∧
    (integrate_euler body dt).position =
      vector3_add body.position
        (vector3_scale
          (vector3_add body.velocity
            (vector3_scale (vector3_scale body.force_accumulator body.inverse_mass) dt)) dt) ∧
    (integrate_euler body dt).rotation =
      vector3_add body.rotation
        (vector3_scale
          (vector3_add body.angular_velocity
            (vector3_scale (vector3_scale body.torque_accumulator body.inverse_mass) dt)) dt) := by
  simp [integrate_euler, update_acceleration, rigid_body_clear_forces, hstatic, hsleep]

/-- Witness of C12: a sphere of mass 1 moving at `(1,0,0)`, for `dt = 1/2`: the
new position uses the new velocity. -/
theorem integrate_euler_formula_witness :
    (integrate_euler (sample_sphere (⟨0, 0, 0⟩ : Vector3 ℚ) ⟨1, 0, 0⟩ 1) (1 / 2)).position =
      vector3_add (sample_sphere (⟨0, 0, 0⟩ : Vector3 ℚ) ⟨1, 0, 0⟩ 1).position
        (vector3_scale
          (vector3_add (sample_sphere (⟨0, 0, 0⟩ : Vector3 ℚ) ⟨1, 0, 0⟩ 1).velocity
            (vector3_scale
              (vector3_scale (sample_sphere (⟨0, 0, 0⟩ : Vector3 ℚ) ⟨1, 0, 0⟩ 1).force_accumulator
                (sample_sphere (⟨0, 0, 0⟩ : Vector3 ℚ) ⟨1, 0, 0⟩ 1).inverse_mass) (1 / 2)))
          (1 / 2)) :=
  (integrate_euler_formula (sample_sphere ⟨0, 0, 0⟩ ⟨1, 0, 0⟩ 1) (1 / 2)
    (sample_sphere_static _ _ _) (sample_sphere_sleeping _ _ _)).2.2.2.2.1

/-- C13. For every non-static, non-sleeping body and every `dt`, `integrate_verlet`
takes `a_prev` to be the acceleration stored in the body on entry, recomputes
`a = force·inverse_mass`, sets position to `x + v·dt + ½·a·dt²` using the
velocity `v` on entry, and sets velocity to `v + ½·(a_prev + a)·dt`; rotation and
angular velocity are updated by the same formulas with `α` and `ω`. -/
theorem integrate_verlet_formula (body : RigidBody R) (dt : R)
    (hstatic : body.is_static = false) (hsleep : body.is_sleeping = false) :
    (integrate_verlet body dt).acceleration =
      vector3_scale body.force_accumulator body.inverse_mass ∧
    (integrate_verlet body dt).angular_acceleration =
      vector3_scale body.torque_accumulator body.inverse_mass ∧
    (integrate_verlet body dt).position =
      vector3_add body.position
        (vector3_add (vector3_scale body.velocity dt)
          (vector3_scale (vector3_scale body.force_accumulator body.inverse_mass)
            (1 / 2 * dt * dt))) ∧
    (integrate_verlet body dt).velocity =
      vector3_add body.velocity
        (vector3_scale
          (vector3_scale
            (vector3_add body.acceleration
              (vector3_scale body.force_accumulator body.inverse_mass)) (1 / 2)) dt) ∧
    (integrate_verlet body dt).rotation =
      vector3_add body.rotation
        (vector3_add (vector3_scale body.angular_velocity dt)
          (vector3_scale (vector3_scale body.torque_accumulator body.inverse_mass)
            (1 / 2 * dt * dt))) ∧
    (integrate_verlet body dt).angular_velocity =
      vector3_add body.angular_velocity
        (vector3_scale
          (vector3_scale
            (vector3_add body.angular_acceleration
              (vector3_scale body.torque_accumulator body.inverse_mass)) (1 / 2)) dt) := by
  simp [integrate_verlet, update_acceleration, rigid_body_clear_forces, hstatic, hsleep]

/-- Witness of C13: a sphere of mass 1 moving at `(1,0,0)`, for `dt = 1/2`. -/
theorem integrate_verlet_formula_witness :
    (integrate_verlet (sample_sphere (⟨0, 0, 0⟩ : Vector3 ℚ) ⟨1, 0, 0⟩ 1) (1 / 2)).velocity =
      vector3_add (sample_sphere (⟨0, 0, 0⟩ : Vector3 ℚ) ⟨1, 0, 0⟩ 1).velocity
        (vector3_scale
          (vector3_scale
            (vector3_add (sample_sphere (⟨0, 0, 0⟩ : Vector3 ℚ) ⟨1, 0, 0⟩ 1).acceleration
              (vector3_scale
                (sample_sphere (⟨0, 0, 0⟩ : Vector3 ℚ) ⟨1, 0, 0⟩ 1).force_accumulator
                (sample_sphere (⟨0, 0, 0⟩ : Vector3 ℚ) ⟨1, 0, 0⟩ 1).inverse_mass))
            (1 / 2)) (1 / 2)) :=
  (integrate_verlet_formula (sample_sphere ⟨0, 0, 0⟩ ⟨1, 0, 0⟩ 1) (1 / 2)
    (sample_sphere_static _ _ _) (sample_sphere_sleeping _ _ _)).2.2.2.1

/-- C14. For every integration method value (`EULER`, `VERLET`, `RK4` or any
other) and every `dt`, `integrate_body` leaves a body that is static or sleeping
entirely unchanged, and for every other body returns with the force and torque
accumulators equal to the zero vector. -/
theorem integrate_body_frame (body : RigidBody R) (dt : R) (method : IntegrationMethod) :
    (body.is_static = true ∨ body.is_sleeping = true → integrate_body body dt method = body) ∧
    (body.is_static = false ∧ body.is_sleeping = false →
      (integrate_body body dt method).force_accumulator = vector3_zero ∧
      (integrate_body body dt method).torque_accumulator = vector3_zero) := by
  constructor
  · intro h
    unfold integrate_body integrate_euler integrate_verlet integrate_rk4
    simp only [if_pos h]
    split_ifs <;> rfl
  · rintro ⟨h1, h2⟩
    have h : ¬ (body.is_static = true ∨ body.is_sleeping = true) := by simp [h1, h2]
    unfold integrate_body integrate_euler integrate_verlet integrate_rk4
    simp only [if_neg h]
    split_ifs <;> exact ⟨rfl, rfl⟩

/-- Witness of C14: the static ground plane under the method value 7. -/
theorem integrate_body_frame_witness :
    integrate_body (sample_plane (⟨0, 1, 0⟩ : Vector3 ℚ) 0) (1 / 60) 7 =
      sample_plane (⟨0, 1, 0⟩ : Vector3 ℚ) 0 :=
  (integrate_body_frame (sample_plane ⟨0, 1, 0⟩ 0) (1 / 60) 7).1 (Or.inl rfl)

/-! ## Invariants of the public body operations -/

/-- C17. Starting from a body returned by `rigid_body_create`, after any sequence
of `rigid_body_init_sphere`, `rigid_body_init_aabb`, `rigid_body_init_plane`,
`rigid_body_set_mass`, `rigid_body_set_static` and the other public body
operations, `inverse_mass` is 0 if and only if `is_static` is true or `mass` is
`+∞`. -/
theorem inverse_mass_zero_iff (sqrtf : R → R) (body : RigidBody R)
    (h : body_reachable sqrtf body) :
    body.inverse_mass = 0 ↔ (body.is_static = true ∨ body.mass = Mass.infinity) := by
  have hinv := mass_invariant_reachable sqrtf body h
  unfold mass_invariant at hinv
  cases hm : body.mass with
  | finite m =>
    rw [hm] at hinv
    obtain ⟨hpos, hi, hs⟩ := hinv
    constructor
    · intro h0
      rw [hi] at h0
      exact absurd h0 (one_div_ne_zero (ne_of_gt hpos))
    · rintro (h1 | h1)
      · rw [hs] at h1
        exact absurd h1 (by decide)
      · exact absurd h1 (by simp)
  | infinity =>
    rw [hm] at hinv
    exact ⟨fun _ => Or.inr rfl, fun _ => hinv⟩

/-- Witness of C17: a sphere of mass 2 that is made static and dynamic again. -/
theorem inverse_mass_zero_iff_witness :
    (run_body_ops Real.sqrt (rigid_body_create 1 : RigidBody ℝ)
        [BodyOp.init_sphere ⟨0, 0, 0⟩ 1 2, BodyOp.set_static true,
          BodyOp.set_static false]).inverse_mass = 0 ↔
      ((run_body_ops Real.sqrt (rigid_body_create 1 : RigidBody ℝ)
        [BodyOp.init_sphere ⟨0, 0, 0⟩ 1 2, BodyOp.set_static true,
          BodyOp.set_static false]).is_static = true ∨
      (run_body_ops Real.sqrt (rigid_body_create 1 : RigidBody ℝ)
        [BodyOp.init_sphere ⟨0, 0, 0⟩ 1 2, BodyOp.set_static true,
          BodyOp.set_static false]).mass = Mass.infinity) :=
  inverse_mass_zero_iff Real.sqrt _ ⟨1, _, rfl⟩

/-- C18 (as stated, refuted). The body `rigid_body_set_mass(body, 0)` leaves of a
fresh body has inverse mass 0 and mass `+∞` and is not static. -/
theorem mass_static_equivalence_counterexample :
    body_reachable Real.sqrt
      (rigid_body_set_mass (rigid_body_create 1 : RigidBody ℝ) (Mass.finite 0)) ∧
    (rigid_body_set_mass (rigid_body_create 1 : RigidBody ℝ) (Mass.finite 0)).inverse_mass = 0 ∧
    (rigid_body_set_mass (rigid_body_create 1 : RigidBody ℝ) (Mass.finite 0)).mass =
      Mass.infinity ∧
    (rigid_body_set_mass (rigid_body_create 1 : RigidBody ℝ) (Mass.finite 0)).is_static =
      false := by
  refine ⟨⟨1, [BodyOp.set_mass (Mass.finite 0)], rfl⟩, ?_, ?_, ?_⟩ <;>
    simp [rigid_body_set_mass, rigid_body_create]

/-- C18 (amended). For every body in a state reachable from `rigid_body_create`
through the public body operations, `inverse_mass = 0` and `mass = +∞` are
equivalent, and `is_static = true` implies both. -/
theorem inverse_mass_zero_iff_infinite (sqrtf : R → R) (body : RigidBody R)
    (h : body_reachable sqrtf body) :
    (body.inverse_mass = 0 ↔ body.mass = Mass.infinity) ∧
    (body.is_static = true → body.mass = Mass.infinity ∧ body.inverse_mass = 0) := by
  have hinv := mass_invariant_reachable sqrtf body h
  unfold mass_invariant at hinv
  cases hm : body.mass with
  | finite m =>
    rw [hm] at hinv
    obtain ⟨hpos, hi, hs⟩ := hinv
    refine ⟨⟨fun h0 => ?_, fun h1 => absurd h1 (by simp)⟩, fun h1 => ?_⟩
    · rw [hi] at h0
      exact absurd h0 (one_div_ne_zero (ne_of_gt hpos))
    · rw [hs] at h1
      exact absurd h1 (by decide)
  | infinity =>
    rw [hm] at hinv
    exact ⟨⟨fun _ => rfl, fun _ => hinv⟩, fun _ => ⟨rfl, hinv⟩⟩

/-- Witness of C18 (amended): the static body made from a fresh one. -/
theorem inverse_mass_zero_iff_infinite_witness :
    (run_body_ops Real.sqrt (rigid_body_create 1 : RigidBody ℝ)
      [BodyOp.set_static true]).mass = Mass.infinity ∧
    (run_body_ops Real.sqrt (rigid_body_create 1 : RigidBody ℝ)
      [BodyOp.set_static true]).inverse_mass = 0 :=
  (inverse_mass_zero_iff_infinite Real.sqrt _ ⟨1, _, rfl⟩).2 rfl

/-- C19 (as stated, refuted). After `rigid_body_init_plane`, the calls
`rigid_body_set_static(body, false)` and `rigid_body_set_position(body, (1,2,3))`
leave a body that is not static and sits at `(1,2,3)`. -/
theorem plane_stays_static_counterexample :
    (run_body_ops Real.sqrt
      (rigid_body_init_plane Real.sqrt (rigid_body_create 1 : RigidBody ℝ) ⟨0, 1, 0⟩ 0)
      [BodyOp.set_static false, BodyOp.set_position ⟨1, 2, 3⟩]).is_static = false ∧
    (run_body_ops Real.sqrt
      (rigid_body_init_plane Real.sqrt (rigid_body_create 1 : RigidBody ℝ) ⟨0, 1, 0⟩ 0)
      [BodyOp.set_static false, BodyOp.set_position ⟨1, 2, 3⟩]).position = ⟨1, 2, 3⟩ := by
  constructor <;>
    simp [run_body_ops, BodyOp.run, rigid_body_set_static, rigid_body_set_mass,
      rigid_body_set_position, rigid_body_init_plane]

/-- C19 (amended). For every body initialised by `rigid_body_init_plane`, after
any sequence of subsequent public body operations other than
`rigid_body_set_static(body, false)` and a re-initialisation as a sphere or a
box (so: `set_position`, `set_velocity`, `set_mass`, `set_static(true)`,
`set_restitution`, `set_friction`, force, torque and impulse application,
`clear_forces`, `init_plane`), the body is still static and its position is
still the zero vector. -/
theorem plane_stays_static (sqrtf : R → R) (body : RigidBody R) (normal : Vector3 R)
    (distance : R) (ops : List (BodyOp R)) (hops : ∀ op ∈ ops, op.keeps_plane) :
    (run_body_ops sqrtf (rigid_body_init_plane sqrtf body normal distance) ops).is_static =
      true ∧
    (run_body_ops sqrtf (rigid_body_init_plane sqrtf body normal distance) ops).position =
      vector3_zero := by
  have key : ∀ (l : List (BodyOp R)) (b : RigidBody R), (∀ op ∈ l, op.keeps_plane) →
      b.is_static = true ∧ b.position = vector3_zero →
      (run_body_ops sqrtf b l).is_static = true ∧
        (run_body_ops sqrtf b l).position = vector3_zero := by
    intro l
    induction l with
    | nil => exact fun b _ hb => hb
    | cons op rest ih =>
      intro b hl hb
      exact ih (BodyOp.run sqrtf b op) (fun o ho => hl o (List.mem_cons_of_mem _ ho))
        (keeps_plane_run sqrtf b op (hl op (List.mem_cons_self _ _)) hb)
  exact key ops _ hops ⟨rfl, rfl⟩

/-- Witness of C19 (amended): a plane on which a position, a mass and an impulse
are set. -/
theorem plane_stays_static_witness :
    (run_body_ops Real.sqrt
      (rigid_body_init_plane Real.sqrt (rigid_body_create 1 : RigidBody ℝ) ⟨0, 1, 0⟩ 0)
      [BodyOp.set_position ⟨1, 2, 3⟩, BodyOp.set_mass (Mass.finite 5),
        BodyOp.add_impulse ⟨1, 0, 0⟩]).is_static = true ∧
    (run_body_ops Real.sqrt
      (rigid_body_init_plane Real.sqrt (rigid_body_create 1 : RigidBody ℝ) ⟨0, 1, 0⟩ 0)
      [BodyOp.set_position ⟨1, 2, 3⟩, BodyOp.set_mass (Mass.finite 5),
        BodyOp.add_impulse ⟨1, 0, 0⟩]).position = vector3_zero :=
  plane_stays_static Real.sqrt (rigid_body_create 1) ⟨0, 1, 0⟩ 0 _ (by
    intro op hop
    simp only [List.mem_cons, List.mem_singleton, List.not_mem_nil, or_false] at hop
    rcases hop with rfl | rfl | rfl <;> exact trivial)

/-- C20. Starting from a body returned by `rigid_body_create`, after any sequence
of public body operations with arbitrary arguments the body's restitution lies
in `[0,1]` and its friction is `≥ 0`; `rigid_body_set_restitution(r)` stores
`min(1, max(0, r))` and `rigid_body_set_friction(f)` stores `max(0, f)`. -/
theorem surface_coefficients_clamped (sqrtf : R → R) :
    (∀ body : RigidBody R, body_reachable sqrtf body →
      (0 ≤ body.restitution ∧ body.restitution ≤ 1) ∧ 0 ≤ body.friction) ∧
    (∀ (body : RigidBody R) (r : R),
      (rigid_body_set_restitution body r).restitution = min 1 (max 0 r)) ∧
    (∀ (body : RigidBody R) (f : R),
      (rigid_body_set_friction body f).friction = max 0 f) := by
  refine ⟨?_, ?_, ?_⟩
  · rintro body ⟨n, ops, rfl⟩
    refine run_body_ops_induction sqrtf surface_invariant (surface_invariant_run sqrtf) ops _ ?_
    norm_num [surface_invariant, rigid_body_create]
  · intro body r
    show max 0 (min 1 r) = min 1 (max 0 r)
    rcases le_total r 0 with h0 | h0
    · rw [max_eq_left h0, min_eq_right (le_trans h0 zero_le_one), max_eq_left h0,
        min_eq_right zero_le_one]
    · rw [max_eq_right h0]
      rcases le_total r 1 with h1 | h1
      · rw [min_eq_right h1, max_eq_right h0]
      · rw [min_eq_left h1, max_eq_right zero_le_one]
  · intro body f
    rfl

/-- Witness of C20: a body whose restitution is set to 7 and friction to -3. -/
theorem surface_coefficients_clamped_witness :
    (0 ≤ (run_body_ops Real.sqrt (rigid_body_create 1 : RigidBody ℝ)
        [BodyOp.set_restitution 7, BodyOp.set_friction (-3)]).restitution ∧
      (run_body_ops Real.sqrt (rigid_body_create 1 : RigidBody ℝ)
        [BodyOp.set_restitution 7, BodyOp.set_friction (-3)]).restitution ≤ 1) ∧
    0 ≤ (run_body_ops Real.sqrt (rigid_body_create 1 : RigidBody ℝ)
        [BodyOp.set_restitution 7, BodyOp.set_friction (-3)]).friction :=
  (surface_coefficients_clamped Real.sqrt).1 _ ⟨1, _, rfl⟩

/-! ## Collision response: friction -/

/-- C15 (amended). In every world reachable through the public body and world
operations, `physics_world_step_with_dt` and `physics_world_step` leave every body
with both accumulators zero or both as they were, and zero for every body that
was neither static nor sleeping when the world is not paused (and `dt > 0`). -/
theorem step_clears_awake_accumulators (sqrtf : R → R) (scale_inf : Vector3 R → Vector3 R)
    (world : PhysicsWorld R) (hw : WorldReachable sqrtf scale_inf any_call world) (dt : R)
    (i : Nat) (body : RigidBody R) (hb : world.bodies.get? i = some body) :
    (∃ after,
      (physics_world_step_with_dt sqrtf scale_inf world dt).bodies.get? i = some after ∧
      cleared_or_kept body after ∧
      (world.is_paused = false → 0 < dt → body.is_static = false →
        body.is_sleeping = false →
        after.force_accumulator = vector3_zero ∧ after.torque_accumulator = vector3_zero)) ∧
    (∃ after,
      (physics_world_step sqrtf scale_inf world).bodies.get? i = some after ∧
      cleared_or_kept body after ∧
      (world.is_paused = false → body.is_static = false → body.is_sleeping = false →
        after.force_accumulator = vector3_zero ∧ after.torque_accumulator = vector3_zero)) := by
  obtain ⟨hn, ht⟩ := settings_reachable sqrtf scale_inf any_call world hw
  have key : ∀ d : R, ∃ after,
      (physics_world_step_with_dt sqrtf scale_inf world d).bodies.get? i = some after ∧
      cleared_or_kept body after ∧
      (world.is_paused = false → 0 < d → body.is_static = false →
        body.is_sleeping = false →
        after.force_accumulator = vector3_zero ∧ after.torque_accumulator = vector3_zero) := by
    intro d
    obtain ⟨after, ha, hk⟩ := rel_all_get (cleared_or_kept_step sqrtf scale_inf world d) i body hb
    refine ⟨after, ha, hk, fun hp hd hs hz => ?_⟩
    obtain ⟨after2, ha2, hk2⟩ := rel_all_get
      (cleared_if_awake_step sqrtf scale_inf world d hp hd (le_of_eq hn.symm)) i body hb
    rw [ha] at ha2
    rw [Option.some.inj ha2]
    exact hk2.2 hs hz
  refine ⟨key dt, ?_⟩
  obtain ⟨after, ha, hk, hz⟩ := key world.timestep
  exact ⟨after, ha, hk, fun hp => hz hp ht⟩

/-- Witness of C15 (amended): a fresh body is added to the initial world, given
the force `(1,0,0)` and stepped; both its accumulators are zero afterwards. -/
theorem step_clears_awake_accumulators_witness :
    WorldReachable Real.sqrt id any_call
      (WorldOp.run Real.sqrt id
        (WorldOp.run Real.sqrt id (physics_world_init : PhysicsWorld ℝ) (WorldOp.add_body 1))
        (WorldOp.body_op 0 (BodyOp.add_force (vector3_create 1 0 0)))) ∧
    ∃ after,
      (physics_world_step Real.sqrt id
        (WorldOp.run Real.sqrt id
          (WorldOp.run Real.sqrt id (physics_world_init : PhysicsWorld ℝ) (WorldOp.add_body 1))
          (WorldOp.body_op 0 (BodyOp.add_force (vector3_create 1 0 0))))).bodies.get? 0 =
        some after ∧
      after.force_accumulator = vector3_zero ∧ after.torque_accumulator = vector3_zero := by
  have hw : WorldReachable Real.sqrt id any_call
      (WorldOp.run Real.sqrt id
        (WorldOp.run Real.sqrt id (physics_world_init : PhysicsWorld ℝ) (WorldOp.add_body 1))
        (WorldOp.body_op 0 (BodyOp.add_force (vector3_create 1 0 0)))) :=
    WorldReachable.call _ _ (WorldReachable.call _ _ WorldReachable.init trivial) trivial
  obtain ⟨after, ha, _, hz⟩ := (step_clears_awake_accumulators Real.sqrt id _ hw 1 0
    (rigid_body_add_force (rigid_body_create 1) (vector3_create 1 0 0)) rfl).2
  exact ⟨hw, after, ha, hz rfl rfl rfl⟩

/-- C15 (as stated, refuted). In a world without gravity a fresh body falls asleep
in the first `physics_world_step` (its speed is below the sleep threshold); it is
then given the force `(1,0,0)` by `rigid_body_add_force`.  The next
`physics_world_step` skips the sleeping body in the force and integration phases,
and the dynamic body still has `(1,0,0)` in its force accumulator afterwards. -/
theorem step_clears_accumulators_counterexample :
    WorldReachable Real.sqrt id any_call
      (WorldOp.run Real.sqrt id (sample_rest_world Real.sqrt id)
        (WorldOp.body_op 0 (BodyOp.add_force (vector3_create 1 0 0)))) ∧
    (physics_world_step Real.sqrt id
      (WorldOp.run Real.sqrt id (sample_rest_world Real.sqrt id)
        (WorldOp.body_op 0 (BodyOp.add_force (vector3_create 1 0 0))))).bodies.map
      (fun body => (body.is_static, body.force_accumulator)) =
      [(false, vector3_create 1 0 0)] := by
  refine ⟨WorldReachable.call _ _
    (sample_rest_world_reachable _ _ _ (fun _ => ⟨trivial, trivial, trivial⟩)) trivial, ?_⟩
  rw [sample_rest_world_eq]
  show (physics_world_step_with_dt Real.sqrt id
    { (physics_world_init : PhysicsWorld ℝ) with
      gravity := vector3_zero
      bodies := [rigid_body_add_force
        { (rigid_body_create 1 : RigidBody ℝ) with is_sleeping := true }
        (vector3_create 1 0 0)] } (1 / 60)).bodies.map _ = _
  rw [step_single Real.sqrt id _ _ rfl (by norm_num) rfl,
    sub_step_single Real.sqrt id _ _ _ _ _ rfl rfl rfl]
  simp [physics_world_init, rigid_body_create, rigid_body_add_force, gravity_force,
    integrate_body, integrate_verlet, update_acceleration, rigid_body_clear_forces,
    apply_damping, vector3_scale, vector3_add, vector3_zero, vector3_length_squared,
    vector3_create, INTEGRATION_VERLET, INTEGRATION_EULER]

/-- C16 (amended). In every world reachable through the public body and world
operations without a `rigid_body_set_velocity` or `rigid_body_add_impulse` call
on a sleeping body, every sleeping body has zero velocity and zero angular
velocity, and zero kinetic energy when its mass is finite. -/
theorem sleeping_body_at_rest (sqrtf : R → R) (scale_inf : Vector3 R → Vector3 R)
    (inf_times : R → R) (world : PhysicsWorld R)
    (hw : WorldReachable sqrtf scale_inf spares_sleeping world) (body : RigidBody R)
    (hb : body ∈ world.bodies) (hs : body.is_sleeping = true) :
    body.velocity = vector3_zero ∧ body.angular_velocity = vector3_zero ∧
      ∀ m, body.mass = Mass.finite m → rigid_body_get_kinetic_energy inf_times body = 0 := by
  obtain ⟨i, hi⟩ := List.mem_iff_get?.mp hb
  obtain ⟨hv, ha⟩ := all_rest_reachable sqrtf scale_inf world hw i body hi hs
  refine ⟨hv, ha, fun m hm => ?_⟩
  unfold rigid_body_get_kinetic_energy
  rw [hm, hv, length_squared_zero]
  simp

/-- Witness of C16 (amended): the body of the sample world, asleep after the first
step, has zero velocity. -/
theorem sleeping_body_at_rest_witness :
    WorldReachable Real.sqrt id spares_sleeping (sample_rest_world Real.sqrt id) ∧
    ({ (rigid_body_create 1 : RigidBody ℝ) with is_sleeping := true }) ∈
      (sample_rest_world Real.sqrt id).bodies ∧
    ({ (rigid_body_create 1 : RigidBody ℝ) with is_sleeping := true }).velocity =
      vector3_zero := by
  have hw : WorldReachable Real.sqrt id spares_sleeping (sample_rest_world Real.sqrt id) :=
    sample_rest_world_reachable _ _ _ (fun _ => ⟨trivial, trivial, trivial⟩)
  have hb : ({ (rigid_body_create 1 : RigidBody ℝ) with is_sleeping := true }) ∈
      (sample_rest_world Real.sqrt id).bodies := by
    rw [sample_rest_world_eq]
    exact List.mem_singleton.mpr rfl
  exact ⟨hw, hb, (sleeping_body_at_rest Real.sqrt id id _ hw _ hb rfl).1⟩

/-- C16 (as stated, refuted). In a world without gravity a fresh body falls asleep
in the first `physics_world_step`; `rigid_body_set_velocity` with `(1,0,0)` then
leaves it asleep with velocity `(1,0,0)` and kinetic energy `1/2`. -/
theorem sleeping_body_at_rest_counterexample :
    WorldReachable Real.sqrt id any_call
      (WorldOp.run Real.sqrt id (sample_rest_world Real.sqrt id)
        (WorldOp.body_op 0 (BodyOp.set_velocity (vector3_create 1 0 0)))) ∧
    (WorldOp.run Real.sqrt id (sample_rest_world Real.sqrt id)
      (WorldOp.body_op 0 (BodyOp.set_velocity (vector3_create 1 0 0)))).bodies.map
      (fun body => (body.is_sleeping, body.velocity,
        rigid_body_get_kinetic_energy id body)) =
      [(true, vector3_create 1 0 0, 1 / 2)] := by
  refine ⟨WorldReachable.call _ _
    (sample_rest_world_reachable _ _ _ (fun _ => ⟨trivial, trivial, trivial⟩)) trivial, ?_⟩
  rw [sample_rest_world_eq]
  show [((rigid_body_set_velocity
      { (rigid_body_create 1 : RigidBody ℝ) with is_sleeping := true }
      (vector3_create 1 0 0)).is_sleeping,
    (rigid_body_set_velocity
      { (rigid_body_create 1 : RigidBody ℝ) with is_sleeping := true }
      (vector3_create 1 0 0)).velocity,
    rigid_body_get_kinetic_energy id (rigid_body_set_velocity
      { (rigid_body_create 1 : RigidBody ℝ) with is_sleeping := true }
      (vector3_create 1 0 0)))] = _
  norm_num [rigid_body_set_velocity, rigid_body_create, rigid_body_get_kinetic_energy,
    vector3_length_squared, vector3_create]

/-! ## Body operations: the mass setter -/

/-- C21. `rigid_body_set_mass(m)`: if `m ≤ 0` or the body is static, the mass becomes
`+∞` and `inverse_mass` becomes 0; otherwise the mass becomes `m` and
`inverse_mass` becomes `1/m` (0 for `m = +∞`); no other field changes, and calling
it twice in a row with the same `m` leaves the same body as calling it once. -/
theorem set_mass_contract (body : RigidBody R) (m : R) (mass : Mass R) :
    (m ≤ 0 ∨ body.is_static = true →
      rigid_body_set_mass body (Mass.finite m) =
        { body with mass := Mass.infinity, inverse_mass := 0 }) ∧
    (¬ (m ≤ 0 ∨ body.is_static = true) →
      rigid_body_set_mass body (Mass.finite m) =
        { body with mass := Mass.finite m, inverse_mass := 1 / m }) ∧
    rigid_body_set_mass body Mass.infinity =
      { body with mass := Mass.infinity, inverse_mass := 0 } ∧
    rigid_body_set_mass (rigid_body_set_mass body mass) mass = rigid_body_set_mass body mass := by
  refine ⟨fun h => ?_, fun h => ?_, ?_, ?_⟩
  · show (if m ≤ 0 ∨ body.is_static = true then _ else _) = _
    rw [if_pos h]
  · show (if m ≤ 0 ∨ body.is_static = true then _ else _) = _
    rw [if_neg h]
  · show (if body.is_static = true then _ else _) = _
    split_ifs <;> rfl
  · cases mass with
    | finite v =>
      by_cases h : v ≤ 0 ∨ body.is_static = true
      · have e : rigid_body_set_mass body (Mass.finite v) =
            { body with mass := Mass.infinity, inverse_mass := 0 } := by
          show (if v ≤ 0 ∨ body.is_static = true then _ else _) = _
          rw [if_pos h]
        rw [e]
        show (if v ≤ 0 ∨ body.is_static = true then _ else _) = _
        rw [if_pos h]
      · have e : rigid_body_set_mass body (Mass.finite v) =
            { body with mass := Mass.finite v, inverse_mass := 1 / v } := by
          show (if v ≤ 0 ∨ body.is_static = true then _ else _) = _
          rw [if_neg h]
        rw [e]
        show (if v ≤ 0 ∨ body.is_static = true then _ else _) = _
        rw [if_neg h]
    | infinity =>
      have e : ∀ b : RigidBody R, rigid_body_set_mass b Mass.infinity =
          { b with mass := Mass.infinity, inverse_mass := 0 } := by
        intro b
        show (if b.is_static = true then _ else _) = _
        split_ifs <;> rfl
      rw [e, e]

/-- Witness of C21: a fresh body given the mass 2 has inverse mass `1/2`, and a
second call changes nothing. -/
theorem set_mass_contract_witness :
    rigid_body_set_mass (rigid_body_create 1 : RigidBody ℚ) (Mass.finite 2) =
      { (rigid_body_create 1 : RigidBody ℚ) with
        mass := Mass.finite 2, inverse_mass := 1 / 2 } ∧
    rigid_body_set_mass
      (rigid_body_set_mass (rigid_body_create 1 : RigidBody ℚ) (Mass.finite 2))
      (Mass.finite 2) =
      rigid_body_set_mass (rigid_body_create 1 : RigidBody ℚ) (Mass.finite 2) :=
  have h := set_mass_contract (rigid_body_create 1 : RigidBody ℚ) 2 (Mass.finite 2)
  ⟨h.2.1 (by norm_num [rigid_body_create]), h.2.2.2⟩

/-! ## The world: skipped steps -/

/-- C22. If the world is paused or `dt ≤ 0`, `physics_world_step_with_dt` returns the
world it was given, every field and every body unchanged; `physics_world_step`
is `physics_world_step_with_dt` called with the world's timestep. -/
theorem step_skipped (sqrtf : R → R) (scale_inf : Vector3 R → Vector3 R)
    (world : PhysicsWorld R) (dt : R) :
    (world.is_paused = true ∨ dt ≤ 0 →
      physics_world_step_with_dt sqrtf scale_inf world dt = world) ∧
    physics_world_step sqrtf scale_inf world =
      physics_world_step_with_dt sqrtf scale_inf world world.timestep := by
  refine ⟨fun h => ?_, rfl⟩
  unfold physics_world_step_with_dt
  rw [if_pos h]

/-- Witness of C22: the paused sample world is left as it is by a step of one
second. -/
theorem step_skipped_witness :
    physics_world_step_with_dt Real.sqrt id
      (physics_world_pause (sample_world : PhysicsWorld ℝ) true) 1 =
      physics_world_pause (sample_world : PhysicsWorld ℝ) true :=
  (step_skipped Real.sqrt id (physics_world_pause (sample_world : PhysicsWorld ℝ) true) 1).1
    (Or.inl rfl)

/-! ## Damping at the sleep threshold -/

/-- C30. With `sqrtf` an exact square root: `vector3_normalize(v)` returns the zero
vector when the length of `v` is below `VECTOR_EPSILON = 1e-6`, and otherwise
returns `v` scaled by `1/|v| > 0`, a vector of length exactly 1; and
`vector3_normalize` is idempotent. -/
theorem normalize_contract (sqrtf : R → R) (hs : IsSqrt sqrtf) (v : Vector3 R) :
    VECTOR_EPSILON = (1 : R) / 1000000 ∧
    (vector3_length sqrtf v < VECTOR_EPSILON → vector3_normalize sqrtf v = vector3_zero) ∧
    (¬ vector3_length sqrtf v < VECTOR_EPSILON →
      vector3_normalize sqrtf v = vector3_scale v (1 / vector3_length sqrtf v) ∧
      0 < 1 / vector3_length sqrtf v ∧
      vector3_length sqrtf (vector3_normalize sqrtf v) = 1) ∧
    vector3_normalize sqrtf (vector3_normalize sqrtf v) = vector3_normalize sqrtf v := by
  have hzero : vector3_normalize sqrtf (vector3_zero : Vector3 R) = vector3_zero := by
    unfold vector3_normalize
    dsimp only
    rw [if_pos (by rw [length_zero hs]; exact VECTOR_EPSILON_pos)]
  have hsmall : vector3_length sqrtf v < VECTOR_EPSILON →
      vector3_normalize sqrtf v = vector3_zero := by
    intro h
    unfold vector3_normalize
    dsimp only
    rw [if_pos h]
  have hbig : ¬ vector3_length sqrtf v < VECTOR_EPSILON →
      vector3_normalize sqrtf v = vector3_scale v (1 / vector3_length sqrtf v) := by
    intro h
    unfold vector3_normalize
    dsimp only
    rw [if_neg h]
  refine ⟨rfl, hsmall, fun h => ⟨hbig h, ?_, length_normalize hs v h⟩, ?_⟩
  · exact one_div_pos.mpr (lt_of_lt_of_le VECTOR_EPSILON_pos (not_lt.mp h))
  · by_cases h : vector3_length sqrtf v < VECTOR_EPSILON
    · rw [hsmall h, hzero]
    · have hone := length_normalize hs v h
      generalize vector3_normalize sqrtf v = u at hone
      unfold vector3_normalize
      dsimp only
      rw [hone, if_neg (by unfold VECTOR_EPSILON; norm_num)]
      cases u
      simp [vector3_scale]

/-- Witness of C30: the vector `(3,4,0)` of length 5 is normalised to
`(3/5, 4/5, 0)`, and normalising again changes nothing. -/
theorem normalize_contract_witness :
    vector3_normalize Real.sqrt (⟨3, 4, 0⟩ : Vector3 ℝ) = ⟨3 / 5, 4 / 5, 0⟩ ∧
    vector3_normalize Real.sqrt (vector3_normalize Real.sqrt (⟨3, 4, 0⟩ : Vector3 ℝ)) =
      vector3_normalize Real.sqrt (⟨3, 4, 0⟩ : Vector3 ℝ) := by
  have h := normalize_contract Real.sqrt isSqrt_real (⟨3, 4, 0⟩ : Vector3 ℝ)
  have h5 : vector3_length Real.sqrt (⟨3, 4, 0⟩ : Vector3 ℝ) = 5 :=
    sqrt_unique isSqrt_real _ 5 (by norm_num) (by norm_num [vector3_length_squared])
  have hbig : ¬ vector3_length Real.sqrt (⟨3, 4, 0⟩ : Vector3 ℝ) < VECTOR_EPSILON := by
    rw [h5]
    unfold VECTOR_EPSILON
    norm_num
  refine ⟨?_, h.2.2.2⟩
  rw [(h.2.2.1 hbig).1, h5]
  norm_num [vector3_scale]

/-! ## The contact buffer -/

/-- C24. For every world, after `physics_world_detect_collisions` the contact count
is at most `MAX_COLLISIONS = 2000`; every recorded contact has
`has_collision = true` and names a pair of bodies `(bodies[i], bodies[j])` with
`i < j < body_count`; the recorded pairs are in strictly increasing lexicographic
order; and the contacts recorded after any part of the pair loop are a prefix of
the final ones, nothing being added once 2000 contacts are recorded. -/
theorem detect_collisions_buffer (sqrtf : R → R) (world : PhysicsWorld R) :
    MAX_COLLISIONS = 2000 ∧
    (physics_world_detect_collisions sqrtf world).collision_count ≤ 2000 ∧
    (∀ c ∈ (physics_world_detect_collisions sqrtf world).collisions,
      c.info.has_collision = true ∧ c.body_a < c.body_b ∧ c.body_b < world.body_count) ∧
    (physics_world_detect_collisions sqrtf world).collisions.Pairwise
      (fun c d => pair_lt c.pair d.pair) ∧
    (∀ pre post, body_pairs world.body_count = pre ++ post →
      ∃ later,
        (physics_world_detect_collisions sqrtf world).collisions =
          (pre.foldl (detect_pair sqrtf)
            { world with collisions := [], collision_checks_performed := 0 }).collisions ++
            later ∧
        (2000 ≤ (pre.foldl (detect_pair sqrtf)
            { world with collisions := [], collision_checks_performed := 0 }).collision_count →
          later = [])) := by
  obtain ⟨extra, he, hsub, hall, hle, _⟩ := detect_loop_collisions sqrtf
    (body_pairs world.body_count)
    { world with collisions := [], collision_checks_performed := 0 }
  have hcol : (physics_world_detect_collisions sqrtf world).collisions = extra := by
    unfold physics_world_detect_collisions
    rw [he]
    rfl
  refine ⟨rfl, ?_, ?_, ?_, ?_⟩
  · exact hle (Nat.zero_le _)
  · intro c hc
    rw [hcol] at hc
    have hp : c.pair ∈ body_pairs world.body_count :=
      hsub.subset (List.mem_map_of_mem WorldCollision.pair hc)
    exact ⟨hall c hc, body_pairs_mem _ _ hp⟩
  · rw [hcol]
    exact List.pairwise_map.mp ((body_pairs_sorted world.body_count).sublist hsub)
  · intro pre post hsplit
    obtain ⟨later, hl, _, _, _, hfull⟩ := detect_loop_collisions sqrtf post
      (pre.foldl (detect_pair sqrtf)
        { world with collisions := [], collision_checks_performed := 0 })
    refine ⟨later, ?_, hfull⟩
    unfold physics_world_detect_collisions
    rw [hsplit, List.foldl_append]
    exact hl

/-! ## A sphere inside a box -/

/-- C28 (as stated, refuted). For the sphere of radius `0.5` at the centre of the
box with half-extents `(2,2,2)`, `detect_collision` reports the penetration depth
`0.5` (radius minus the distance 0 to the closest point of the box), not `2.5`. -/
theorem sphere_inside_box_contact_counterexample :
    detect_collision Real.sqrt (sample_sphere (⟨0, 0, 0⟩ : Vector3 ℝ) ⟨0, 0, 0⟩ (1 / 2))
      (sample_box ⟨0, 0, 0⟩ ⟨2, 2, 2⟩) = some ⟨true, ⟨0, 0, 0⟩, ⟨-1, 0, 0⟩, 1 / 2⟩ ∧
    ¬ ∃ info,
      detect_collision Real.sqrt (sample_sphere (⟨0, 0, 0⟩ : Vector3 ℝ) ⟨0, 0, 0⟩ (1 / 2))
        (sample_box ⟨0, 0, 0⟩ ⟨2, 2, 2⟩) = some info ∧ info.penetration_depth = 5 / 2 := by
  have hbox : sample_box (⟨0, 0, 0⟩ : Vector3 ℝ) ⟨2, 2, 2⟩ =
      { (rigid_body_create 2 : RigidBody ℝ) with
        position := ⟨0, 0, 0⟩, shape := CollisionShape.aabb ⟨2, 2, 2⟩ } := by
    norm_num [sample_box, rigid_body_init_aabb, rigid_body_set_mass, rigid_body_create]
  have hsph : sample_sphere (⟨0, 0, 0⟩ : Vector3 ℝ) ⟨0, 0, 0⟩ (1 / 2) =
      { (rigid_body_create 1 : RigidBody ℝ) with
        position := ⟨0, 0, 0⟩, velocity := ⟨0, 0, 0⟩, shape := CollisionShape.sphere (1 / 2) } := by
    norm_num [sample_sphere, rigid_body_init_sphere, rigid_body_set_mass, rigid_body_create]
  have h : detect_collision Real.sqrt (sample_sphere (⟨0, 0, 0⟩ : Vector3 ℝ) ⟨0, 0, 0⟩ (1 / 2))
      (sample_box ⟨0, 0, 0⟩ ⟨2, 2, 2⟩) = some ⟨true, ⟨0, 0, 0⟩, ⟨-1, 0, 0⟩, 1 / 2⟩ := by
    rw [hbox, hsph]
    norm_num [detect_collision, aabb_overlap_test, get_aabb_min, get_aabb_max, rigid_body_create,
      vector3_create, sphere_aabb_collision, closest_point_on_aabb, vector3_subtract,
      vector3_length, vector3_length_squared, VECTOR_EPSILON, FLT_MAX, vector3_zero]
  refine ⟨h, ?_⟩
  rintro ⟨info, hi, hd⟩
  rw [h] at hi
  rw [← Option.some.inj hi] at hd
  norm_num at hd

/-- C28 (amended). For a sphere of radius `0.5` whose centre coincides with the
centre of a box with half-extents `(2,2,2)`, `detect_collision` (with the two
bodies in either order) reports a collision whose normal is `(-1,0,0)`, one of
the six axis directions, whose contact point is the common centre and whose
penetration depth is the radius `0.5`. -/
theorem sphere_inside_box_contact (sqrtf : R → R) (hs : IsSqrt sqrtf) (s bx : RigidBody R)
    (hsphere : s.shape = CollisionShape.sphere (1 / 2))
    (hbox : bx.shape = CollisionShape.aabb ⟨2, 2, 2⟩) (hp : s.position = bx.position) :
    detect_collision sqrtf s bx = some ⟨true, s.position, ⟨-1, 0, 0⟩, 1 / 2⟩ ∧
    detect_collision sqrtf bx s = some ⟨true, s.position, ⟨-1, 0, 0⟩, 1 / 2⟩ := by
  have h1 : aabb_overlap_test s bx = true := by
    unfold aabb_overlap_test get_aabb_min get_aabb_max
    rw [hsphere, hbox, hp]
    simp only [vector3_create, Bool.and_eq_true, decide_eq_true_eq, ge_iff_le]
    refine ⟨⟨⟨?_, ?_⟩, ?_, ?_⟩, ?_, ?_⟩ <;> linarith
  have h2 : aabb_overlap_test bx s = true := by
    unfold aabb_overlap_test get_aabb_min get_aabb_max
    rw [hsphere, hbox, hp]
    simp only [vector3_create, Bool.and_eq_true, decide_eq_true_eq, ge_iff_le]
    refine ⟨⟨⟨?_, ?_⟩, ?_, ?_⟩, ?_, ?_⟩ <;> linarith
  have h := sphere_at_box_centre sqrtf hs s bx hp hbox
  constructor
  · unfold detect_collision
    rw [if_neg (by rw [h1]; decide), hsphere, hbox]
    exact h
  · unfold detect_collision
    rw [if_neg (by rw [h2]; decide), hsphere, hbox]
    exact h

/-- Witness of C28 (amended): the sample sphere of radius `0.5` and the sample box
with half-extents `(2,2,2)`, both centred at `(1,2,3)`. -/
theorem sphere_inside_box_contact_witness :
    detect_collision Real.sqrt (sample_sphere (⟨1, 2, 3⟩ : Vector3 ℝ) ⟨0, 0, 0⟩ (1 / 2))
      (sample_box ⟨1, 2, 3⟩ ⟨2, 2, 2⟩) =
      some ⟨true, (sample_sphere (⟨1, 2, 3⟩ : Vector3 ℝ) ⟨0, 0, 0⟩ (1 / 2)).position,
        ⟨-1, 0, 0⟩, 1 / 2⟩ :=
  (sphere_inside_box_contact Real.sqrt isSqrt_real
    (sample_sphere (⟨1, 2, 3⟩ : Vector3 ℝ) ⟨0, 0, 0⟩ (1 / 2)) (sample_box ⟨1, 2, 3⟩ ⟨2, 2, 2⟩)
    (sample_sphere_shape _ _ _) (sample_box_shape _ _)
    ((sample_sphere_position _ _ _).trans (sample_box_position _ _).symm)).1

/-! ## Vector algebra -/

/-- C31 (as stated, refuted). The vector `(1,0,0)` has length `1 > 1e-6`; scaled by
`k = 1e-7 > 0` it has length `1e-7 < 1e-6`, so its normalisation is the zero
vector, while the normalisation of `(1,0,0)` is `(1,0,0)`. -/
theorem normalize_scale_counterexample :
    VECTOR_EPSILON < vector3_length Real.sqrt (⟨1, 0, 0⟩ : Vector3 ℝ) ∧
    vector3_normalize Real.sqrt (vector3_scale (⟨1, 0, 0⟩ : Vector3 ℝ) (1 / 10000000)) =
      ⟨0, 0, 0⟩ ∧
    vector3_normalize Real.sqrt (⟨1, 0, 0⟩ : Vector3 ℝ) = ⟨1, 0, 0⟩ ∧
    vector3_normalize Real.sqrt (vector3_scale (⟨1, 0, 0⟩ : Vector3 ℝ) (1 / 10000000)) ≠
      vector3_normalize Real.sqrt (⟨1, 0, 0⟩ : Vector3 ℝ) := by
  have h1 : vector3_length Real.sqrt (⟨1, 0, 0⟩ : Vector3 ℝ) = 1 :=
    sqrt_unique isSqrt_real _ 1 (by norm_num) (by norm_num [vector3_length_squared])
  have h2 : vector3_length Real.sqrt (vector3_scale (⟨1, 0, 0⟩ : Vector3 ℝ) (1 / 10000000)) =
      1 / 10000000 :=
    sqrt_unique isSqrt_real _ _ (by norm_num)
      (by norm_num [vector3_length_squared, vector3_scale])
  have e1 : vector3_normalize Real.sqrt
      (vector3_scale (⟨1, 0, 0⟩ : Vector3 ℝ) (1 / 10000000)) = ⟨0, 0, 0⟩ := by
    unfold vector3_normalize
    dsimp only
    rw [h2, if_pos (by unfold VECTOR_EPSILON; norm_num)]
    rfl
  have e2 : vector3_normalize Real.sqrt (⟨1, 0, 0⟩ : Vector3 ℝ) = ⟨1, 0, 0⟩ := by
    unfold vector3_normalize
    dsimp only
    rw [h1, if_neg (by unfold VECTOR_EPSILON; norm_num)]
    norm_num [vector3_scale]
  refine ⟨by rw [h1]; unfold VECTOR_EPSILON; norm_num, e1, e2, ?_⟩
  rw [e1, e2]
  intro h
  have := congrArg Vector3.x h
  norm_num at this

/-- C31 (amended). With `sqrtf` an exact square root: for every vector `v` whose
length is at least `VECTOR_EPSILON = 1e-6` and every scalar `k > 0` for which the
length `k·|v|` of the scaled vector is at least `VECTOR_EPSILON` too,
`vector3_normalize(vector3_scale(v, k))` equals `vector3_normalize(v)`. -/
theorem normalize_scale (sqrtf : R → R) (hs : IsSqrt sqrtf) (v : Vector3 R) (k : R)
    (hk : 0 < k) (hv : ¬ vector3_length sqrtf v < VECTOR_EPSILON)
    (hkv : ¬ vector3_length sqrtf (vector3_scale v k) < VECTOR_EPSILON) :
    vector3_length sqrtf (vector3_scale v k) = k * vector3_length sqrtf v ∧
    vector3_normalize sqrtf (vector3_scale v k) = vector3_normalize sqrtf v := by
  have hlen : vector3_length sqrtf (vector3_scale v k) = k * vector3_length sqrtf v := by
    rw [length_scale hs, abs_of_pos hk]
  refine ⟨hlen, ?_⟩
  have hL : 0 < vector3_length sqrtf v := lt_of_lt_of_le VECTOR_EPSILON_pos (not_lt.mp hv)
  unfold vector3_normalize
  dsimp only
  rw [if_neg hkv, if_neg hv, hlen]
  generalize vector3_length sqrtf v = L at hL
  have hL0 : L ≠ 0 := ne_of_gt hL
  have hk0 : k ≠ 0 := ne_of_gt hk
  simp only [vector3_scale, Vector3.mk.injEq]
  refine ⟨?_, ?_, ?_⟩ <;> field_simp <;> ring

/-- Witness of C31 (amended): the vector `(3,4,0)` scaled by 2. -/
theorem normalize_scale_witness :
    vector3_normalize Real.sqrt (vector3_scale (⟨3, 4, 0⟩ : Vector3 ℝ) 2) =
      vector3_normalize Real.sqrt (⟨3, 4, 0⟩ : Vector3 ℝ) := by
  have h5 : vector3_length Real.sqrt (⟨3, 4, 0⟩ : Vector3 ℝ) = 5 :=
    sqrt_unique isSqrt_real _ 5 (by norm_num) (by norm_num [vector3_length_squared])
  have h10 : vector3_length Real.sqrt (vector3_scale (⟨3, 4, 0⟩ : Vector3 ℝ) 2) = 10 :=
    sqrt_unique isSqrt_real _ 10 (by norm_num)
      (by norm_num [vector3_length_squared, vector3_scale])
  exact (normalize_scale Real.sqrt isSqrt_real ⟨3, 4, 0⟩ 2 (by norm_num)
    (by rw [h5]; unfold VECTOR_EPSILON; norm_num)
    (by rw [h10]; unfold VECTOR_EPSILON; norm_num)).2

/-- C32. For all vectors `a` and `b`, `vector3_cross(a,b)` is the right-handed
product `(a_y b_z − a_z b_y, a_z b_x − a_x b_z, a_x b_y − a_y b_x)`, it equals
`vector3_negate(vector3_cross(b,a))`, and `vector3_dot(a,b) = vector3_dot(b,a)`. -/
theorem cross_dot_symmetry (a b : Vector3 R) :
    vector3_cross a b =
      ⟨a.y * b.z - a.z * b.y, a.z * b.x - a.x * b.z, a.x * b.y - a.y * b.x⟩ ∧
    vector3_cross a b = vector3_negate (vector3_cross b a) ∧
    vector3_dot a b = vector3_dot b a := by
  refine ⟨rfl, ?_, ?_⟩
  · simp only [vector3_cross, vector3_negate, Vector3.mk.injEq]
    refine ⟨?_, ?_, ?_⟩ <;> ring
  · simp only [vector3_dot]
    ring

/-! ## Damping, the fourth-order integrator and the static flag -/

/-- C34. For every non-static body, `apply_damping(body, dl, da)` replaces the
velocity by `v·(1 − dl)` and the angular velocity by `ω·(1 − da)`; if both damped
squared speeds are strictly below `0.01` it then sets `is_sleeping` and zeroes
both velocities, and otherwise it keeps the sleeping flag and the damped
velocities; no other field changes.  A static body is left unchanged. -/
theorem apply_damping_contract (body : RigidBody R) (dl da : R) :
    (body.is_static = true → apply_damping body dl da = body) ∧
    (body.is_static = false →
      (vector3_length_squared (vector3_scale body.velocity (1 - dl)) < 1 / 100 ∧
        vector3_length_squared (vector3_scale body.angular_velocity (1 - da)) < 1 / 100 →
        apply_damping body dl da =
          { body with
            is_sleeping := true, velocity := vector3_zero, angular_velocity := vector3_zero }) ∧
      (¬ (vector3_length_squared (vector3_scale body.velocity (1 - dl)) < 1 / 100 ∧
        vector3_length_squared (vector3_scale body.angular_velocity (1 - da)) < 1 / 100) →
        apply_damping body dl da =
          { body with
            velocity := vector3_scale body.velocity (1 - dl)
            angular_velocity := vector3_scale body.angular_velocity (1 - da) })) := by
  refine ⟨fun h => ?_, fun h => ⟨fun hs => ?_, fun hs => ?_⟩⟩
  · unfold apply_damping
    rw [if_pos h]
  · exact apply_damping_sleeps body dl da h hs.1 hs.2
  · exact apply_damping_awake body dl da h hs

/-- C37. For every non-static, non-sleeping body and every `dt`, `integrate_rk4`
ends with position `x + v·dt + ½·a·dt²` and velocity `v + a·dt`, where
`a = force·inverse_mass` (and rotation `θ + ω·dt + ½·α·dt²`, angular velocity
`ω + α·dt`): the position and the rotation are those of `integrate_verlet`, and
so are the velocities whenever the accelerations stored in the body on entry
equal `a` and `α`. -/
theorem integrate_rk4_formula (body : RigidBody R) (dt : R)
    (hstatic : body.is_static = false) (hsleep : body.is_sleeping = false) :
    (integrate_rk4 body dt).position =
      vector3_add body.position
        (vector3_add (vector3_scale body.velocity dt)
          (vector3_scale (vector3_scale body.force_accumulator body.inverse_mass)
            (1 / 2 * dt * dt))) ∧
    (integrate_rk4 body dt).velocity =
      vector3_add body.velocity
        (vector3_scale (vector3_scale body.force_accumulator body.inverse_mass) dt) ∧
    (integrate_rk4 body dt).rotation =
      vector3_add body.rotation
        (vector3_add (vector3_scale body.angular_velocity dt)
          (vector3_scale (vector3_scale body.torque_accumulator body.inverse_mass)
            (1 / 2 * dt * dt))) ∧
    (integrate_rk4 body dt).angular_velocity =
      vector3_add body.angular_velocity
        (vector3_scale (vector3_scale body.torque_accumulator body.inverse_mass) dt) ∧
    (integrate_rk4 body dt).position = (integrate_verlet body dt).position ∧
    (integrate_rk4 body dt).rotation = (integrate_verlet body dt).rotation ∧
    (body.acceleration = vector3_scale body.force_accumulator body.inverse_mass →
      (integrate_rk4 body dt).velocity = (integrate_verlet body dt).velocity) ∧
    (body.angular_acceleration = vector3_scale body.torque_accumulator body.inverse_mass →
      (integrate_rk4 body dt).angular_velocity = (integrate_verlet body dt).angular_velocity) := by
  have hn : ¬ (body.is_static = true ∨ body.is_sleeping = true) := by
    rw [hstatic, hsleep]
    simp
  have hs : ¬ body.is_static = true := by
    rw [hstatic]
    simp
  refine ⟨?_, ?_, ?_, ?_, ?_, ?_, ?_, ?_⟩
  · simp only [integrate_rk4, if_neg hn, update_acceleration, if_neg hs, rigid_body_clear_forces,
      vector3_add, vector3_scale, Vector3.mk.injEq]
    refine ⟨?_, ?_, ?_⟩ <;> ring
  · simp only [integrate_rk4, if_neg hn, update_acceleration, if_neg hs, rigid_body_clear_forces,
      vector3_add, vector3_scale, Vector3.mk.injEq]
    refine ⟨?_, ?_, ?_⟩ <;> ring
  · simp only [integrate_rk4, if_neg hn, update_acceleration, if_neg hs, rigid_body_clear_forces,
      vector3_add, vector3_scale, Vector3.mk.injEq]
    refine ⟨?_, ?_, ?_⟩ <;> ring
  · simp only [integrate_rk4, if_neg hn, update_acceleration, if_neg hs, rigid_body_clear_forces,
      vector3_add, vector3_scale, Vector3.mk.injEq]
    refine ⟨?_, ?_, ?_⟩ <;> ring
  · simp only [integrate_rk4, integrate_verlet, if_neg hn, update_acceleration, if_neg hs,
      rigid_body_clear_forces, vector3_add, vector3_scale, Vector3.mk.injEq]
    refine ⟨?_, ?_, ?_⟩ <;> ring
  · simp only [integrate_rk4, integrate_verlet, if_neg hn, update_acceleration, if_neg hs,
      rigid_body_clear_forces, vector3_add, vector3_scale, Vector3.mk.injEq]
    refine ⟨?_, ?_, ?_⟩ <;> ring
  · intro ha
    simp only [integrate_rk4, integrate_verlet, if_neg hn, update_acceleration, if_neg hs,
      rigid_body_clear_forces, ha, vector3_add, vector3_scale, Vector3.mk.injEq]
    refine ⟨?_, ?_, ?_⟩ <;> ring
  · intro ha
    simp only [integrate_rk4, integrate_verlet, if_neg hn, update_acceleration, if_neg hs,
      rigid_body_clear_forces, ha, vector3_add, vector3_scale, Vector3.mk.injEq]
    refine ⟨?_, ?_, ?_⟩ <;> ring

/-- Witness of C37: a sphere of mass 1 moving at `(1,0,0)` under the force
`(0,-2,0)`, for `dt = 1/2`: it ends at `(1/2,-1/4,0)` with velocity `(1,-1,0)`. -/
theorem integrate_rk4_formula_witness :
    (integrate_rk4
      (rigid_body_add_force (sample_sphere (⟨0, 0, 0⟩ : Vector3 ℚ) ⟨1, 0, 0⟩ 1) ⟨0, -2, 0⟩)
      (1 / 2)).position = ⟨1 / 2, -1 / 4, 0⟩ ∧
    (integrate_rk4
      (rigid_body_add_force (sample_sphere (⟨0, 0, 0⟩ : Vector3 ℚ) ⟨1, 0, 0⟩ 1) ⟨0, -2, 0⟩)
      (1 / 2)).velocity = ⟨1, -1, 0⟩ := by
  have h := integrate_rk4_formula
    (rigid_body_add_force (sample_sphere (⟨0, 0, 0⟩ : Vector3 ℚ) ⟨1, 0, 0⟩ 1) ⟨0, -2, 0⟩)
    (1 / 2)
    (by norm_num [rigid_body_add_force, sample_sphere, rigid_body_init_sphere,
      rigid_body_set_mass, rigid_body_create])
    (by norm_num [rigid_body_add_force, sample_sphere, rigid_body_init_sphere,
      rigid_body_set_mass, rigid_body_create])
  refine ⟨h.1.trans ?_, h.2.1.trans ?_⟩ <;>
    norm_num [rigid_body_add_force, sample_sphere, rigid_body_init_sphere,
      rigid_body_set_mass, rigid_body_create, vector3_add, vector3_scale, vector3_zero]

/-- C40. The call `rigid_body_set_static(body, true)` followed by
`rigid_body_set_static(body, false)` leaves any body, in particular one that had
a finite mass `m > 0`, with `is_static = false`, mass `+∞`, inverse mass 0 and
zero velocity and angular velocity; `rigid_body_add_impulse` then leaves it
unchanged, and the impulse and friction steps of the collision response leave
its velocity unchanged, whether it is the first or the second body. -/
theorem set_static_round_trip (sqrtf : R → R) (body : RigidBody R) :
    (rigid_body_set_static (rigid_body_set_static body true) false).is_static = false ∧
    (rigid_body_set_static (rigid_body_set_static body true) false).mass = Mass.infinity ∧
    (rigid_body_set_static (rigid_body_set_static body true) false).inverse_mass = 0 ∧
    (rigid_body_set_static (rigid_body_set_static body true) false).velocity = vector3_zero ∧
    (rigid_body_set_static (rigid_body_set_static body true) false).angular_velocity =
      vector3_zero ∧
    (∀ impulse,
      rigid_body_add_impulse (rigid_body_set_static (rigid_body_set_static body true) false)
        impulse = rigid_body_set_static (rigid_body_set_static body true) false) ∧
    (∀ c other,
      (apply_impulse_response c (rigid_body_set_static (rigid_body_set_static body true) false)
        other).1.velocity = vector3_zero ∧
      (apply_impulse_response c other
        (rigid_body_set_static (rigid_body_set_static body true) false)).2.velocity =
        vector3_zero ∧
      (apply_friction sqrtf c (rigid_body_set_static (rigid_body_set_static body true) false)
        other).1.velocity = vector3_zero ∧
      (apply_friction sqrtf c other
        (rigid_body_set_static (rigid_body_set_static body true) false)).2.velocity =
        vector3_zero) := by
  have e : rigid_body_set_static (rigid_body_set_static body true) false =
      { body with
        is_static := false, velocity := vector3_zero, angular_velocity := vector3_zero,
        mass := Mass.infinity, inverse_mass := 0 } := by
    simp [rigid_body_set_static, rigid_body_set_mass]
  rw [e]
  refine ⟨rfl, rfl, rfl, rfl, rfl, fun impulse => ?_, fun c other => ⟨?_, ?_, ?_, ?_⟩⟩
  · simp [rigid_body_add_impulse, vector3_add, vector3_scale, vector3_zero]
  · unfold apply_impulse_response
    dsimp only
    split_ifs <;> simp [vector3_add, vector3_scale, vector3_zero]
  · unfold apply_impulse_response
    dsimp only
    split_ifs <;> simp [vector3_add, vector3_scale, vector3_zero]
  · unfold apply_friction
    dsimp only
    split_ifs <;> simp [vector3_add, vector3_scale, vector3_zero]
  · unfold apply_friction
    dsimp only
    split_ifs <;> simp [vector3_add, vector3_scale, vector3_zero]

/-- Witness of C40: the unit sphere of mass 1 moving at `(1,0,0)` is made static
and dynamic again; it is left with inverse mass 0 and at rest, and an impulse
`(5,0,0)` does not move it. -/
theorem set_static_round_trip_witness :
    (rigid_body_set_static
      (rigid_body_set_static (sample_sphere (⟨0, 0, 0⟩ : Vector3 ℚ) ⟨1, 0, 0⟩ 1) true)
      false).inverse_mass = 0 ∧
    (rigid_body_add_impulse
      (rigid_body_set_static
        (rigid_body_set_static (sample_sphere (⟨0, 0, 0⟩ : Vector3 ℚ) ⟨1, 0, 0⟩ 1) true)
        false) ⟨5, 0, 0⟩).velocity = vector3_zero := by
  have h := set_static_round_trip (fun x : ℚ => x)
    (sample_sphere (⟨0, 0, 0⟩ : Vector3 ℚ) ⟨1, 0, 0⟩ 1)
  refine ⟨h.2.2.1, ?_⟩
  rw [h.2.2.2.2.2.1 ⟨5, 0, 0⟩]
  exact h.2.2.2.1

/-! ## Collision response: position correction and momentum -/

/-- C33. The call `position_correction(contact, 0.8, 0.01)`, which is the one
`resolve_collision` makes, moves no body when the contact's penetration is
`≤ 0.01` or the total inverse mass `w` is `≤ 0`; otherwise (`w > 0`) it moves a
non-static body A by `−(inv_a/w)·0.8·(penetration − 0.01)·n` and a non-static
body B by `+(inv_b/w)·0.8·(penetration − 0.01)·n` and does not move a static
body; with a unit normal and static bodies of inverse mass 0 the relative
displacement of the bodies along `n` is `0.8·(penetration − 0.01)`; and it
changes no velocity. -/
theorem position_correction_contract (sqrtf : R → R) (c : CollisionInfo R) (a b : RigidBody R) :
    (c.has_collision = true →
      resolve_collision sqrtf c a b =
        position_correction c (8 / 10) (1 / 100)
          (apply_friction sqrtf c
            (apply_impulse_response c (separate_bodies c a b).1 (separate_bodies c a b).2).1
            (apply_impulse_response c (separate_bodies c a b).1 (separate_bodies c a b).2).2).1
          (apply_friction sqrtf c
            (apply_impulse_response c (separate_bodies c a b).1 (separate_bodies c a b).2).1
            (apply_impulse_response c (separate_bodies c a b).1
              (separate_bodies c a b).2).2).2) ∧
    (c.penetration_depth ≤ 1 / 100 ∨ a.inverse_mass + b.inverse_mass ≤ 0 →
      position_correction c (8 / 10) (1 / 100) a b = (a, b)) ∧
    (1 / 100 < c.penetration_depth → 0 < a.inverse_mass + b.inverse_mass →
      (a.is_static = false →
        (position_correction c (8 / 10) (1 / 100) a b).1 =
          { a with
            position := vector3_add a.position
              (vector3_scale c.normal
                (-(a.inverse_mass / (a.inverse_mass + b.inverse_mass)) * (8 / 10) *
                  (c.penetration_depth - 1 / 100))) }) ∧
      (a.is_static = true → (position_correction c (8 / 10) (1 / 100) a b).1 = a) ∧
      (b.is_static = false →
        (position_correction c (8 / 10) (1 / 100) a b).2 =
          { b with
            position := vector3_add b.position
              (vector3_scale c.normal
                (b.inverse_mass / (a.inverse_mass + b.inverse_mass) * (8 / 10) *
                  (c.penetration_depth - 1 / 100))) }) ∧
      (b.is_static = true → (position_correction c (8 / 10) (1 / 100) a b).2 = b) ∧
      (vector3_length_squared c.normal = 1 →
        (a.is_static = true → a.inverse_mass = 0) →
        (b.is_static = true → b.inverse_mass = 0) →
        vector3_dot
            (vector3_subtract
              (vector3_subtract (position_correction c (8 / 10) (1 / 100) a b).2.position
                (position_correction c (8 / 10) (1 / 100) a b).1.position)
              (vector3_subtract b.position a.position)) c.normal =
          8 / 10 * (c.penetration_depth - 1 / 100))) ∧
    (position_correction c (8 / 10) (1 / 100) a b).1.velocity = a.velocity ∧
    (position_correction c (8 / 10) (1 / 100) a b).2.velocity = b.velocity := by
  refine ⟨fun hc => ?_, fun h => ?_, fun hpen hw => ?_,
    (position_correction_velocity c _ _ a b).1, (position_correction_velocity c _ _ a b).2⟩
  · unfold resolve_collision
    rw [if_neg (by rw [hc]; decide)]
  · unfold position_correction
    dsimp only
    rcases h with h | h
    · by_cases h1 : a.inverse_mass + b.inverse_mass ≤ 0
      · rw [if_pos h1]
      · rw [if_neg h1, if_pos (sub_nonpos.mpr h)]
    · rw [if_pos h]
  · have hw0 : a.inverse_mass + b.inverse_mass ≠ 0 := ne_of_gt hw
    rw [position_correction_eq c _ _ a b hw hpen]
    dsimp only
    refine ⟨fun hs => ?_, fun hs => ?_, fun hs => ?_, fun hs => ?_, fun hn hsa hsb => ?_⟩
    · rw [if_pos hs, scale_scale]
      congr 3
      field_simp
      ring
    · rw [if_neg (by rw [hs]; decide)]
    · rw [if_pos hs, scale_scale]
      congr 3
      field_simp
      ring
    · rw [if_neg (by rw [hs]; decide)]
    · have ea : (if a.is_static = false then
            { a with
              position := vector3_add a.position
                (vector3_scale
                  (vector3_scale c.normal
                    ((c.penetration_depth - 1 / 100) * (8 / 10) /
                      (a.inverse_mass + b.inverse_mass)))
                  (-a.inverse_mass)) }
          else a).position = vector3_add a.position
            (vector3_scale
              (vector3_scale c.normal
                ((c.penetration_depth - 1 / 100) * (8 / 10) /
                  (a.inverse_mass + b.inverse_mass)))
              (-a.inverse_mass)) := by
        split_ifs with h
        · rfl
        · have h1 : a.is_static = true := by simpa using h
          rw [hsa h1]
          simp [vector3_add, vector3_scale]
      have eb : (if b.is_static = false then
            { b with
              position := vector3_add b.position
                (vector3_scale
                  (vector3_scale c.normal
                    ((c.penetration_depth - 1 / 100) * (8 / 10) /
                      (a.inverse_mass + b.inverse_mass)))
                  b.inverse_mass) }
          else b).position = vector3_add b.position
            (vector3_scale
              (vector3_scale c.normal
                ((c.penetration_depth - 1 / 100) * (8 / 10) /
                  (a.inverse_mass + b.inverse_mass)))
              b.inverse_mass) := by
        split_ifs with h
        · rfl
        · have h1 : b.is_static = true := by simpa using h
          rw [hsb h1]
          simp [vector3_add, vector3_scale]
      rw [ea, eb]
      simp only [vector3_length_squared] at hn
      simp only [vector3_dot, vector3_subtract, vector3_add, vector3_scale]
      generalize a.inverse_mass = ia at hw hw0 ⊢
      generalize b.inverse_mass = ib at hw hw0 ⊢
      generalize c.penetration_depth = d
      have hK : (d - 1 / 100) * (8 / 10) / (ia + ib) * (ia + ib) = (d - 1 / 100) * (8 / 10) :=
        div_mul_cancel₀ _ hw0
      generalize (d - 1 / 100) * (8 / 10) / (ia + ib) = K at hK ⊢
      linear_combination (K * (ia + ib)) * hn + hK

/-- C38. For any contact between two non-static bodies with finite positive masses
`m_a`, `m_b` and `inverse_mass = 1/mass`, `resolve_collision` keeps the masses and
preserves the total linear momentum `m_a·v_a + m_b·v_b`. -/
theorem resolve_collision_momentum (sqrtf : R → R) (c : CollisionInfo R) (a b : RigidBody R)
    (ma mb : R) (hma : a.mass = Mass.finite ma) (hmb : b.mass = Mass.finite mb)
    (hpa : 0 < ma) (hpb : 0 < mb) (hia : a.inverse_mass = 1 / ma)
    (hib : b.inverse_mass = 1 / mb) (hsa : a.is_static = false) (hsb : b.is_static = false) :
    (resolve_collision sqrtf c a b).1.mass = Mass.finite ma ∧
    (resolve_collision sqrtf c a b).2.mass = Mass.finite mb ∧
    vector3_add (vector3_scale (resolve_collision sqrtf c a b).1.velocity ma)
        (vector3_scale (resolve_collision sqrtf c a b).2.velocity mb) =
      vector3_add (vector3_scale a.velocity ma) (vector3_scale b.velocity mb) := by
  have ha1 : ma * a.inverse_mass = 1 := by
    rw [hia]
    exact mul_one_div_cancel (ne_of_gt hpa)
  have hb1 : mb * b.inverse_mass = 1 := by
    rw [hib]
    exact mul_one_div_cancel (ne_of_gt hpb)
  unfold resolve_collision
  dsimp only
  split_ifs with hc
  · exact ⟨hma, hmb, rfl⟩
  · obtain ⟨⟨s1v, s1i, s1m, s1s⟩, ⟨s1v', s1i', s1m', s1s'⟩⟩ := separate_bodies_fields c a b
    generalize separate_bodies c a b = s1 at s1v s1i s1m s1s s1v' s1i' s1m' s1s'
    have hns1 : s1.1.is_static = true → s1.1.inverse_mass = 0 := fun h =>
      absurd ((s1s.trans hsa).symm.trans h) (by decide)
    have hns1' : s1.2.is_static = true → s1.2.inverse_mass = 0 := fun h =>
      absurd ((s1s'.trans hsb).symm.trans h) (by decide)
    obtain ⟨s2v, s2v'⟩ := impulse_response_velocity c s1.1 s1.2 hns1 hns1'
    obtain ⟨⟨s2i, _, s2s⟩, ⟨s2i', _, s2s'⟩⟩ := impulse_response_fields c s1.1 s1.2
    obtain ⟨s2m, s2m'⟩ := impulse_response_mass c s1.1 s1.2
    generalize applied_normal_impulse c s1.1 s1.2 = j at s2v s2v'
    generalize apply_impulse_response c s1.1 s1.2 = s2 at s2v s2v' s2i s2i' s2s s2s' s2m s2m'
    have hns2 : s2.1.is_static = true → s2.1.inverse_mass = 0 := fun h =>
      absurd (((s2s.trans s1s).trans hsa).symm.trans h) (by decide)
    have hns2' : s2.2.is_static = true → s2.2.inverse_mass = 0 := fun h =>
      absurd (((s2s'.trans s1s').trans hsb).symm.trans h) (by decide)
    obtain ⟨s3v, s3v'⟩ := apply_friction_velocity sqrtf c s2.1 s2.2 hns2 hns2'
    obtain ⟨⟨_, s3m, _⟩, ⟨_, s3m', _⟩⟩ := apply_friction_fields sqrtf c s2.1 s2.2
    generalize applied_friction_impulse sqrtf c s2.1 s2.2 = J at s3v s3v'
    generalize apply_friction sqrtf c s2.1 s2.2 = s3 at s3v s3v' s3m s3m'
    obtain ⟨s4v, s4v'⟩ := position_correction_velocity c (8 / 10) (1 / 100) s3.1 s3.2
    obtain ⟨s4m, s4m'⟩ := position_correction_mass c (8 / 10) (1 / 100) s3.1 s3.2
    refine ⟨?_, ?_, ?_⟩
    · rw [s4m, s3m, s2m, s1m, hma]
    · rw [s4m', s3m', s2m', s1m', hmb]
    · rw [s4v, s4v', s3v, s3v', s2i, s2i', s1i, s1i',
        momentum_after_impulse _ _ J ma mb _ _ ha1 hb1, s2v, s2v', s1i, s1i',
        momentum_after_impulse _ _ _ ma mb _ _ ha1 hb1, s1v, s1v']

/-- Witness of C38: two unit spheres of mass 1 approaching head-on along `x` with the
velocities `(1,0,0)` and `(-1,0,0)`: the total momentum is zero before and after. -/
theorem resolve_collision_momentum_witness :
    vector3_add
        (vector3_scale
          (resolve_collision Real.sqrt ⟨true, ⟨0, 0, 0⟩, ⟨1, 0, 0⟩, 1⟩
            (sample_sphere (⟨-1 / 2, 0, 0⟩ : Vector3 ℝ) ⟨1, 0, 0⟩ 1)
            (sample_sphere (⟨1 / 2, 0, 0⟩ : Vector3 ℝ) ⟨-1, 0, 0⟩ 1)).1.velocity 1)
        (vector3_scale
          (resolve_collision Real.sqrt ⟨true, ⟨0, 0, 0⟩, ⟨1, 0, 0⟩, 1⟩
            (sample_sphere (⟨-1 / 2, 0, 0⟩ : Vector3 ℝ) ⟨1, 0, 0⟩ 1)
            (sample_sphere (⟨1 / 2, 0, 0⟩ : Vector3 ℝ) ⟨-1, 0, 0⟩ 1)).2.velocity 1) =
      vector3_add
        (vector3_scale (sample_sphere (⟨-1 / 2, 0, 0⟩ : Vector3 ℝ) ⟨1, 0, 0⟩ 1).velocity 1)
        (vector3_scale (sample_sphere (⟨1 / 2, 0, 0⟩ : Vector3 ℝ) ⟨-1, 0, 0⟩ 1).velocity 1) :=
  (resolve_collision_momentum Real.sqrt ⟨true, ⟨0, 0, 0⟩, ⟨1, 0, 0⟩, 1⟩
    (sample_sphere (⟨-1 / 2, 0, 0⟩ : Vector3 ℝ) ⟨1, 0, 0⟩ 1)
    (sample_sphere (⟨1 / 2, 0, 0⟩ : Vector3 ℝ) ⟨-1, 0, 0⟩ 1) 1 1
    (by norm_num [sample_sphere, rigid_body_init_sphere, rigid_body_set_mass, rigid_body_create])
    (by norm_num [sample_sphere, rigid_body_init_sphere, rigid_body_set_mass, rigid_body_create])
    (by norm_num) (by norm_num)
    (by norm_num [sample_sphere, rigid_body_init_sphere, rigid_body_set_mass, rigid_body_create])
    (by norm_num [sample_sphere, rigid_body_init_sphere, rigid_body_set_mass, rigid_body_create])
    (sample_sphere_static _ _ _) (sample_sphere_static _ _ _)).2.2

/-! ## Collision response: what the friction step does -/

/-- C39. With `sqrtf` an exact square root: for a contact with unit normal `n`, total
inverse mass `w > 0`, friction coefficients `≥ 0` and static bodies having
inverse mass 0, `apply_friction` leaves the normal component `(v_b − v_a)·n` of
the relative velocity unchanged, and the tangential relative velocity afterwards
is `k` times the one before for some `k` with `0 ≤ k ≤ 1`. -/
theorem apply_friction_tangential (sqrtf : R → R) (hs : IsSqrt sqrtf) (c : CollisionInfo R)
    (a b : RigidBody R) (hn : vector3_length_squared c.normal = 1)
    (hw : 0 < a.inverse_mass + b.inverse_mass)
    (hfa : 0 ≤ a.friction) (hfb : 0 ≤ b.friction)
    (hsa : a.is_static = true → a.inverse_mass = 0)
    (hsb : b.is_static = true → b.inverse_mass = 0) :
    vector3_dot
        (vector3_subtract (apply_friction sqrtf c a b).2.velocity
          (apply_friction sqrtf c a b).1.velocity) c.normal =
      vector3_dot (vector3_subtract b.velocity a.velocity) c.normal ∧
    ∃ k, 0 ≤ k ∧ k ≤ 1 ∧
      tangential_velocity c (apply_friction sqrtf c a b).1 (apply_friction sqrtf c a b).2 =
        vector3_scale (tangential_velocity c a b) k := by
  obtain ⟨q, hq0, hq1, hJ⟩ := friction_impulse_form hs c a b hn hw (mul_nonneg hfa hfb)
  obtain ⟨hva, hvb⟩ := apply_friction_velocity sqrtf c a b hsa hsb
  rw [hJ] at hva hvb
  unfold tangential_velocity at hva hvb ⊢
  dsimp only at hva hvb ⊢
  rw [hva, hvb]
  simp only [vector3_length_squared] at hn
  generalize a.inverse_mass = ia at hq1 hw ⊢
  generalize b.inverse_mass = ib at hq1 hw ⊢
  generalize a.velocity = va
  generalize b.velocity = vb
  constructor
  · simp only [vector3_dot, vector3_subtract, vector3_add, vector3_scale]
    linear_combination
      (q * (ia + ib) * ((vb.x - va.x) * c.normal.x + (vb.y - va.y) * c.normal.y +
        (vb.z - va.z) * c.normal.z)) * hn
  · refine ⟨1 - q * (ia + ib), sub_nonneg.mpr hq1, ?_, ?_⟩
    · have : 0 ≤ q * (ia + ib) := mul_nonneg hq0 (le_of_lt hw)
      linarith
    · simp only [vector3_dot, vector3_subtract, vector3_add, vector3_scale, Vector3.mk.injEq]
      refine ⟨?_, ?_, ?_⟩
      · linear_combination
          (-(c.normal.x * q * (ia + ib) * ((vb.x - va.x) * c.normal.x +
            (vb.y - va.y) * c.normal.y + (vb.z - va.z) * c.normal.z))) * hn
      · linear_combination
          (-(c.normal.y * q * (ia + ib) * ((vb.x - va.x) * c.normal.x +
            (vb.y - va.y) * c.normal.y + (vb.z - va.z) * c.normal.z))) * hn
      · linear_combination
          (-(c.normal.z * q * (ia + ib) * ((vb.x - va.x) * c.normal.x +
            (vb.y - va.y) * c.normal.y + (vb.z - va.z) * c.normal.z))) * hn

/-- Witness of C39: a unit sphere of mass 1 sliding on the static ground plane with
velocity `(1,-1,0)`: the friction step keeps the normal component `-1` of the
relative velocity. -/
theorem apply_friction_tangential_witness :
    vector3_dot
        (vector3_subtract
          (apply_friction Real.sqrt (sample_contact : CollisionInfo ℝ)
            (sample_plane ⟨0, 1, 0⟩ 0) (sample_sphere ⟨0, 1 / 2, 0⟩ ⟨1, -1, 0⟩ 1)).2.velocity
          (apply_friction Real.sqrt (sample_contact : CollisionInfo ℝ)
            (sample_plane ⟨0, 1, 0⟩ 0) (sample_sphere ⟨0, 1 / 2, 0⟩ ⟨1, -1, 0⟩ 1)).1.velocity)
        (sample_contact : CollisionInfo ℝ).normal =
      vector3_dot
        (vector3_subtract (sample_sphere (⟨0, 1 / 2, 0⟩ : Vector3 ℝ) ⟨1, -1, 0⟩ 1).velocity
          (sample_plane (⟨0, 1, 0⟩ : Vector3 ℝ) 0).velocity)
        (sample_contact : CollisionInfo ℝ).normal :=
  (apply_friction_tangential Real.sqrt isSqrt_real sample_contact (sample_plane ⟨0, 1, 0⟩ 0)
    (sample_sphere ⟨0, 1 / 2, 0⟩ ⟨1, -1, 0⟩ 1)
    (by norm_num [vector3_length_squared, sample_contact])
    (by norm_num [sample_plane, sample_sphere_inverse_mass])
    (by norm_num [sample_plane, rigid_body_create])
    (by norm_num [sample_sphere, rigid_body_init_sphere, rigid_body_set_mass, rigid_body_create])
    (by simp [sample_plane])
    (by simp [sample_sphere_static])).1

/-! ## Sphere and plane: the order of the two bodies -/

/-- C35. For a dynamic sphere and a static plane with unit normal `n` and inverse
mass 0 that collide, `detect_collision` reports the same contact, with normal `n`
and depth `r − s` (`s` the signed distance of the centre to the plane), whichever
body is passed first; `separate_bodies` on the contact with the bodies in the
order (sphere, plane) moves the sphere so that its signed distance becomes
`2s − r`, and in the order (plane, sphere) so that it becomes exactly `r`; the
plane is not moved. -/
theorem sphere_plane_order (sqrtf : R → R) (s p : RigidBody R) (r d : R) (n : Vector3 R)
    (hS : s.shape = CollisionShape.sphere r) (hP : p.shape = CollisionShape.plane n d)
    (hn : vector3_length_squared n = 1) (hps : p.is_static = true)
    (hpi : p.inverse_mass = 0) (hss : s.is_static = false) (hsi : 0 < s.inverse_mass)
    (info : CollisionInfo R) (h : detect_collision sqrtf s p = some info) :
    info.normal = n ∧
    info.penetration_depth = r - distance_to_plane s.position n d ∧
    detect_collision sqrtf p s = some info ∧
    distance_to_plane (separate_bodies info s p).1.position n d =
      2 * distance_to_plane s.position n d - r ∧
    (separate_bodies info s p).2 = p ∧
    distance_to_plane (separate_bodies info p s).2.position n d = r ∧
    (separate_bodies info p s).1 = p := by
  have hnar := detect_collision_narrow sqrtf s p info h
  rw [hS, hP] at hnar
  dsimp only at hnar
  have hgate : ¬ aabb_overlap_test s p = false := by
    intro hg
    unfold detect_collision at h
    rw [if_pos hg] at h
    exact absurd h (by simp)
  have hrev : detect_collision sqrtf p s = some info := by
    unfold detect_collision
    rw [aabb_overlap_test_comm p s, if_neg hgate, hP, hS]
    exact hnar
  have hnorm := sphere_plane_normal s r n d info hnar
  have hdepth : info.penetration_depth = r - distance_to_plane s.position n d := by
    unfold sphere_plane_collision at hnar
    dsimp only at hnar
    split_ifs at hnar
    rw [← Option.some.inj hnar]
  have hs0 : s.inverse_mass ≠ 0 := ne_of_gt hsi
  have hstat_s : s.is_static = true → s.inverse_mass = 0 := fun hh =>
    absurd (hss.symm.trans hh) (by decide)
  refine ⟨hnorm, hdepth, hrev, ?_, ?_, ?_, ?_⟩
  · rw [separate_bodies_eq info s p (by rw [hpi, add_zero]; exact hsi) hstat_s (fun _ => hpi)]
    dsimp only
    rw [hnorm, hdepth, hpi, add_zero, div_self hs0]
    simp only [vector3_length_squared] at hn
    simp only [distance_to_plane, vector3_dot, vector3_add, vector3_scale]
    linear_combination
      (-(r - (s.position.x * n.x + s.position.y * n.y + s.position.z * n.z - d))) * hn
  · unfold separate_bodies
    dsimp only
    split_ifs <;> first | rfl | exact absurd (hps.symm.trans ‹p.is_static = false›) (by decide)
  · rw [separate_bodies_eq info p s (by rw [hpi, zero_add]; exact hsi) (fun _ => hpi) hstat_s]
    dsimp only
    rw [hnorm, hdepth, hpi, zero_add, div_self hs0]
    simp only [vector3_length_squared] at hn
    simp only [distance_to_plane, vector3_dot, vector3_add, vector3_scale]
    linear_combination
      (r - (s.position.x * n.x + s.position.y * n.y + s.position.z * n.z - d)) * hn
  · unfold separate_bodies
    dsimp only
    split_ifs <;> first | rfl | exact absurd (hps.symm.trans ‹p.is_static = false›) (by decide)

/-- Witness of C35: the unit sphere centred at `(0,1/2,0)` and the ground plane: the
signed distance `1/2` becomes `2·(1/2) − 1 = 0` in the order (sphere, plane) and
`1` in the order (plane, sphere). -/
theorem sphere_plane_order_witness :
    distance_to_plane
        (separate_bodies ⟨true, ⟨0, -1 / 2, 0⟩, ⟨0, 1, 0⟩, 1 / 2⟩
          (sample_sphere (⟨0, 1 / 2, 0⟩ : Vector3 ℝ) ⟨0, 0, 0⟩ 1)
          (sample_plane ⟨0, 1, 0⟩ 0)).1.position ⟨0, 1, 0⟩ 0 =
      2 * distance_to_plane (sample_sphere (⟨0, 1 / 2, 0⟩ : Vector3 ℝ) ⟨0, 0, 0⟩ 1).position
        ⟨0, 1, 0⟩ 0 - 1 ∧
    distance_to_plane
        (separate_bodies ⟨true, ⟨0, -1 / 2, 0⟩, ⟨0, 1, 0⟩, 1 / 2⟩
          (sample_plane ⟨0, 1, 0⟩ 0)
          (sample_sphere (⟨0, 1 / 2, 0⟩ : Vector3 ℝ) ⟨0, 0, 0⟩ 1)).2.position ⟨0, 1, 0⟩ 0 =
      1 := by
  have h := sphere_plane_order Real.sqrt
    (sample_sphere (⟨0, 1 / 2, 0⟩ : Vector3 ℝ) ⟨0, 0, 0⟩ 1) (sample_plane ⟨0, 1, 0⟩ 0) 1 0
    ⟨0, 1, 0⟩ (sample_sphere_shape _ _ _) rfl (by norm_num [vector3_length_squared]) rfl rfl
    (sample_sphere_static _ _ _) (by norm_num [sample_sphere_inverse_mass])
    ⟨true, ⟨0, -1 / 2, 0⟩, ⟨0, 1, 0⟩, 1 / 2⟩
    (by
      norm_num [detect_collision, aabb_overlap_test, get_aabb_min, get_aabb_max, sample_sphere,
        sample_plane, rigid_body_init_sphere, rigid_body_set_mass, rigid_body_create,
        vector3_create, sphere_plane_collision, distance_to_plane, vector3_dot, vector3_add,
        vector3_scale, FLT_MAX, vector3_zero])
  exact ⟨h.2.2.2.1, h.2.2.2.2.2.1⟩

/-! ## Scenario: the horizontal projectile -/

/-- C27 (as stated, refuted). With the linear damping `0.01` of `physics_world_init`
the horizontal velocity is multiplied by `0.99` in every step, so after 60 steps
the sphere is at `x = 50/3·(1 − 0.99^60) < 8`, more than 2 units short of
`x = 10`, and not within `0.5` of `(10, −4.905, 0)`. -/
theorem projectile_without_damping_counterexample :
    ∃ body,
      ((physics_world_step Real.sqrt id)^[60] (projectile_world : PhysicsWorld ℝ)).bodies =
        [body] ∧
      body.position.x = 50 / 3 * (1 - (99 / 100) ^ 60) ∧
      body.position.x < 8 ∧
      ¬ vector3_distance Real.sqrt body.position ⟨10, -4905 / 1000, 0⟩ < 1 / 2 := by
  obtain ⟨py, pz, vy, vz, _, _, _, _, _, _, _, body, hb, _, _, _, _, _, hpos, _⟩ :=
    projectile_damped_flight (R := ℝ) Real.sqrt id 60 le_rfl
  have hx : body.position.x = 50 / 3 * (1 - (99 / 100) ^ 60) := by rw [hpos]
  have hlt : body.position.x < 8 := by
    rw [hx]
    norm_num
  refine ⟨body, hb, hx, hlt, ?_⟩
  have hle := abs_x_le_length isSqrt_real
    (vector3_subtract (⟨10, -4905 / 1000, 0⟩ : Vector3 ℝ) body.position)
  unfold vector3_distance
  intro hclose
  have h2 : |(vector3_subtract (⟨10, -4905 / 1000, 0⟩ : Vector3 ℝ) body.position).x| < 1 / 2 :=
    lt_of_le_of_lt hle hclose
  simp only [vector3_subtract] at h2
  rw [abs_lt] at h2
  linarith [h2.2]

/-- C27 (amended). Horizontal projectile without damping: in a world created with
`physics_world_init` whose integration method is set to Euler and whose dampings
are set to 0 by `physics_world_set_damping(world, 0, 0)` (gravity `(0,−9.81,0)`,
timestep `1/60`, every other setting as initialised) and that contains only a
sphere of mass 1 at the origin with velocity `(10,0,0)`, after 60 calls to
`physics_world_step` the sphere is at `(10, −4.98675, 0)`, at the distance
`0.08175 < 0.5` from `(10, −4.905, 0)` (with `sqrtf` an exact square root). -/
theorem projectile_without_damping (sqrtf : R → R) (hs : IsSqrt sqrtf)
    (scale_inf : Vector3 R → Vector3 R) :
    ∃ body,
      ((physics_world_step sqrtf scale_inf)^[60]
        (physics_world_set_damping projectile_world 0 0)).bodies = [body] ∧
      body.position = ⟨10, -59841 / 12000, 0⟩ ∧
      vector3_distance sqrtf body.position ⟨10, -4905 / 1000, 0⟩ = 327 / 4000 ∧
      vector3_distance sqrtf body.position ⟨10, -4905 / 1000, 0⟩ < 1 / 2 := by
  obtain ⟨_, _, _, _, _, _, _, body, hb, _, _, _, _, _, hpos, _⟩ :=
    projectile_undamped_flight sqrtf scale_inf 60
  have hp : body.position = ⟨10, -59841 / 12000, 0⟩ := by
    rw [hpos]
    norm_num
  have hd : vector3_distance sqrtf body.position ⟨10, -4905 / 1000, 0⟩ = 327 / 4000 := by
    rw [hp]
    unfold vector3_distance vector3_length
    apply sqrt_unique hs _ _ (by norm_num)
    norm_num [vector3_length_squared, vector3_subtract]
  refine ⟨body, hb, hp, hd, ?_⟩
  rw [hd]
  norm_num

/-- Witness of C27 (amended): the case of the real numbers with `Real.sqrt`. -/
theorem projectile_without_damping_witness :
    ∃ body,
      ((physics_world_step Real.sqrt id)^[60]
        (physics_world_set_damping (projectile_world : PhysicsWorld ℝ) 0 0)).bodies = [body] ∧
      body.position = ⟨10, -59841 / 12000, 0⟩ ∧
      vector3_distance Real.sqrt body.position ⟨10, -4905 / 1000, 0⟩ = 327 / 4000 ∧
      vector3_distance Real.sqrt body.position ⟨10, -4905 / 1000, 0⟩ < 1 / 2 :=
  projectile_without_damping Real.sqrt isSqrt_real id

/-! ## Scenario: the ball on flat ground -/

/-- C26 (as stated, refuted). In the world of `physics_world_init` with a ground
plane (normal `(0,1,0)`, distance 0) and a sphere of radius 1, mass 1,
restitution 0 and friction 0 at rest at `(0,2,0)`, after 600 calls of
`physics_world_step` the sphere, the body of index 1, is at height
`159891/80000 = 1.9986375`, which is not within 0.05 of 1. -/
theorem ball_on_ground_counterexample :
    ∃ sphere : RigidBody ℝ,
      ((physics_world_step Real.sqrt id)^[600] ground_ball_world).bodies.get? 1 = some sphere ∧
      sphere.position.y = 159891 / 80000 ∧
      ¬ (|sphere.position.y - 1| < 5 / 100 ∧
        vector3_length Real.sqrt sphere.velocity < 5 / 100) := by
  refine ⟨hung_ball, ?_, rfl, ?_⟩
  · rw [ground_ball_run]
    rfl
  · intro h
    have h1 : |(159891 / 80000 : ℝ) - 1| < 5 / 100 := h.1
    rw [abs_of_nonneg (by norm_num)] at h1
    norm_num at h1

/-- C26 (amended). In the world of `physics_world_init` (gravity `(0,-9.81,0)`,
Verlet, timestep 1/60, one sub-step) containing a ground plane with normal
`(0,1,0)` and distance 0 and a sphere of radius 1, mass 1, restitution 0 and
friction 0 placed at rest at `(0,2,0)`, with `sqrtf` an exact square root: the
first call of `physics_world_step` moves the sphere to `(0, 1.9986375, 0)` and
puts it to sleep with zero velocity, and after 600 calls the world is the same
as after the first: the sphere is asleep at `(0, 1.9986375, 0)`, so
`|position.y − 1.9986375| < 0.05`, and `|velocity| < 0.05`, the velocity being
zero. -/
theorem ball_on_ground_sleeps (sqrtf : R → R) (scale_inf : Vector3 R → Vector3 R)
    (hs : IsSqrt sqrtf) :
    (physics_world_step sqrtf scale_inf)^[600] ground_ball_world =
      physics_world_step sqrtf scale_inf ground_ball_world ∧
    ∃ sphere : RigidBody R,
      ((physics_world_step sqrtf scale_inf)^[600] ground_ball_world).bodies =
        [sample_plane ⟨0, 1, 0⟩ 0, sphere] ∧
      sphere.is_sleeping = true ∧
      sphere.position = ⟨0, 159891 / 80000, 0⟩ ∧
      sphere.velocity = vector3_zero ∧
      |sphere.position.y - 159891 / 80000| < 5 / 100 ∧
      vector3_length sqrtf sphere.velocity < 5 / 100 := by
  have hv : (hung_ball : RigidBody R).velocity = vector3_zero := by
    norm_num [hung_ball, ground_ball, rigid_body_set_friction, rigid_body_set_restitution,
      sample_sphere, vector3_zero]
  refine ⟨by rw [ground_ball_run, ground_ball_first_step], hung_ball, ?_, rfl, rfl, hv, ?_, ?_⟩
  · rw [ground_ball_run]
    rfl
  · show |(159891 / 80000 : R) - 159891 / 80000| < 5 / 100
    norm_num
  · rw [hv, length_zero hs]
    norm_num

/-- Witness of C26 (amended): the scenario over the reals with `Real.sqrt`. -/
theorem ball_on_ground_sleeps_witness :
    ∃ sphere : RigidBody ℝ,
      ((physics_world_step Real.sqrt id)^[600] ground_ball_world).bodies =
        [sample_plane ⟨0, 1, 0⟩ 0, sphere] ∧
      sphere.is_sleeping = true ∧
      sphere.position = ⟨0, 159891 / 80000, 0⟩ ∧
      sphere.velocity = vector3_zero ∧
      |sphere.position.y - 159891 / 80000| < 5 / 100 ∧
      vector3_length Real.sqrt sphere.velocity < 5 / 100 :=
  (ball_on_ground_sleeps Real.sqrt id isSqrt_real).2

end Claims

end Charvak
